import Mathlib

/-!
# Flight state synchronisation and notification pipeline

A shallow embedding of the flight-status services of the travel companion
backend (`internal/services/flight_service.go`,
`internal/services/notification_service.go`,
`internal/services/aviation_service_api.go`,
`internal/services/location_service.go`,
`internal/controllers/flight_controller.go`, `internal/utils/validator.go`,
`internal/models/*.go`).

Modelling conventions.

* The Redis client, the MongoDB collections, the HTTP client, the JSON codec,
  the clock and the push transport are collaborators.  Redis and MongoDB are
  explicit state (`State`); the HTTP reply, the JSON codec, the clock, the date
  formatter and the outcome of a push are read from an environment (`Env`).
* A store or cache call that the source issues without looking at its error
  result is modelled as succeeding; `context.Context` deadlines are not
  modelled.  A call whose error the source does look at fails exactly when
  no document or key matches.
* Every call to a collaborator is recorded, in order, in `State.trace`, so that
  "no provider call" and "exactly one cache write" are statements about the
  trace.
* A MongoDB document is kept as the decoded struct: encoding a snapshot to BSON
  and decoding it again is taken to give the snapshot back.  The cache, whose
  bytes the services encode and decode themselves, keeps bytes.
* The push transport is taken to be configured (`cmd/server/main.go` wires the
  notification service with a nil `FCMService`, on which a send would panic).
* `time.Time` is an integer number of nanoseconds counted from the zero value
  of `time.Time`; one operation reads the clock once.
* Go `int` values are `Int`; where the source adds to one, the 64-bit
  wrap-around is explicit.
* A `float64` is its bit pattern, and the float arithmetic and `math`
  functions are collaborators (`FloatOps`): the embedding fixes which
  operations are applied to what, not how they round.
-/

namespace TravelSystem

/-! ## Time -/

/-- Instants: nanoseconds since the zero `time.Time`. -/
abbrev Time := Int

/-- Go `time.Duration`: a signed nanosecond count. -/
abbrev Duration := Int

/-- Go `time.Minute`. -/
def Minute : Duration := 60000000000

/-- Largest `time.Duration`. -/
def maxDuration : Duration := 9223372036854775807

/-- Smallest `time.Duration`. -/
def minDuration : Duration := -9223372036854775808

/-- Go `Time.Sub`: the difference, saturated to the range of `time.Duration`. -/
def timeSub (t u : Time) : Duration :=
  if t - u > maxDuration then maxDuration
  else if t - u < minDuration then minDuration
  else t - u

/-- Go `int(d.Minutes())`: whole minutes, truncated towards zero.  (The source
goes through a `float64`; the truncation below is what that yields whenever the
float sum of whole minutes and the fractional rest does not round up to the
next integer.) -/
def wholeMinutes (d : Duration) : Int :=
  Int.tdiv d Minute

/-- Mongo `primitive.ObjectID`. -/
abbrev ObjectID := Nat

/-! ## Models (`internal/models`) -/

/-- Provider airport block (`AviationStackAirportInfo`). -/
structure AviationStackAirportInfo where
  Airport : String := ""
  Timezone : String := ""
  Iata : String := ""
  Terminal : String := ""
  Gate : String := ""
  Delay : Int := 0
  Scheduled : String := ""
  Estimated : String := ""
  Actual : String := ""
deriving DecidableEq, Repr

/-- Provider airline block (`AviationStackAirline`). -/
structure AviationStackAirline where
  Name : String := ""
  Iata : String := ""
deriving DecidableEq, Repr

/-- Provider flight block (`AviationStackFlightInfo`). -/
structure AviationStackFlightInfo where
  Number : String := ""
  Iata : String := ""
deriving DecidableEq, Repr

/-- One flight of a provider reply (`AviationStackFlight`). -/
structure AviationStackFlight where
  FlightDate : String := ""
  FlightStatus : String := ""
  Departure : AviationStackAirportInfo := {}
  Arrival : AviationStackAirportInfo := {}
  Airline : AviationStackAirline := {}
  Flight : AviationStackFlightInfo := {}
deriving DecidableEq, Repr

/-- A provider reply (`AviationStackResponse`). -/
structure AviationStackResponse where
  Data : List AviationStackFlight := []
deriving DecidableEq, Repr

/-- Embedded gate-change record (`models.GateChange`). -/
structure GateChange where
  OldGate : String := ""
  NewGate : String := ""
  Reason : String := ""
  TimeImpact : String := ""
  ChangedAt : Time := 0
deriving DecidableEq, Repr

/-- The flight snapshot (`models.FlightStatus`).  The defaults are the Go zero
value.  `RawData` is `interface{}` in the source; the only value the code ever
puts there is the provider flight it was built from. -/
structure FlightStatus where
  FlightKey : String := ""
  FlightNumber : String := ""
  AirlineCode : String := ""
  Status : String := ""
  Gate : String := ""
  Terminal : String := ""
  BoardingTime : Time := 0
  DepartureTime : Time := 0
  ArrivalTime : Time := 0
  DelayMinutes : Int := 0
  GateChange : Option GateChange := none
  LastUpdated : Time := 0
  RawData : Option AviationStackFlight := none
deriving DecidableEq, Repr

/-- A tracked flight (`models.TrackedFlight`). -/
structure TrackedFlight where
  ID : ObjectID := 0
  UserID : ObjectID := 0
  FlightNumber : String := ""
  AirlineCode : String := ""
  DepartureDate : Time := 0
  DepartureAirport : String := ""
  ArrivalAirport : String := ""
  IsActive : Bool := false
  CreatedAt : Time := 0
  UpdatedAt : Time := 0
deriving DecidableEq, Repr

/-- Minutes until boarding and departure (`models.TimeUntil`). -/
structure TimeUntil where
  BoardingMinutes : Int := 0
  DepartureMinutes : Int := 0
deriving DecidableEq, Repr

/-- What `GetFlightStatus` answers (`models.FlightStatusResponse`). -/
structure FlightStatusResponse where
  Flight : FlightStatus := {}
  TimeUntil : TimeUntil := {}
  UrgencyLevel : String := ""
deriving DecidableEq, Repr

/-- The six preference switches (`models.UserPreferences`). -/
structure UserPreferences where
  NotifyGateChange : Bool := false
  NotifyBoarding : Bool := false
  NotifyDelay : Bool := false
  BoardingReminder40 : Bool := false
  BoardingReminder20 : Bool := false
  BoardingReminder10 : Bool := false
deriving DecidableEq, Repr

/-- A user account (`models.User`). -/
structure User where
  ID : ObjectID := 0
  Email : String := ""
  Phone : String := ""
  Password : String := ""
  FCMToken : String := ""
  Preferences : UserPreferences := {}
  CreatedAt : Time := 0
  UpdatedAt : Time := 0
deriving DecidableEq, Repr

/-- A notification record (`models.Notification`); `Typ` is the source field
`Type`. -/
structure Notification where
  ID : ObjectID := 0
  UserID : ObjectID := 0
  FlightKey : String := ""
  Typ : String := ""
  Title : String := ""
  Body : String := ""
  Priority : String := ""
  SentAt : Time := 0
  ReadAt : Option Time := none
deriving DecidableEq, Repr

/-! ## The change map -/

/-- A value of the change map: the source stores either a
`map[string]string` or a `map[string]int`, each with exactly the keys `"old"`
and `"new"`. -/
inductive ChangeValue where
  | strings (old new : String)
  | ints (old new : Int)
deriving DecidableEq, Repr

/-- The `map[string]interface{}` built by `detectChanges`, as an association
list with at most one entry per key. -/
abbrev Changes := List (String × ChangeValue)

/-- Go map assignment `m[k] = v`. -/
def mapSet (m : Changes) (k : String) (v : ChangeValue) : Changes :=
  if m.any (fun e => e.1 == k) then
    m.map (fun e => if e.1 == k then (k, v) else e)
  else m ++ [(k, v)]

/-- `FlightService.detectChanges`. -/
def detectChanges (old new : FlightStatus) : Changes :=
  let changes : Changes := []
  let changes :=
    if old.Gate ≠ "" ∧ old.Gate ≠ new.Gate then
      mapSet changes "gate" (ChangeValue.strings old.Gate new.Gate)
    else changes
  let changes :=
    if old.Status ≠ new.Status then
      mapSet changes "status" (ChangeValue.strings old.Status new.Status)
    else changes
  let changes :=
    if old.DelayMinutes ≠ new.DelayMinutes then
      mapSet changes "delay" (ChangeValue.ints old.DelayMinutes new.DelayMinutes)
    else changes
  changes

/-! ## Location models (`internal/models/airport.go`, `location_service.go`) -/

/-- A `float64`, as its IEEE-754 bit pattern (`math.Float64bits`). -/
abbrev Float64 := Nat

/-- The `float64` operations the location service uses: conversion of an
integer constant, the constant 1.4, `math.Pi`, the four arithmetic operations,
`math.Sin`, `math.Cos`, `math.Sqrt`, `math.Atan2`, and the conversion
`int(_)`. -/
structure FloatOps where
  ofInt : Int → Float64
  lit14 : Float64
  Pi : Float64
  add : Float64 → Float64 → Float64
  sub : Float64 → Float64 → Float64
  mul : Float64 → Float64 → Float64
  div : Float64 → Float64 → Float64
  Sin : Float64 → Float64
  Cos : Float64 → Float64
  Sqrt : Float64 → Float64
  Atan2 : Float64 → Float64 → Float64
  toInt : Float64 → Int

/-- An airport (`models.Airport`). -/
structure Airport where
  Code : String := ""
  Name : String := ""
  City : String := ""
  Country : String := ""
  Timezone : String := ""
  SecurityWaitAvg : Int := 0
  Latitude : Float64 := 0
  Longitude : Float64 := 0
deriving DecidableEq, Repr

/-- A user's last reported position (`services.UserLocation`). -/
structure UserLocation where
  UserID : String := ""
  Latitude : Float64 := 0
  Longitude : Float64 := 0
  Timestamp : Time := 0
deriving DecidableEq, Repr

/-- What `GetWalkTime` answers (`models.WalkTimeResponse`). -/
structure WalkTimeResponse where
  FlightID : String := ""
  DistanceMeters : Float64 := 0
  WalkTimeMinutes : Int := 0
  UrgencyLevel : String := ""
  RecommendedAction : String := ""
deriving DecidableEq, Repr

/-! ## Collaborators -/

/-- Errors surfaced by the services.  The source builds them with
`fmt.Errorf`; only which error it is matters to the callers modelled here. -/
inductive Error where
  | apiCallFailed
  | readFailed
  | parseFailed
  | flightNotFound
  | notImplemented (name : String)
  | unsupportedProvider (name : String)
  | flightNotFoundOrInvalid (cause : Error)
  | invalidDateFormat
  | flightNotFoundOrUnauthorized
  | userLocationNotFound
  | locationDecodeFailed
  | airportNotFound
deriving DecidableEq, Repr

/-- Outcome of `s.Client.Get(url)` followed by `io.ReadAll(resp.Body)`. -/
inductive HttpResult where
  | getFailed
  | readFailed
  | body (bytes : String)
deriving DecidableEq, Repr

/-- One key of the Redis cache: the bytes, the TTL given to `Set`, and the
instant of the `Set`. -/
structure CacheEntry where
  key : String
  value : String
  ttl : Duration
  setAt : Time
deriving DecidableEq, Repr

/-- A push message handed to `FCMService.SendNotification`. -/
structure PushMessage where
  token : String
  title : String
  body : String
  data : List (String × String)
deriving DecidableEq, Repr

/-- Calls to collaborators, in the order the code issues them. -/
inductive Event where
  | redisGet (key : String)
  | redisSet (key value : String) (ttl : Duration)
  | findFlightStatus (flightKey : String)
  | insertFlightStatus (status : FlightStatus)
  | updateFlightStatus (flightKey : String) (status : FlightStatus)
  | findUser (id : ObjectID)
  | insertNotification (n : Notification)
  | providerFetch (flightNumber date : String)
  | handleFlightChanges (userID : ObjectID) (flightKey : String)
  | fcmSend (msg : PushMessage)
  | findActiveFlights
  | insertTrackedFlight (flight : TrackedFlight)
  | updateTrackedFlight (flightID userID : ObjectID)
  | findTrackedFlight (id : ObjectID)
  | findAirport (code : String)
deriving DecidableEq, Repr

/-- What the services read from the outside world during one operation. -/
structure Env where
  /-- Value of `Config.Aviation.Provider`. -/
  provider : String
  /-- Value of `Config.Aviation.AviationStackKey`. -/
  aviationStackKey : String
  /-- The HTTP client: URL to outcome. -/
  httpGet : String → HttpResult
  /-- Decoding of a reply body by `json.Unmarshal` into `AviationStackResponse`. -/
  decodeResponse : String → Option AviationStackResponse
  /-- Parsing by `time.Parse(time.RFC3339, _)`. -/
  parseRFC3339 : String → Option Time
  /-- Formatting by `Time.Format("2006-01-02")`. -/
  formatDate : Time → String
  /-- Parsing by `time.Parse("2006-01-02", _)`. -/
  parseDate : String → Option Time
  /-- Reading of `time.Now()`. -/
  now : Time
  /-- Encoding by `json.Marshal` of a `FlightStatus`. -/
  marshal : FlightStatus → Option String
  /-- Decoding by `json.Unmarshal` into a `FlightStatus`. -/
  unmarshal : String → Option FlightStatus
  /-- Whether the push transport accepts a message. -/
  fcmAccepts : PushMessage → Bool
  /-- The `float64` operations. -/
  float : FloatOps
  /-- Rendering by `ObjectID.Hex()`. -/
  hexOf : ObjectID → String
  /-- Parsing by `primitive.ObjectIDFromHex`. -/
  objectIDFromHex : String → Option ObjectID
  /-- Decoding by `json.Unmarshal` into a `UserLocation`. -/
  unmarshalLocation : String → Option UserLocation

/-- Redis and the MongoDB collections, the object-id generator, and the trace
of collaborator calls. -/
structure State where
  redis : List CacheEntry := []
  flightStatus : List FlightStatus := []
  trackedFlights : List TrackedFlight := []
  users : List User := []
  notifications : List Notification := []
  airports : List Airport := []
  nextID : ObjectID := 0
  trace : List Event := []
deriving DecidableEq, Repr

/-- Append an event to the trace. -/
def State.log (s : State) (e : Event) : State :=
  { s with trace := s.trace ++ [e] }

/-- Whether a cache entry has not expired at `now`. -/
def CacheEntry.alive (now : Time) (e : CacheEntry) : Bool :=
  decide (now < e.setAt + e.ttl)

/-- Content of the Redis cache under `key` at `now`, without the trace. -/
def cacheLookup (now : Time) (redis : List CacheEntry) (key : String) : Option String :=
  match redis.find? (fun e => e.key == key) with
  | some e => if e.alive now then some e.value else none
  | none => none

/-- Redis `Get(key).Result()`. -/
def redisGet (env : Env) (s : State) (key : String) : Option String × State :=
  (cacheLookup env.now s.redis key, s.log (Event.redisGet key))

/-- Redis `Set(key, value, ttl)`; the source ignores its result. -/
def redisSet (env : Env) (s : State) (key value : String) (ttl : Duration) : State :=
  let s := s.log (Event.redisSet key value ttl)
  { s with redis :=
      { key := key, value := value, ttl := ttl, setAt := env.now } ::
        s.redis.filter (fun e => !(e.key == key)) }

/-- First document of the flight-status collection with the given flight key,
without the trace. -/
def storeLookup (docs : List FlightStatus) (flightKey : String) : Option FlightStatus :=
  docs.find? (fun d => d.FlightKey == flightKey)

/-- Mongo `FlightStatus().FindOne(ctx, {"flight_key": flightKey}).Decode(_)`. -/
def findOneFlightStatus (s : State) (flightKey : String) : Option FlightStatus × State :=
  (storeLookup s.flightStatus flightKey, s.log (Event.findFlightStatus flightKey))

/-- Mongo `FlightStatus().InsertOne(ctx, status)`: the collection has no unique
index, so the document is appended. -/
def insertOneFlightStatus (s : State) (status : FlightStatus) : State :=
  let s := s.log (Event.insertFlightStatus status)
  { s with flightStatus := s.flightStatus ++ [status] }

/-- The effect of `{"$set": status}` on one stored document.  The update
document is the BSON encoding of the struct, which leaves out every
`omitempty` field holding its zero value (gate, terminal, boarding time,
gate-change record, raw data); a field that is left out keeps what the stored
document has. -/
def bsonSet (doc upd : FlightStatus) : FlightStatus :=
  { FlightKey := upd.FlightKey
    FlightNumber := upd.FlightNumber
    AirlineCode := upd.AirlineCode
    Status := upd.Status
    Gate := if upd.Gate = "" then doc.Gate else upd.Gate
    Terminal := if upd.Terminal = "" then doc.Terminal else upd.Terminal
    BoardingTime := if upd.BoardingTime = 0 then doc.BoardingTime else upd.BoardingTime
    DepartureTime := upd.DepartureTime
    ArrivalTime := upd.ArrivalTime
    DelayMinutes := upd.DelayMinutes
    GateChange := match upd.GateChange with
      | none => doc.GateChange
      | some g => some g
    LastUpdated := upd.LastUpdated
    RawData := match upd.RawData with
      | none => doc.RawData
      | some r => some r }

/-- Apply `f` to the first element satisfying `p`; nothing changes when there
is none. -/
def updateFirst {α : Type} (p : α → Bool) (f : α → α) : List α → List α
  | [] => []
  | x :: xs => if p x then f x :: xs else x :: updateFirst p f xs

/-- Mongo `FlightStatus().UpdateOne(ctx, {"flight_key": flightKey}, {"$set": status})`,
called without the upsert option: the first matching document is updated, and
nothing is written when no document matches. -/
def updateOneFlightStatus (s : State) (flightKey : String) (status : FlightStatus) : State :=
  let s := s.log (Event.updateFlightStatus flightKey status)
  { s with flightStatus :=
      updateFirst (fun d => d.FlightKey == flightKey) (fun d => bsonSet d status) s.flightStatus }

/-- Mongo `Users().FindOne(ctx, {"_id": id}).Decode(_)`. -/
def findOneUser (s : State) (id : ObjectID) : Option User × State :=
  (s.users.find? (fun u => u.ID == id), s.log (Event.findUser id))

/-- Mongo `Notifications().InsertOne(ctx, n)`. -/
def insertOneNotification (s : State) (n : Notification) : State :=
  let s := s.log (Event.insertNotification n)
  { s with notifications := s.notifications ++ [n] }

/-- Go `primitive.NewObjectID()`. -/
def newObjectID (s : State) : ObjectID × State :=
  (s.nextID, { s with nextID := s.nextID + 1 })

/-- `FCMService.SendNotification`; returns whether the transport accepted. -/
def fcmSendNotification (env : Env) (s : State) (token title body : String)
    (data : List (String × String)) : Bool × State :=
  let msg : PushMessage := { token := token, title := title, body := body, data := data }
  (env.fcmAccepts msg, s.log (Event.fcmSend msg))

/-! ## Provider gateway (`aviation_service_api.go`) -/

namespace AviationService

/-- `AviationService.mapStatus`. -/
def mapStatus (apiStatus : String) : String :=
  if apiStatus = "scheduled" then "On Time"
  else if apiStatus = "active" then "Boarding Soon"
  else if apiStatus = "landed" then "Arrived"
  else if apiStatus = "cancelled" then "Cancelled"
  else if apiStatus = "incident" then "Delayed"
  else if apiStatus = "diverted" then "Diverted"
  else "Unknown"

/-- `AviationService.getFromAviationStack`.  A scheduled time that does not
parse yields the zero `time.Time`, as the source drops the parse error. -/
def getFromAviationStack (env : Env) (flightNumber date : String) : Except Error FlightStatus :=
  let url := "http://api.aviationstack.com/v1/flights?access_key=" ++ env.aviationStackKey
    ++ "&flight_iata=" ++ flightNumber ++ "&flight_date=" ++ date
  match env.httpGet url with
  | HttpResult.getFailed => Except.error Error.apiCallFailed
  | HttpResult.readFailed => Except.error Error.readFailed
  | HttpResult.body bytes =>
    match env.decodeResponse bytes with
    | none => Except.error Error.parseFailed
    | some apiResp =>
      match apiResp.Data with
      | [] => Except.error Error.flightNotFound
      | flight :: _ =>
        let departureTime := (env.parseRFC3339 flight.Departure.Scheduled).getD 0
        let arrivalTime := (env.parseRFC3339 flight.Arrival.Scheduled).getD 0
        let boardingTime := departureTime + (-40) * Minute
        Except.ok
          { FlightKey := flightNumber ++ "_" ++ date
            FlightNumber := flightNumber
            AirlineCode := flight.Airline.Iata
            Status := mapStatus flight.FlightStatus
            Gate := flight.Departure.Gate
            Terminal := flight.Departure.Terminal
            BoardingTime := boardingTime
            DepartureTime := departureTime
            ArrivalTime := arrivalTime
            DelayMinutes := flight.Departure.Delay
            GateChange := none
            LastUpdated := env.now
            RawData := some flight }

/-- `AviationService.getFromFlightAware`. -/
def getFromFlightAware (_flightNumber _date : String) : Except Error FlightStatus :=
  Except.error (Error.notImplemented "FlightAware")

/-- `AviationService.getFromAmadeus`. -/
def getFromAmadeus (_flightNumber _date : String) : Except Error FlightStatus :=
  Except.error (Error.notImplemented "Amadeus")

/-- The result of `AviationService.GetFlightStatus`, without the trace. -/
def fetch (env : Env) (flightNumber date : String) : Except Error FlightStatus :=
  if env.provider = "aviationstack" then getFromAviationStack env flightNumber date
  else if env.provider = "flightaware" then getFromFlightAware flightNumber date
  else if env.provider = "amadeus" then getFromAmadeus flightNumber date
  else Except.error (Error.unsupportedProvider env.provider)

/-- `AviationService.GetFlightStatus`: one provider fetch. -/
def GetFlightStatus (env : Env) (s : State) (flightNumber date : String) :
    Except Error FlightStatus × State :=
  (fetch env flightNumber date, s.log (Event.providerFetch flightNumber date))

end AviationService

/-! ## Notification dispatcher (`notification_service.go`) -/

namespace NotificationService

/-- `NotificationService.sendGateChangeNotification`; `old` and `new` are
`change["old"]` and `change["new"]`. -/
def sendGateChangeNotification (env : Env) (s : State) (user : User) (flight : FlightStatus)
    (old new : String) : State :=
  let title := "⚡ Gate Changed"
  let body := flight.FlightNumber ++ " moved from Gate " ++ old ++ " to Gate " ++ new
  let (id, s) := newObjectID s
  let notification : Notification :=
    { ID := id, UserID := user.ID, FlightKey := flight.FlightKey, Typ := "gate_change",
      Title := title, Body := body, Priority := "high", SentAt := env.now }
  let s := insertOneNotification s notification
  (fcmSendNotification env s user.FCMToken title body
    [("type", "gate_change"), ("flight_key", flight.FlightKey), ("new_gate", new)]).2

/-- `NotificationService.sendStatusChangeNotification`. -/
def sendStatusChangeNotification (env : Env) (s : State) (user : User) (flight : FlightStatus)
    (_old new : String) : State :=
  let title := "Flight " ++ new
  let body := flight.FlightNumber ++ " status changed to " ++ new
  let (id, s) := newObjectID s
  let notification : Notification :=
    { ID := id, UserID := user.ID, FlightKey := flight.FlightKey, Typ := "status_change",
      Title := title, Body := body, Priority := "normal", SentAt := env.now }
  let s := insertOneNotification s notification
  (fcmSendNotification env s user.FCMToken title body
    [("type", "status_change"), ("flight_key", flight.FlightKey)]).2

/-- Go `fmt.Sprintf("%d", n)`. -/
def formatInt (n : Int) : String :=
  toString n

/-- `NotificationService.sendDelayNotification`. -/
def sendDelayNotification (env : Env) (s : State) (user : User) (flight : FlightStatus)
    (_old new : Int) : State :=
  let title := "⏰ Flight Delayed"
  let body := flight.FlightNumber ++ " is delayed by " ++ formatInt new ++ " minutes"
  let (id, s) := newObjectID s
  let notification : Notification :=
    { ID := id, UserID := user.ID, FlightKey := flight.FlightKey, Typ := "delay",
      Title := title, Body := body, Priority := "high", SentAt := env.now }
  let s := insertOneNotification s notification
  (fcmSendNotification env s user.FCMToken title body
    [("type", "delay"), ("flight_key", flight.FlightKey), ("delay", formatInt new)]).2

/-- `NotificationService.HandleFlightChanges`.  The type assertions
`changes["gate"].(map[string]string)` and the like succeed exactly when the key
is present with a value of that shape. -/
def HandleFlightChanges (env : Env) (s : State) (userID : ObjectID) (flight : FlightStatus)
    (changes : Changes) : State :=
  let s := s.log (Event.handleFlightChanges userID flight.FlightKey)
  match findOneUser s userID with
  | (none, s) => s
  | (some user, s) =>
    if user.FCMToken = "" then s
    else
      let s :=
        match changes.lookup "gate" with
        | some (ChangeValue.strings old new) =>
          if user.Preferences.NotifyGateChange then
            sendGateChangeNotification env s user flight old new
          else s
        | _ => s
      let s :=
        match changes.lookup "status" with
        | some (ChangeValue.strings old new) =>
          if user.Preferences.NotifyBoarding then
            sendStatusChangeNotification env s user flight old new
          else s
        | _ => s
      let s :=
        match changes.lookup "delay" with
        | some (ChangeValue.ints old new) =>
          if user.Preferences.NotifyDelay then
            sendDelayNotification env s user flight old new
          else s
        | _ => s
      s

end NotificationService

/-! ## Status resolver and polling (`flight_service.go`) -/

namespace FlightService

/-- `FlightService.cacheFlightStatus`. -/
def cacheFlightStatus (env : Env) (s : State) (status : FlightStatus) : State :=
  match env.marshal status with
  | none => s
  | some data =>
    let key := "flight:" ++ status.FlightKey
    redisSet env s key data (5 * Minute)

/-- `FlightService.getFlightStatusFromCache`; `none` stands for a returned
error (key absent or expired, or bytes that do not decode). -/
def getFlightStatusFromCache (env : Env) (s : State) (flightKey : String) :
    Option FlightStatus × State :=
  let key := "flight:" ++ flightKey
  match redisGet env s key with
  | (none, s) => (none, s)
  | (some data, s) =>
    match env.unmarshal data with
    | none => (none, s)
    | some status => (some status, s)

/-- The urgency tier chosen in `buildFlightStatusResponse` for a number of
minutes until boarding. -/
def urgencyLevel (boardingMinutes : Int) : String :=
  if boardingMinutes ≤ 10 then "critical"
  else if boardingMinutes ≤ 20 then "urgent"
  else if boardingMinutes ≤ 40 then "moderate"
  else "calm"

/-- `FlightService.buildFlightStatusResponse`. -/
def buildFlightStatusResponse (env : Env) (status : FlightStatus) : FlightStatusResponse :=
  let now := env.now
  let boardingMinutes := wholeMinutes (timeSub status.BoardingTime now)
  let departureMinutes := wholeMinutes (timeSub status.DepartureTime now)
  { Flight := status
    TimeUntil := { BoardingMinutes := boardingMinutes, DepartureMinutes := departureMinutes }
    UrgencyLevel := urgencyLevel boardingMinutes }

/-- `FlightService.GetFlightStatus`. -/
def GetFlightStatus (env : Env) (s : State) (flightNumber date : String) :
    Except Error FlightStatusResponse × State :=
  let flightKey := flightNumber ++ "_" ++ date
  match getFlightStatusFromCache env s flightKey with
  | (some cachedStatus, s) => (Except.ok (buildFlightStatusResponse env cachedStatus), s)
  | (none, s) =>
    match findOneFlightStatus s flightKey with
    | (some status, s) =>
      let s := cacheFlightStatus env s status
      (Except.ok (buildFlightStatusResponse env status), s)
    | (none, s) =>
      match AviationService.GetFlightStatus env s flightNumber date with
      | (Except.error err, s) => (Except.error err, s)
      | (Except.ok status2, s) =>
        let s := cacheFlightStatus env s status2
        let s := insertOneFlightStatus s status2
        (Except.ok (buildFlightStatusResponse env status2), s)

/-- The flight key `checkFlightUpdates` computes for a tracked flight. -/
def flightKeyOf (env : Env) (flight : TrackedFlight) : String :=
  flight.FlightNumber ++ "_" ++ env.formatDate flight.DepartureDate

/-- `FlightService.checkFlightUpdates`.  When the store has no document for
the key, `oldStatus` stays the zero `FlightStatus`: the source never looks at
the error of its `FindOne`. -/
def checkFlightUpdates (env : Env) (s : State) (flight : TrackedFlight) : State :=
  let dateStr := env.formatDate flight.DepartureDate
  let flightKey := flight.FlightNumber ++ "_" ++ dateStr
  match findOneFlightStatus s flightKey with
  | (found, s) =>
    let oldStatus : FlightStatus := found.getD {}
    match AviationService.GetFlightStatus env s flight.FlightNumber dateStr with
    | (Except.error _, s) => s
    | (Except.ok newStatus, s) =>
      let changes := detectChanges oldStatus newStatus
      if changes.length > 0 then
        let s := updateOneFlightStatus s flightKey newStatus
        let s := cacheFlightStatus env s newStatus
        let s := NotificationService.HandleFlightChanges env s flight.UserID newStatus changes
        s
      else s

end FlightService

/-! ## Reminder scheduler (`notification_service.go`) -/

/-- Mongo `TrackedFlights().Find(ctx, {"is_active": true})` followed by
`cursor.All`. -/
def findActiveFlights (s : State) : List TrackedFlight × State :=
  (s.trackedFlights.filter (fun f => f.IsActive), s.log Event.findActiveFlights)

/-- Mongo `TrackedFlights().InsertOne(ctx, flight)`. -/
def insertOneTrackedFlight (s : State) (flight : TrackedFlight) : State :=
  let s := s.log (Event.insertTrackedFlight flight)
  { s with trackedFlights := s.trackedFlights ++ [flight] }

namespace NotificationService

/-- `NotificationService.sendBoardingReminder`. -/
def sendBoardingReminder (env : Env) (s : State) (user : User) (flight : FlightStatus)
    (minutes : Int) : State :=
  let (title, priority) :=
    if minutes = 40 then ("⏰ Start Heading to Gate", "normal")
    else if minutes = 20 then ("🚨 Boarding Soon", "high")
    else if minutes = 10 then ("🔴 FINAL CALL", "high")
    else ("", "")
  let body := flight.FlightNumber ++ " boards in " ++ formatInt minutes ++ " minutes - Gate "
    ++ flight.Gate
  let (id, s) := newObjectID s
  let notification : Notification :=
    { ID := id, UserID := user.ID, FlightKey := flight.FlightKey,
      Typ := "boarding_" ++ formatInt minutes,
      Title := title, Body := body, Priority := priority, SentAt := env.now }
  let s := insertOneNotification s notification
  (fcmSendNotification env s user.FCMToken title body
    [("type", "boarding_" ++ formatInt minutes), ("flight_key", flight.FlightKey),
     ("gate", flight.Gate)]).2

/-- `NotificationService.checkBoardingReminderForFlight`.  `minutesUntil` is
`int(time.Until(status.BoardingTime).Minutes())`. -/
def checkBoardingReminderForFlight (env : Env) (s : State) (flight : TrackedFlight) : State :=
  let flightKey := flight.FlightNumber ++ "_" ++ env.formatDate flight.DepartureDate
  match findOneFlightStatus s flightKey with
  | (none, s) => s
  | (some status, s) =>
    match findOneUser s flight.UserID with
    | (none, s) => s
    | (some user, s) =>
      if user.FCMToken = "" then s
      else
        let minutesUntil := wholeMinutes (timeSub status.BoardingTime env.now)
        if minutesUntil = 40 ∧ user.Preferences.BoardingReminder40 = true then
          sendBoardingReminder env s user status 40
        else if minutesUntil = 20 ∧ user.Preferences.BoardingReminder20 = true then
          sendBoardingReminder env s user status 20
        else if minutesUntil = 10 ∧ user.Preferences.BoardingReminder10 = true then
          sendBoardingReminder env s user status 10
        else s

/-- `NotificationService.CheckBoardingReminders`: one tick of the reminder
scheduler. -/
def CheckBoardingReminders (env : Env) (s : State) : State :=
  match findActiveFlights s with
  | (flights, s) => flights.foldl (fun s flight => checkBoardingReminderForFlight env s flight) s

end NotificationService

/-! ## Polling scheduler and tracking (`flight_service.go`) -/

/-- Body of a tracking request (`models.TrackFlightRequest`). -/
structure TrackFlightRequest where
  FlightNumber : String := ""
  DepartureDate : String := ""
  DepartureAirport : String := ""
  ArrivalAirport : String := ""
deriving DecidableEq, Repr

namespace FlightService

/-- The loop of `pollAllActiveFlights`: `checkFlightUpdates` on each flight in
turn. -/
def pollFlights (env : Env) (s : State) (flights : List TrackedFlight) : State :=
  flights.foldl (fun s flight => checkFlightUpdates env s flight) s

/-- `FlightService.pollAllActiveFlights`: one tick of the polling scheduler. -/
def pollAllActiveFlights (env : Env) (s : State) : State :=
  match findActiveFlights s with
  | (flights, s) => pollFlights env s flights

/-- `FlightService.TrackFlight`. -/
def TrackFlight (env : Env) (s : State) (userID : ObjectID) (req : TrackFlightRequest) :
    Except Error TrackedFlight × State :=
  match AviationService.GetFlightStatus env s req.FlightNumber req.DepartureDate with
  | (Except.error err, s) => (Except.error (Error.flightNotFoundOrInvalid err), s)
  | (Except.ok flightStatus, s) =>
    match env.parseDate req.DepartureDate with
    | none => (Except.error Error.invalidDateFormat, s)
    | some departureDate =>
      let (id, s) := newObjectID s
      let trackedFlight : TrackedFlight :=
        { ID := id, UserID := userID, FlightNumber := req.FlightNumber,
          AirlineCode := flightStatus.AirlineCode, DepartureDate := departureDate,
          DepartureAirport := req.DepartureAirport, ArrivalAirport := req.ArrivalAirport,
          IsActive := true, CreatedAt := env.now, UpdatedAt := env.now }
      let s := insertOneTrackedFlight s trackedFlight
      let s := cacheFlightStatus env s flightStatus
      let s := insertOneFlightStatus s flightStatus
      (Except.ok trackedFlight, s)

end FlightService

/-! ## Gate-walk urgency (`location_service.go`) -/

namespace LocationService

/-- Wrap-around of a Go `int` (64 bits) after an addition. -/
def wrapInt64 (x : Int) : Int :=
  (x + 9223372036854775808) % 18446744073709551616 - 9223372036854775808

/-- The classification at the end of `LocationService.GetWalkTime`: urgency
level and recommended action for a walk time and a number of minutes until
boarding. -/
def walkUrgency (walkTimeMinutes minutesUntilBoarding : Int) : String × String :=
  if walkTimeMinutes > minutesUntilBoarding then
    ("critical", "Head to gate immediately!")
  else if wrapInt64 (walkTimeMinutes + 10) > minutesUntilBoarding then
    ("urgent", "Start heading to gate now")
  else if wrapInt64 (walkTimeMinutes + 20) > minutesUntilBoarding then
    ("moderate", "Consider heading to gate soon")
  else ("calm", "You have plenty of time")

end LocationService

/-- Mongo `TrackedFlights().FindOne(ctx, {"_id": id}).Decode(_)`. -/
def findOneTrackedFlight (s : State) (id : ObjectID) : Option TrackedFlight × State :=
  (s.trackedFlights.find? (fun f => f.ID == id), s.log (Event.findTrackedFlight id))

/-- Mongo `Airports().FindOne(ctx, {"code": code}).Decode(_)`. -/
def findOneAirport (s : State) (code : String) : Option Airport × State :=
  (s.airports.find? (fun a => a.Code == code), s.log (Event.findAirport code))

namespace LocationService

/-- `LocationService.calculateDistance` (haversine), over the `float64`
operations of the environment. -/
def calculateDistance (fl : FloatOps) (lat1 lon1 lat2 lon2 : Float64) : Float64 :=
  let earthRadius := fl.ofInt 6371000
  let lat1Rad := fl.div (fl.mul lat1 fl.Pi) (fl.ofInt 180)
  let lat2Rad := fl.div (fl.mul lat2 fl.Pi) (fl.ofInt 180)
  let deltaLat := fl.div (fl.mul (fl.sub lat2 lat1) fl.Pi) (fl.ofInt 180)
  let deltaLon := fl.div (fl.mul (fl.sub lon2 lon1) fl.Pi) (fl.ofInt 180)
  let a := fl.add
    (fl.mul (fl.Sin (fl.div deltaLat (fl.ofInt 2))) (fl.Sin (fl.div deltaLat (fl.ofInt 2))))
    (fl.mul
      (fl.mul (fl.mul (fl.Cos lat1Rad) (fl.Cos lat2Rad)) (fl.Sin (fl.div deltaLon (fl.ofInt 2))))
      (fl.Sin (fl.div deltaLon (fl.ofInt 2))))
  let c := fl.mul (fl.ofInt 2) (fl.Atan2 (fl.Sqrt a) (fl.Sqrt (fl.sub (fl.ofInt 1) a)))
  fl.mul earthRadius c

/-- The walk time of `GetWalkTime`: `int(distance / 1.4 / 60)`. -/
def walkMinutes (fl : FloatOps) (distance : Float64) : Int :=
  fl.toInt (fl.div (fl.div distance fl.lit14) (fl.ofInt 60))

/-- The exact values of `float64` arithmetic and of Go's `math` functions at
`+0` and `1` that the haversine code meets when its two points coincide.
IEEE-754 makes `0 * x`, `0 / x` and `x * 0` equal to `+0` for the positive
constants used here, `0 + 0 = 0`, `1 - 0 = 1`, and the square roots of 0 and
1 exact; the `math` package documents `Sin(+0) = +0` and `Atan2(+0, x) = +0`
for `x > 0`; and `int(0.0)` is 0. -/
def exactAtZeroAndOne (fl : FloatOps) : Prop :=
  fl.mul (fl.ofInt 0) fl.Pi = fl.ofInt 0 ∧
  fl.div (fl.ofInt 0) (fl.ofInt 180) = fl.ofInt 0 ∧
  fl.div (fl.ofInt 0) (fl.ofInt 2) = fl.ofInt 0 ∧
  fl.Sin (fl.ofInt 0) = fl.ofInt 0 ∧
  fl.mul (fl.ofInt 0) (fl.ofInt 0) = fl.ofInt 0 ∧
  fl.add (fl.ofInt 0) (fl.ofInt 0) = fl.ofInt 0 ∧
  fl.Sqrt (fl.ofInt 0) = fl.ofInt 0 ∧
  fl.sub (fl.ofInt 1) (fl.ofInt 0) = fl.ofInt 1 ∧
  fl.Sqrt (fl.ofInt 1) = fl.ofInt 1 ∧
  fl.Atan2 (fl.ofInt 0) (fl.ofInt 1) = fl.ofInt 0 ∧
  fl.mul (fl.ofInt 2) (fl.ofInt 0) = fl.ofInt 0 ∧
  fl.mul (fl.ofInt 6371000) (fl.ofInt 0) = fl.ofInt 0 ∧
  fl.div (fl.ofInt 0) fl.lit14 = fl.ofInt 0 ∧
  fl.div (fl.ofInt 0) (fl.ofInt 60) = fl.ofInt 0 ∧
  fl.toInt (fl.ofInt 0) = 0

instance (fl : FloatOps) : Decidable (exactAtZeroAndOne fl) := by
  unfold exactAtZeroAndOne
  infer_instance

/-- That a latitude and a longitude are numbers, in the two forms the haversine
code needs: each minus itself is `+0` (so for every finite `float64`, and for
no NaN and no infinity), and the square of the cosine of the latitude in
radians, times `+0`, is `+0` (so whenever that cosine is finite, as the cosine
of a finite angle is). -/
def numberCoordinates (fl : FloatOps) (lat lon : Float64) : Prop :=
  fl.sub lat lat = fl.ofInt 0 ∧
  fl.sub lon lon = fl.ofInt 0 ∧
  fl.mul
      (fl.mul (fl.Cos (fl.div (fl.mul lat fl.Pi) (fl.ofInt 180)))
        (fl.Cos (fl.div (fl.mul lat fl.Pi) (fl.ofInt 180))))
      (fl.ofInt 0)
    = fl.ofInt 0

instance (fl : FloatOps) (lat lon : Float64) : Decidable (numberCoordinates fl lat lon) := by
  unfold numberCoordinates
  infer_instance

/-- `LocationService.GetWalkTime`.  An id that is not hexadecimal becomes the
nil object id, as the source drops the parse error; a missing flight status
leaves `status` the zero `FlightStatus`, as the source drops the lookup
error. -/
def GetWalkTime (env : Env) (s : State) (flightID : String) (userID : ObjectID) :
    Except Error WalkTimeResponse × State :=
  let key := "user:location:" ++ env.hexOf userID
  match redisGet env s key with
  | (none, s) => (Except.error Error.userLocationNotFound, s)
  | (some data, s) =>
    match env.unmarshalLocation data with
    | none => (Except.error Error.locationDecodeFailed, s)
    | some userLoc =>
      let flightObjID := (env.objectIDFromHex flightID).getD 0
      match findOneTrackedFlight s flightObjID with
      | (none, s) => (Except.error Error.flightNotFound, s)
      | (some flight, s) =>
        match findOneAirport s flight.DepartureAirport with
        | (none, s) => (Except.error Error.airportNotFound, s)
        | (some airport, s) =>
          let distance := calculateDistance env.float userLoc.Latitude userLoc.Longitude
            airport.Latitude airport.Longitude
          let walkTimeMinutes := walkMinutes env.float distance
          let flightKey := flight.FlightNumber ++ "_" ++ env.formatDate flight.DepartureDate
          match findOneFlightStatus s flightKey with
          | (found, s) =>
            let status : FlightStatus := found.getD {}
            let minutesUntilBoarding := wholeMinutes (timeSub status.BoardingTime env.now)
            (Except.ok
              { FlightID := flightID
                DistanceMeters := distance
                WalkTimeMinutes := walkTimeMinutes
                UrgencyLevel := (walkUrgency walkTimeMinutes minutesUntilBoarding).1
                RecommendedAction := (walkUrgency walkTimeMinutes minutesUntilBoarding).2 }, s)

end LocationService

/-! ## Untracking, validation and the tracking handler -/

namespace FlightService

/-- Mongo `TrackedFlights().UpdateOne(ctx, {"_id": flightID, "user_id": userID},
{"$set": {"is_active": false, "updated_at": now}})`; returns `MatchedCount`. -/
def deactivateTrackedFlight (env : Env) (s : State) (flightID userID : ObjectID) : Nat × State :=
  let s := s.log (Event.updateTrackedFlight flightID userID)
  let filter := fun (f : TrackedFlight) => f.ID == flightID && f.UserID == userID
  let set := fun (f : TrackedFlight) => { f with IsActive := false, UpdatedAt := env.now }
  (if s.trackedFlights.any filter then 1 else 0,
   { s with trackedFlights := updateFirst filter set s.trackedFlights })

/-- `FlightService.DeleteTrackedFlight`. -/
def DeleteTrackedFlight (env : Env) (s : State) (flightID userID : ObjectID) :
    Except Error Unit × State :=
  match deactivateTrackedFlight env s flightID userID with
  | (matchedCount, s) =>
    if matchedCount = 0 then (Except.error Error.flightNotFoundOrUnauthorized, s)
    else (Except.ok (), s)

end FlightService

namespace utils

/-- The class `[A-Z]`. -/
def isUpperAZ (c : Char) : Bool :=
  decide (65 ≤ c.toNat) && decide (c.toNat ≤ 90)

/-- The class `\d`, that is `[0-9]`. -/
def isDigit09 (c : Char) : Bool :=
  decide (48 ≤ c.toNat) && decide (c.toNat ≤ 57)

/-- The class `\s`, that is tab, line feed, form feed, carriage return, space. -/
def isSpaceClass (c : Char) : Bool :=
  c.toNat == 9 || c.toNat == 10 || c.toNat == 12 || c.toNat == 13 || c.toNat == 32

/-- `utils.IsValidFlightNumber`: a match of `^[A-Z]{2}\s?\d{1,4}$`. -/
def IsValidFlightNumber (flightNumber : String) : Bool :=
  match flightNumber.toList with
  | a :: b :: rest =>
    let digits :=
      match rest with
      | c :: tail => if isSpaceClass c then tail else rest
      | [] => rest
    isUpperAZ a && isUpperAZ b && decide (1 ≤ digits.length) && decide (digits.length ≤ 4)
      && digits.all isDigit09
  | _ => false

/-- `utils.IsValidAirportCode`: a match of `^[A-Z]{3}$`. -/
def IsValidAirportCode (code : String) : Bool :=
  match code.toList with
  | [a, b, c] => isUpperAZ a && isUpperAZ b && isUpperAZ c
  | _ => false

/-- `utils.IsValidDate`: whether `time.Parse("2006-01-02", _)` succeeds. -/
def IsValidDate (env : Env) (dateStr : String) : Bool :=
  (env.parseDate dateStr).isSome

end utils

/-- What `FlightHandler.TrackFlight` writes to the client: 401, the binding
error, 400 with a fixed message, 400 with the service error, or 201 with the
tracked flight. -/
inductive TrackReply where
  | unauthorized
  | validationError
  | badRequest (message : String)
  | serviceError (err : Error)
  | created (flight : TrackedFlight)
deriving DecidableEq, Repr

namespace FlightHandler

/-- `FlightHandler.TrackFlight`.  `userID` is `c.GetString("user_id")` and
`bound` the outcome of `c.ShouldBindJSON(&req)` (`none` when the body does not
bind, which covers the `required` and `len=3` tags). -/
def TrackFlight (env : Env) (s : State) (userID : String) (bound : Option TrackFlightRequest) :
    TrackReply × State :=
  if userID = "" then (TrackReply.unauthorized, s)
  else
    match bound with
    | none => (TrackReply.validationError, s)
    | some req =>
      if !utils.IsValidFlightNumber req.FlightNumber then
        (TrackReply.badRequest "Invalid flight number format", s)
      else if !utils.IsValidAirportCode req.DepartureAirport
          || !utils.IsValidAirportCode req.ArrivalAirport then
        (TrackReply.badRequest "Invalid airport code", s)
      else if !utils.IsValidDate env req.DepartureDate then
        (TrackReply.badRequest "Invalid date format. Use YYYY-MM-DD", s)
      else
        let objID := (env.objectIDFromHex userID).getD 0
        match FlightService.TrackFlight env s objID req with
        | (Except.error err, s) => (TrackReply.serviceError err, s)
        | (Except.ok flight, s) => (TrackReply.created flight, s)

end FlightHandler

/-- The provider fetches recorded in a trace, as (flight number, date) pairs in
call order. -/
def providerCalls (trace : List Event) : List (String × String) :=
  trace.filterMap fun e =>
    match e with
    | Event.providerFetch flightNumber date => some (flightNumber, date)
    | _ => none

/-- What polling and dispatch read and write: the cache, the flight-status,
user and notification collections and the id generator.  The trace and the
tracked-flight collection are blanked. -/
def State.data (s : State) : State :=
  { s with trace := [], trackedFlights := [] }

/-- Whether the entries of a change map under the three category keys have
the shapes `detectChanges` gives them: old and new strings under `"gate"` and
`"status"`, old and new integers under `"delay"`. -/
def wellShaped (changes : Changes) : Bool :=
  (match changes.lookup "gate" with
    | some (ChangeValue.ints _ _) => false
    | _ => true) &&
  (match changes.lookup "status" with
    | some (ChangeValue.ints _ _) => false
    | _ => true) &&
  (match changes.lookup "delay" with
    | some (ChangeValue.strings _ _) => false
    | _ => true)

/-- The invocations of `HandleFlightChanges` recorded in a trace, as (user,
flight key) pairs in call order. -/
def dispatchCalls (trace : List Event) : List (ObjectID × String) :=
  trace.filterMap fun e =>
    match e with
    | Event.handleFlightChanges userID flightKey => some (userID, flightKey)
    | _ => none

/-! ## Sample data -/

/-- A snapshot with only the three compared fields set. -/
def bareStatus (gate status : String) (delay : Int) : FlightStatus :=
  { Gate := gate, Status := status, DelayMinutes := delay }

/-- The same three fields, every other field different from `bareStatus`. -/
def busyStatus (gate status : String) (delay : Int) : FlightStatus :=
  { FlightKey := "AA123_2025-06-01", FlightNumber := "AA123", AirlineCode := "AA",
    Status := status, Gate := gate, Terminal := "T4", BoardingTime := 17, DepartureTime := 57,
    ArrivalTime := 300, DelayMinutes := delay,
    GateChange := some { OldGate := "B7", NewGate := gate, TimeImpact := "minor" },
    LastUpdated := 99, RawData := some { FlightDate := "2025-06-01" } }

/-- Midnight (UTC) of 2025-06-01, day 739402 after the zero `time.Time`. -/
def sampleDate : Time := 63884332800000000000

/-- The provider URL for flight AA123 on 2025-06-01 with access key `k`. -/
def sampleURL : String :=
  "http://api.aviationstack.com/v1/flights?access_key=k&flight_iata=AA123&flight_date=2025-06-01"

/-- A provider flight for AA123 with the given departure gate, terminal and
lifecycle string. -/
def sampleRaw (gate terminal status : String) : AviationStackFlight :=
  { FlightDate := "2025-06-01", FlightStatus := status,
    Departure := { Airport := "John F Kennedy", Iata := "JFK", Terminal := terminal, Gate := gate,
                   Scheduled := "2025-06-01T10:00:00+00:00" },
    Arrival := { Airport := "Los Angeles", Iata := "LAX", Scheduled := "2025-06-01T14:00:00+00:00" },
    Airline := { Name := "American Airlines", Iata := "AA" },
    Flight := { Number := "123", Iata := "AA123" } }

/-- A toy body decoder: four bodies decode, to a reply with gate A1, with gate
A2, with no gate and no terminal but an `active` flight, and with no flight. -/
def sampleDecode (bytes : String) : Option AviationStackResponse :=
  if bytes = "gate A1" then some { Data := [sampleRaw "A1" "4" "scheduled"] }
  else if bytes = "gate A2" then some { Data := [sampleRaw "A2" "4" "scheduled"] }
  else if bytes = "gate dropped" then some { Data := [sampleRaw "" "4" "scheduled"] }
  else if bytes = "active, no gate" then some { Data := [sampleRaw "" "" "active"] }
  else if bytes = "no data" then some { Data := [] }
  else none

/-- The snapshot `getFromAviationStack` builds at 09:00 from `sampleRaw`. -/
def sampleStatus (gate terminal status : String) : FlightStatus :=
  { FlightKey := "AA123_2025-06-01", FlightNumber := "AA123", AirlineCode := "AA",
    Status := AviationService.mapStatus status, Gate := gate, Terminal := terminal,
    BoardingTime := 63884366400000000000, DepartureTime := 63884368800000000000,
    ArrivalTime := 63884383200000000000, DelayMinutes := 0, GateChange := none,
    LastUpdated := 63884365200000000000, RawData := some (sampleRaw gate terminal status) }

/-- Natural-number arithmetic standing in for `float64` in the sample
environment: it serves to run the samples and is not IEEE-754. -/
def sampleFloat : FloatOps :=
  { ofInt := Int.toNat, lit14 := 1, Pi := 3,
    add := fun a b => a + b, sub := fun a b => a - b,
    mul := fun a b => a * b, div := fun a b => a / b,
    Sin := fun a => a, Cos := fun _ => 1, Sqrt := fun a => a,
    Atan2 := fun y _ => y, toInt := Int.ofNat }

/-- An environment at 09:00 on 2025-06-01 whose provider answers the request
for AA123 with the given body.  The codec is a toy one: it encodes a snapshot
as its key, gate and status, and decodes a single byte string. -/
def sampleEnv (body : String) : Env :=
  { provider := "aviationstack"
    aviationStackKey := "k"
    httpGet := fun url => if url = sampleURL then HttpResult.body body else HttpResult.getFailed
    decodeResponse := sampleDecode
    parseRFC3339 := fun str =>
      if str = "2025-06-01T10:00:00+00:00" then some 63884368800000000000
      else if str = "2025-06-01T14:00:00+00:00" then some 63884383200000000000
      else none
    formatDate := fun t => if t = sampleDate then "2025-06-01" else "0001-01-01"
    parseDate := fun str => if str = "2025-06-01" then some sampleDate else none
    now := 63884365200000000000
    marshal := fun st => some ("json/" ++ st.FlightKey ++ "/" ++ st.Gate ++ "/" ++ st.Status)
    unmarshal := fun data =>
      if data = "json/AA123_2025-06-01/A1/On Time" then some (sampleStatus "A1" "4" "scheduled")
      else none
    fcmAccepts := fun _ => true
    float := sampleFloat
    hexOf := fun id =>
      if id = 7 then "000000000000000000000007" else "000000000000000000000000"
    objectIDFromHex := fun hex =>
      if hex = "000000000000000000000001" then some 1
      else if hex = "000000000000000000000007" then some 7
      else none
    unmarshalLocation := fun data =>
      if data = "location of 7" then
        some { UserID := "000000000000000000000007", Latitude := 40, Longitude := 73,
               Timestamp := 63884365140000000000 }
      else none }

/-- A cache holding the encoded A1 snapshot, set one minute before 09:00. -/
def warmCache : List CacheEntry :=
  [{ key := "flight:AA123_2025-06-01", value := "json/AA123_2025-06-01/A1/On Time",
     ttl := 5 * Minute, setAt := 63884365140000000000 }]

/-- The owner of the sample tracked flight: push token set, every preference on. -/
def sampleUser : User :=
  { ID := 7, Email := "ada@example.org", FCMToken := "token-7",
    Preferences := { NotifyGateChange := true, NotifyBoarding := true, NotifyDelay := true,
                     BoardingReminder40 := true, BoardingReminder20 := true,
                     BoardingReminder10 := true } }

/-- User 7 tracking AA123 on 2025-06-01. -/
def sampleFlight : TrackedFlight :=
  { ID := 1, UserID := 7, FlightNumber := "AA123", AirlineCode := "AA",
    DepartureDate := sampleDate, DepartureAirport := "JFK", ArrivalAirport := "LAX",
    IsActive := true }

/-- Cache warm with the A1 snapshot, store empty. -/
def cacheHitState : State :=
  { redis := warmCache, users := [sampleUser], trackedFlights := [sampleFlight], nextID := 100 }

/-- Cache cold, store holding the A1 snapshot. -/
def storeHitState : State :=
  { flightStatus := [sampleStatus "A1" "4" "scheduled"], users := [sampleUser],
    trackedFlights := [sampleFlight], nextID := 100 }

/-- Cache and store both cold. -/
def coldState : State :=
  { users := [sampleUser], trackedFlights := [sampleFlight], nextID := 100 }

/-- A user without a registered push token, every preference on. -/
def tokenlessUser : User :=
  { ID := 8, Email := "bob@example.org", FCMToken := "",
    Preferences := sampleUser.Preferences }

/-- A user with a push token who has switched delay notifications off. -/
def noDelayUser : User :=
  { ID := 9, Email := "eve@example.org", FCMToken := "token-9",
    Preferences := { NotifyGateChange := true, NotifyBoarding := true, NotifyDelay := false } }

/-- The A1 snapshot stored, and the three sample users. -/
def threeUserState : State :=
  { flightStatus := [sampleStatus "A1" "4" "scheduled"],
    users := [sampleUser, tokenlessUser, noDelayUser],
    trackedFlights := [sampleFlight], nextID := 100 }

/-- A gate change from A1 to A2 together with a delay going from 0 to 15. -/
def gateAndDelay : Changes :=
  detectChanges (bareStatus "A1" "On Time" 0) (bareStatus "A2" "On Time" 15)

/-- The sample environment with a push transport that rejects everything. -/
def rejectingEnv : Env :=
  { sampleEnv "gate A2" with fcmAccepts := fun _ => false }

/-- The sample environment at `m` minutes and 30 seconds before the boarding
time (09:20) of the stored A1 snapshot. -/
def envBeforeBoarding (m : Int) : Env :=
  { sampleEnv "gate A1" with now := 63884366400000000000 - m * Minute - 30000000000 }

/-- The sample environment with a provider whose scheduled times do not parse. -/
def unparsableEnv : Env :=
  { sampleEnv "gate A1" with parseRFC3339 := fun _ => none }

/-- The sample tracking request: AA123 on 2025-06-01, JFK to LAX. -/
def sampleRequest : TrackFlightRequest :=
  { FlightNumber := "AA123", DepartureDate := "2025-06-01", DepartureAirport := "JFK",
    ArrivalAirport := "LAX" }

/-- A second tracked flight of user 7, BA456, for which the sample provider
has no answer. -/
def failingFlight : TrackedFlight :=
  { ID := 2, UserID := 7, FlightNumber := "BA456", AirlineCode := "BA",
    DepartureDate := sampleDate, DepartureAirport := "LHR", ArrivalAirport := "JFK",
    IsActive := true }

/-- A second owner with a push token and every preference on. -/
def secondUser : User :=
  { ID := 10, Email := "dan@example.org", FCMToken := "token-10",
    Preferences := sampleUser.Preferences }

/-- User 10 tracking the same AA123 on 2025-06-01. -/
def secondFlight : TrackedFlight :=
  { ID := 3, UserID := 10, FlightNumber := "AA123", AirlineCode := "AA",
    DepartureDate := sampleDate, DepartureAirport := "JFK", ArrivalAirport := "LAX",
    IsActive := true }

/-- Users 7 and 10 both tracking AA123, with the A1 snapshot stored. -/
def twoTrackerState : State :=
  { flightStatus := [sampleStatus "A1" "4" "scheduled"], users := [sampleUser, secondUser],
    trackedFlights := [sampleFlight, secondFlight], nextID := 100 }

/-- The departure airport of the sample flight. -/
def sampleAirport : Airport :=
  { Code := "JFK", Name := "John F Kennedy", City := "New York", Country := "US",
    Timezone := "America/New_York", SecurityWaitAvg := 25, Latitude := 41, Longitude := 74 }

/-- User 7 has reported a position, tracks AA123 and the airport is known, but
no flight status is stored. -/
def walkState : State :=
  { redis := [{ key := "user:location:000000000000000000000007", value := "location of 7",
                ttl := 10 * Minute, setAt := 63884365140000000000 }],
    users := [sampleUser], trackedFlights := [sampleFlight], airports := [sampleAirport],
    nextID := 100 }

/-- The bit pattern of Go's `math.NaN()`. -/
def quietNaN : Float64 := 9221120237041090561

/-- Apply a sample operation unless an operand is the NaN, which every
`float64` operation and every `math` function hands on. -/
def nanOr (a b : Float64) (value : Float64) : Float64 :=
  if a = quietNaN ∨ b = quietNaN then quietNaN else value

/-- The sample arithmetic with a NaN: every operation with a NaN operand
returns the NaN, as in IEEE-754, and `int(NaN)` is the most negative `int`,
which is what the conversion yields on amd64 (the Go specification leaves the
value to the implementation). -/
def nanFloat : FloatOps :=
  { ofInt := sampleFloat.ofInt, lit14 := sampleFloat.lit14, Pi := sampleFloat.Pi,
    add := fun a b => nanOr a b (sampleFloat.add a b),
    sub := fun a b => nanOr a b (sampleFloat.sub a b),
    mul := fun a b => nanOr a b (sampleFloat.mul a b),
    div := fun a b => nanOr a b (sampleFloat.div a b),
    Sin := fun a => nanOr a a (sampleFloat.Sin a),
    Cos := fun a => nanOr a a (sampleFloat.Cos a),
    Sqrt := fun a => nanOr a a (sampleFloat.Sqrt a),
    Atan2 := fun y x => nanOr y x (sampleFloat.Atan2 y x),
    toInt := fun a => if a = quietNaN then -9223372036854775808 else sampleFloat.toInt a }

/-- The sample environment over the arithmetic with a NaN. -/
def nanEnv : Env :=
  { sampleEnv "gate A1" with float := nanFloat }

/-- The state of `walkState` with an airport document whose latitude is a NaN. -/
def nanWalkState : State :=
  { walkState with airports := [{ sampleAirport with Latitude := quietNaN }] }

/-- A tracking request with a malformed flight number. -/
def malformedRequest : TrackFlightRequest :=
  { FlightNumber := "aa123", DepartureDate := "2025-06-01", DepartureAirport := "JFK",
    ArrivalAirport := "LAX" }

/-! ## Theorems: the change detector -/

/-- The three tests of `detectChanges`, spelled out: the map is the list of
the entries whose test succeeds, in the order gate, status, delay. -/
theorem detectChanges_eq (old new : FlightStatus) :
    detectChanges old new =
      (if old.Gate ≠ "" ∧ old.Gate ≠ new.Gate then
        [("gate", ChangeValue.strings old.Gate new.Gate)] else []) ++
      (if old.Status ≠ new.Status then
        [("status", ChangeValue.strings old.Status new.Status)] else []) ++
      (if old.DelayMinutes ≠ new.DelayMinutes then
        [("delay", ChangeValue.ints old.DelayMinutes new.DelayMinutes)] else []) := by
  unfold detectChanges
  by_cases hg : old.Gate ≠ "" ∧ old.Gate ≠ new.Gate <;>
  by_cases hs : old.Status ≠ new.Status <;>
  by_cases hd : old.DelayMinutes ≠ new.DelayMinutes <;>
  simp [hg, hs, hd, mapSet]

/-- C5: comparing a snapshot with itself yields the empty change map. -/
theorem detectChanges_self (s : FlightStatus) : detectChanges s s = [] := by
  simp [detectChanges_eq]

/-- C6: the change map has a `"gate"` entry exactly when the old gate is
non-empty and differs from the new gate; the entry, when present, is the pair
(old gate, new gate); with an empty old gate there is no `"gate"` entry. -/
theorem detectChanges_gate (old new : FlightStatus) :
    ((detectChanges old new).lookup "gate" = some (ChangeValue.strings old.Gate new.Gate)
        ↔ (old.Gate ≠ "" ∧ old.Gate ≠ new.Gate)) ∧
    ((detectChanges old new).lookup "gate" = none
        ↔ ¬ (old.Gate ≠ "" ∧ old.Gate ≠ new.Gate)) ∧
    (old.Gate = "" → (detectChanges old new).lookup "gate" = none) := by
  rw [detectChanges_eq]
  by_cases hg : old.Gate ≠ "" ∧ old.Gate ≠ new.Gate <;>
  by_cases hs : old.Status ≠ new.Status <;>
  by_cases hd : old.DelayMinutes ≠ new.DelayMinutes <;>
  simp [hg, hs, hd, List.lookup]

/-- Witness for C6: with no gate recorded in the old snapshot, a new gate B2
is not reported. -/
theorem detectChanges_gate_witness :
    (detectChanges (bareStatus "" "On Time" 0) (busyStatus "B2" "On Time" 0)).lookup "gate" = none :=
  (detectChanges_gate (bareStatus "" "On Time" 0) (busyStatus "B2" "On Time" 0)).2.2 rfl

/-- C7: the change map has a `"status"` entry exactly when the statuses differ
and a `"delay"` entry exactly when the delay minutes differ (in either
direction); each entry, when present, is the pair (old value, new value). -/
theorem detectChanges_status_delay (old new : FlightStatus) :
    ((detectChanges old new).lookup "status" = some (ChangeValue.strings old.Status new.Status)
        ↔ old.Status ≠ new.Status) ∧
    ((detectChanges old new).lookup "status" = none ↔ old.Status = new.Status) ∧
    ((detectChanges old new).lookup "delay"
        = some (ChangeValue.ints old.DelayMinutes new.DelayMinutes)
        ↔ old.DelayMinutes ≠ new.DelayMinutes) ∧
    ((detectChanges old new).lookup "delay" = none ↔ old.DelayMinutes = new.DelayMinutes) ∧
    (old.DelayMinutes < new.DelayMinutes → (detectChanges old new).lookup "delay"
        = some (ChangeValue.ints old.DelayMinutes new.DelayMinutes)) ∧
    (new.DelayMinutes < old.DelayMinutes → (detectChanges old new).lookup "delay"
        = some (ChangeValue.ints old.DelayMinutes new.DelayMinutes)) := by
  rw [detectChanges_eq]
  by_cases hg : old.Gate ≠ "" ∧ old.Gate ≠ new.Gate <;>
  by_cases hs : old.Status ≠ new.Status <;>
  by_cases hd : old.DelayMinutes ≠ new.DelayMinutes <;>
  simp [hg, hs, hd, List.lookup] <;> push_neg at hs hd <;> simp [hs, hd]

/-- Witness for C7: a delay going down from 30 to 15 minutes is reported. -/
theorem detectChanges_status_delay_witness :
    (detectChanges (bareStatus "A1" "Delayed" 30) (bareStatus "A1" "Delayed" 15)).lookup "delay"
      = some (ChangeValue.ints (bareStatus "A1" "Delayed" 30).DelayMinutes
          (bareStatus "A1" "Delayed" 15).DelayMinutes) :=
  (detectChanges_status_delay (bareStatus "A1" "Delayed" 30)
    (bareStatus "A1" "Delayed" 15)).2.2.2.2.2 (by decide)

/-- C8: the change map is determined by the gate, status and delay minutes of
the two snapshots, and its keys are among `"gate"`, `"status"`, `"delay"`. -/
theorem detectChanges_depends_only (old old' new new' : FlightStatus)
    (hg : old.Gate = old'.Gate) (hs : old.Status = old'.Status)
    (hd : old.DelayMinutes = old'.DelayMinutes)
    (hg' : new.Gate = new'.Gate) (hs' : new.Status = new'.Status)
    (hd' : new.DelayMinutes = new'.DelayMinutes) :
    detectChanges old new = detectChanges old' new' ∧
    ∀ e ∈ detectChanges old new, e.1 = "gate" ∨ e.1 = "status" ∨ e.1 = "delay" := by
  refine ⟨by simp [detectChanges_eq, hg, hs, hd, hg', hs', hd'], ?_⟩
  intro e he
  rw [detectChanges_eq] at he
  simp only [List.mem_append] at he
  rcases he with (he | he) | he
  · split at he <;> simp_all
  · split at he <;> simp_all
  · split at he <;> simp_all

/-- Witness for C8: two pairs of snapshots that agree on gate, status and delay
and differ everywhere else have the same change map. -/
theorem detectChanges_depends_only_witness :
    detectChanges (bareStatus "A1" "On Time" 0) (bareStatus "A2" "Delayed" 15)
      = detectChanges (busyStatus "A1" "On Time" 0) (busyStatus "A2" "Delayed" 15) ∧
    ∀ e ∈ detectChanges (bareStatus "A1" "On Time" 0) (bareStatus "A2" "Delayed" 15),
      e.1 = "gate" ∨ e.1 = "status" ∨ e.1 = "delay" :=
  detectChanges_depends_only (bareStatus "A1" "On Time" 0) (busyStatus "A1" "On Time" 0)
    (bareStatus "A2" "Delayed" 15) (busyStatus "A2" "Delayed" 15) rfl rfl rfl rfl rfl rfl

/-! ## Theorems: the status resolver -/

/-- What `getFlightStatusFromCache` leaves behind: one `Get` in the trace. -/
theorem getFlightStatusFromCache_state (env : Env) (s : State) (flightKey : String) :
    (FlightService.getFlightStatusFromCache env s flightKey).2
      = s.log (Event.redisGet ("flight:" ++ flightKey)) := by
  unfold FlightService.getFlightStatusFromCache redisGet
  cases hc : cacheLookup env.now s.redis ("flight:" ++ flightKey) with
  | none => simp [hc]
  | some data =>
    cases h : env.unmarshal data with
    | none => simp [hc, h]
    | some st => simp [hc, h]

/-- What `getFlightStatusFromCache` returns: the decoded cache content. -/
theorem getFlightStatusFromCache_value (env : Env) (s : State) (flightKey : String) :
    (FlightService.getFlightStatusFromCache env s flightKey).1
      = (cacheLookup env.now s.redis ("flight:" ++ flightKey)).bind env.unmarshal := by
  unfold FlightService.getFlightStatusFromCache redisGet
  cases hc : cacheLookup env.now s.redis ("flight:" ++ flightKey) with
  | none => simp [hc]
  | some data =>
    cases h : env.unmarshal data with
    | none => simp [hc, h]
    | some st => simp [hc, h]

/-- A successful provider fetch is keyed by the requested number and date. -/
theorem fetch_flightKey (env : Env) (flightNumber date : String) (st : FlightStatus)
    (h : AviationService.fetch env flightNumber date = Except.ok st) :
    st.FlightKey = flightNumber ++ "_" ++ date ∧ st.FlightNumber = flightNumber := by
  unfold AviationService.fetch at h
  split at h
  · unfold AviationService.getFromAviationStack at h
    dsimp only at h
    split at h
    · cases h
    · cases h
    · split at h
      · cases h
      · split at h
        · cases h
        · cases h
          exact ⟨rfl, rfl⟩
  · split at h
    · cases h
    · split at h
      · cases h
      · cases h

/-- Appending a document with the key to a collection that has none makes it
the document found. -/
theorem storeLookup_append (docs : List FlightStatus) (flightKey : String) (st : FlightStatus)
    (hnone : storeLookup docs flightKey = none) (hkey : st.FlightKey = flightKey) :
    storeLookup (docs ++ [st]) flightKey = some st := by
  unfold storeLookup at *
  rw [List.find?_append, hnone]
  simp [hkey]

/-- A document found under a key carries that key. -/
theorem storeLookup_key (docs : List FlightStatus) (flightKey : String) (st : FlightStatus)
    (h : storeLookup docs flightKey = some st) : st.FlightKey = flightKey := by
  have := List.find?_some h
  simpa using this

/-- C1: when the cache holds, under `"flight:" ++ flightNumber ++ "_" ++ date`,
live bytes that decode to a snapshot, `GetFlightStatus` answers with that
snapshot as the flight, and the only thing it does is that one cache `Get`:
the final state is the initial one with a single `redisGet` event added, so
there is no provider fetch, no store read, and no cache or store write. -/
theorem GetFlightStatus_cache_hit (env : Env) (s : State) (flightNumber date data : String)
    (snapshot : FlightStatus)
    (hget : cacheLookup env.now s.redis ("flight:" ++ (flightNumber ++ "_" ++ date)) = some data)
    (hdec : env.unmarshal data = some snapshot) :
    (∃ resp, (FlightService.GetFlightStatus env s flightNumber date).1 = Except.ok resp ∧
      resp.Flight = snapshot) ∧
    (FlightService.GetFlightStatus env s flightNumber date).2
      = { s with trace := s.trace ++ [Event.redisGet ("flight:" ++ (flightNumber ++ "_" ++ date))] } ∧
    (FlightService.GetFlightStatus env s flightNumber date).2.redis = s.redis ∧
    (FlightService.GetFlightStatus env s flightNumber date).2.flightStatus = s.flightStatus := by
  have hv := getFlightStatusFromCache_value env s (flightNumber ++ "_" ++ date)
  have hs := getFlightStatusFromCache_state env s (flightNumber ++ "_" ++ date)
  rw [hget] at hv
  simp only [Option.bind, hdec] at hv
  have hc : FlightService.getFlightStatusFromCache env s (flightNumber ++ "_" ++ date)
      = (some snapshot, s.log (Event.redisGet ("flight:" ++ (flightNumber ++ "_" ++ date)))) :=
    Prod.ext hv hs
  simp only [FlightService.GetFlightStatus, hc]
  exact ⟨⟨_, rfl, rfl⟩, rfl, rfl, rfl⟩

/-- Witness for C1: AA123 on 2025-06-01 with the A1 snapshot cached a minute
earlier. -/
theorem GetFlightStatus_cache_hit_witness :
    (∃ resp, (FlightService.GetFlightStatus (sampleEnv "gate A2") cacheHitState
        "AA123" "2025-06-01").1 = Except.ok resp ∧
      resp.Flight = sampleStatus "A1" "4" "scheduled") ∧
    (FlightService.GetFlightStatus (sampleEnv "gate A2") cacheHitState "AA123" "2025-06-01").2
      = { cacheHitState with
          trace := cacheHitState.trace ++
            [Event.redisGet ("flight:" ++ ("AA123" ++ "_" ++ "2025-06-01"))] } ∧
    (FlightService.GetFlightStatus (sampleEnv "gate A2") cacheHitState
        "AA123" "2025-06-01").2.redis = cacheHitState.redis ∧
    (FlightService.GetFlightStatus (sampleEnv "gate A2") cacheHitState
        "AA123" "2025-06-01").2.flightStatus = cacheHitState.flightStatus :=
  GetFlightStatus_cache_hit (sampleEnv "gate A2") cacheHitState "AA123" "2025-06-01"
    "json/AA123_2025-06-01/A1/On Time" (sampleStatus "A1" "4" "scheduled") (by decide) (by rfl)

/-- C2: when the cache misses and the store has a document under the flight
key, `GetFlightStatus` answers with that document as the flight; the document
carries the flight key; the calls made are the cache `Get`, the store
`FindOne`, and one cache `Set` of the encoded document under
`"flight:" ++ its flight key` with a TTL of five minutes; there is no provider
fetch and the store is unchanged. -/
theorem GetFlightStatus_store_hit (env : Env) (s : State) (flightNumber date bytes : String)
    (stored : FlightStatus)
    (hmiss : (FlightService.getFlightStatusFromCache env s (flightNumber ++ "_" ++ date)).1 = none)
    (hstore : storeLookup s.flightStatus (flightNumber ++ "_" ++ date) = some stored)
    (henc : env.marshal stored = some bytes) :
    (∃ resp, (FlightService.GetFlightStatus env s flightNumber date).1 = Except.ok resp ∧
      resp.Flight = stored) ∧
    stored.FlightKey = flightNumber ++ "_" ++ date ∧
    (FlightService.GetFlightStatus env s flightNumber date).2.trace
      = s.trace ++ [Event.redisGet ("flight:" ++ (flightNumber ++ "_" ++ date)),
          Event.findFlightStatus (flightNumber ++ "_" ++ date),
          Event.redisSet ("flight:" ++ stored.FlightKey) bytes (5 * Minute)] ∧
    (FlightService.GetFlightStatus env s flightNumber date).2.redis
      = { key := "flight:" ++ stored.FlightKey, value := bytes, ttl := 5 * Minute,
          setAt := env.now } ::
        s.redis.filter (fun e => !(e.key == "flight:" ++ stored.FlightKey)) ∧
    (FlightService.GetFlightStatus env s flightNumber date).2.flightStatus = s.flightStatus := by
  have hs := getFlightStatusFromCache_state env s (flightNumber ++ "_" ++ date)
  have hc : FlightService.getFlightStatusFromCache env s (flightNumber ++ "_" ++ date)
      = (none, s.log (Event.redisGet ("flight:" ++ (flightNumber ++ "_" ++ date)))) :=
    Prod.ext hmiss hs
  have hf : findOneFlightStatus
      (s.log (Event.redisGet ("flight:" ++ (flightNumber ++ "_" ++ date))))
      (flightNumber ++ "_" ++ date)
      = (some stored, (s.log (Event.redisGet ("flight:" ++ (flightNumber ++ "_" ++ date)))).log
          (Event.findFlightStatus (flightNumber ++ "_" ++ date))) := by
    show (storeLookup s.flightStatus (flightNumber ++ "_" ++ date), _) = _
    rw [hstore]
  simp only [FlightService.GetFlightStatus, hc, hf, FlightService.cacheFlightStatus, henc]
  refine ⟨⟨_, rfl, rfl⟩, storeLookup_key _ _ _ hstore, ?_, rfl, rfl⟩
  simp [redisSet, State.log]

/-- Witness for C2: AA123 on 2025-06-01 with an empty cache and the A1
snapshot in the store. -/
theorem GetFlightStatus_store_hit_witness :
    (∃ resp, (FlightService.GetFlightStatus (sampleEnv "gate A2") storeHitState
        "AA123" "2025-06-01").1 = Except.ok resp ∧
      resp.Flight = sampleStatus "A1" "4" "scheduled") ∧
    (sampleStatus "A1" "4" "scheduled").FlightKey = "AA123" ++ "_" ++ "2025-06-01" ∧
    (FlightService.GetFlightStatus (sampleEnv "gate A2") storeHitState "AA123" "2025-06-01").2.trace
      = storeHitState.trace ++ [Event.redisGet ("flight:" ++ ("AA123" ++ "_" ++ "2025-06-01")),
          Event.findFlightStatus ("AA123" ++ "_" ++ "2025-06-01"),
          Event.redisSet ("flight:" ++ (sampleStatus "A1" "4" "scheduled").FlightKey)
            "json/AA123_2025-06-01/A1/On Time" (5 * Minute)] ∧
    (FlightService.GetFlightStatus (sampleEnv "gate A2") storeHitState "AA123" "2025-06-01").2.redis
      = { key := "flight:" ++ (sampleStatus "A1" "4" "scheduled").FlightKey,
          value := "json/AA123_2025-06-01/A1/On Time", ttl := 5 * Minute,
          setAt := (sampleEnv "gate A2").now } ::
        storeHitState.redis.filter
          (fun e => !(e.key == "flight:" ++ (sampleStatus "A1" "4" "scheduled").FlightKey)) ∧
    (FlightService.GetFlightStatus (sampleEnv "gate A2") storeHitState
        "AA123" "2025-06-01").2.flightStatus = storeHitState.flightStatus :=
  GetFlightStatus_store_hit (sampleEnv "gate A2") storeHitState "AA123" "2025-06-01"
    "json/AA123_2025-06-01/A1/On Time" (sampleStatus "A1" "4" "scheduled")
    (by rfl) (by decide) (by rfl)

/-- C3: when the cache and the store both miss and the provider returns a
snapshot, `GetFlightStatus` answers with that snapshot as the flight; the calls
made are the cache `Get`, the store `FindOne`, one provider fetch, one cache
`Set` (five-minute TTL) and one store `InsertOne`; afterwards the cache holds
the encoded snapshot under `"flight:" ++ flight key` and the store finds the
snapshot under the flight key. -/
theorem GetFlightStatus_cold (env : Env) (s : State) (flightNumber date bytes : String)
    (snapshot : FlightStatus)
    (hmiss : (FlightService.getFlightStatusFromCache env s (flightNumber ++ "_" ++ date)).1 = none)
    (hstore : storeLookup s.flightStatus (flightNumber ++ "_" ++ date) = none)
    (hfetch : AviationService.fetch env flightNumber date = Except.ok snapshot)
    (henc : env.marshal snapshot = some bytes) :
    (∃ resp, (FlightService.GetFlightStatus env s flightNumber date).1 = Except.ok resp ∧
      resp.Flight = snapshot) ∧
    (FlightService.GetFlightStatus env s flightNumber date).2.trace
      = s.trace ++ [Event.redisGet ("flight:" ++ (flightNumber ++ "_" ++ date)),
          Event.findFlightStatus (flightNumber ++ "_" ++ date),
          Event.providerFetch flightNumber date,
          Event.redisSet ("flight:" ++ (flightNumber ++ "_" ++ date)) bytes (5 * Minute),
          Event.insertFlightStatus snapshot] ∧
    (FlightService.GetFlightStatus env s flightNumber date).2.redis.head?
      = some { key := "flight:" ++ (flightNumber ++ "_" ++ date), value := bytes,
               ttl := 5 * Minute, setAt := env.now } ∧
    cacheLookup env.now (FlightService.GetFlightStatus env s flightNumber date).2.redis
      ("flight:" ++ (flightNumber ++ "_" ++ date)) = some bytes ∧
    (FlightService.GetFlightStatus env s flightNumber date).2.flightStatus
      = s.flightStatus ++ [snapshot] ∧
    storeLookup (FlightService.GetFlightStatus env s flightNumber date).2.flightStatus
      (flightNumber ++ "_" ++ date) = some snapshot := by
  have hs := getFlightStatusFromCache_state env s (flightNumber ++ "_" ++ date)
  have hc : FlightService.getFlightStatusFromCache env s (flightNumber ++ "_" ++ date)
      = (none, s.log (Event.redisGet ("flight:" ++ (flightNumber ++ "_" ++ date)))) :=
    Prod.ext hmiss hs
  have hf : findOneFlightStatus
      (s.log (Event.redisGet ("flight:" ++ (flightNumber ++ "_" ++ date))))
      (flightNumber ++ "_" ++ date)
      = (none, (s.log (Event.redisGet ("flight:" ++ (flightNumber ++ "_" ++ date)))).log
          (Event.findFlightStatus (flightNumber ++ "_" ++ date))) := by
    show (storeLookup s.flightStatus (flightNumber ++ "_" ++ date), _) = _
    rw [hstore]
  have hkey := (fetch_flightKey env flightNumber date snapshot hfetch).1
  simp only [FlightService.GetFlightStatus, hc, hf, AviationService.GetFlightStatus, hfetch,
    FlightService.cacheFlightStatus, henc, hkey]
  refine ⟨⟨_, rfl, rfl⟩, ?_, rfl, ?_, rfl, ?_⟩
  · simp [insertOneFlightStatus, redisSet, State.log]
  · simp [insertOneFlightStatus, redisSet, State.log, cacheLookup, CacheEntry.alive, Minute]
  · exact storeLookup_append _ _ _ hstore hkey

/-- Witness for C3: AA123 on 2025-06-01 with cache and store empty and the
provider answering with gate A1. -/
theorem GetFlightStatus_cold_witness :
    (∃ resp, (FlightService.GetFlightStatus (sampleEnv "gate A1") coldState
        "AA123" "2025-06-01").1 = Except.ok resp ∧
      resp.Flight = sampleStatus "A1" "4" "scheduled") ∧
    (FlightService.GetFlightStatus (sampleEnv "gate A1") coldState "AA123" "2025-06-01").2.trace
      = coldState.trace ++ [Event.redisGet ("flight:" ++ ("AA123" ++ "_" ++ "2025-06-01")),
          Event.findFlightStatus ("AA123" ++ "_" ++ "2025-06-01"),
          Event.providerFetch "AA123" "2025-06-01",
          Event.redisSet ("flight:" ++ ("AA123" ++ "_" ++ "2025-06-01"))
            "json/AA123_2025-06-01/A1/On Time" (5 * Minute),
          Event.insertFlightStatus (sampleStatus "A1" "4" "scheduled")] ∧
    (FlightService.GetFlightStatus (sampleEnv "gate A1") coldState
        "AA123" "2025-06-01").2.redis.head?
      = some { key := "flight:" ++ ("AA123" ++ "_" ++ "2025-06-01"),
               value := "json/AA123_2025-06-01/A1/On Time",
               ttl := 5 * Minute, setAt := (sampleEnv "gate A1").now } ∧
    cacheLookup (sampleEnv "gate A1").now
      (FlightService.GetFlightStatus (sampleEnv "gate A1") coldState "AA123" "2025-06-01").2.redis
      ("flight:" ++ ("AA123" ++ "_" ++ "2025-06-01")) = some "json/AA123_2025-06-01/A1/On Time" ∧
    (FlightService.GetFlightStatus (sampleEnv "gate A1") coldState
        "AA123" "2025-06-01").2.flightStatus
      = coldState.flightStatus ++ [sampleStatus "A1" "4" "scheduled"] ∧
    storeLookup (FlightService.GetFlightStatus (sampleEnv "gate A1") coldState
        "AA123" "2025-06-01").2.flightStatus
      ("AA123" ++ "_" ++ "2025-06-01") = some (sampleStatus "A1" "4" "scheduled") :=
  GetFlightStatus_cold (sampleEnv "gate A1") coldState "AA123" "2025-06-01"
    "json/AA123_2025-06-01/A1/On Time" (sampleStatus "A1" "4" "scheduled")
    (by rfl) (by decide) (by rfl) (by rfl)

/-- C4: when the cache and the store both miss and the provider fetch fails,
`GetFlightStatus` returns that error and no response, and leaves the cache and
the store as they were. -/
theorem GetFlightStatus_provider_failure (env : Env) (s : State) (flightNumber date : String)
    (err : Error)
    (hmiss : (FlightService.getFlightStatusFromCache env s (flightNumber ++ "_" ++ date)).1 = none)
    (hstore : storeLookup s.flightStatus (flightNumber ++ "_" ++ date) = none)
    (hfetch : AviationService.fetch env flightNumber date = Except.error err) :
    (FlightService.GetFlightStatus env s flightNumber date).1 = Except.error err ∧
    (FlightService.GetFlightStatus env s flightNumber date).2.redis = s.redis ∧
    (FlightService.GetFlightStatus env s flightNumber date).2.flightStatus = s.flightStatus := by
  have hs := getFlightStatusFromCache_state env s (flightNumber ++ "_" ++ date)
  have hc : FlightService.getFlightStatusFromCache env s (flightNumber ++ "_" ++ date)
      = (none, s.log (Event.redisGet ("flight:" ++ (flightNumber ++ "_" ++ date)))) :=
    Prod.ext hmiss hs
  have hf : findOneFlightStatus
      (s.log (Event.redisGet ("flight:" ++ (flightNumber ++ "_" ++ date))))
      (flightNumber ++ "_" ++ date)
      = (none, (s.log (Event.redisGet ("flight:" ++ (flightNumber ++ "_" ++ date)))).log
          (Event.findFlightStatus (flightNumber ++ "_" ++ date))) := by
    show (storeLookup s.flightStatus (flightNumber ++ "_" ++ date), _) = _
    rw [hstore]
  simp only [FlightService.GetFlightStatus, hc, hf, AviationService.GetFlightStatus, hfetch]
  exact ⟨trivial, rfl, rfl⟩

/-- Witness for C4: AA123 on 2025-06-01 with cache and store empty and the
provider answering with an empty flight list. -/
theorem GetFlightStatus_provider_failure_witness :
    (FlightService.GetFlightStatus (sampleEnv "no data") coldState "AA123" "2025-06-01").1
      = Except.error Error.flightNotFound ∧
    (FlightService.GetFlightStatus (sampleEnv "no data") coldState "AA123" "2025-06-01").2.redis
      = coldState.redis ∧
    (FlightService.GetFlightStatus (sampleEnv "no data") coldState
        "AA123" "2025-06-01").2.flightStatus = coldState.flightStatus :=
  GetFlightStatus_provider_failure (sampleEnv "no data") coldState "AA123" "2025-06-01"
    Error.flightNotFound (by rfl) (by decide) (by rfl)

/-! ## Theorems: the polling step -/

/-- A successful provider fetch has no gate-change record and keeps the raw
provider flight. -/
theorem fetch_optional (env : Env) (flightNumber date : String) (st : FlightStatus)
    (h : AviationService.fetch env flightNumber date = Except.ok st) :
    st.GateChange = none ∧ ∃ raw, st.RawData = some raw := by
  unfold AviationService.fetch at h
  split at h
  · unfold AviationService.getFromAviationStack at h
    dsimp only at h
    split at h
    · cases h
    · cases h
    · split at h
      · cases h
      · split at h
        · cases h
        · cases h
          exact ⟨rfl, _, rfl⟩
  · split at h
    · cases h
    · split at h
      · cases h
      · cases h

/-- `updateFirst` leaves a list without a matching element as it is. -/
theorem updateFirst_none {α : Type} (p : α → Bool) (f : α → α) (xs : List α)
    (h : xs.find? p = none) : updateFirst p f xs = xs := by
  induction xs with
  | nil => rfl
  | cons x xs ih =>
    by_cases hx : p x
    · simp [List.find?, hx] at h
    · simp only [List.find?, hx] at h
      simp [updateFirst, hx, ih h]

/-- After `updateFirst`, the first match is the image of the old first match,
when the image still matches. -/
theorem find_updateFirst {α : Type} (p : α → Bool) (f : α → α) (xs : List α)
    (hf : ∀ x, p (f x) = true) :
    (updateFirst p f xs).find? p = (xs.find? p).map f := by
  induction xs with
  | nil => rfl
  | cons x xs ih =>
    by_cases hx : p x
    · simp [updateFirst, List.find?, hx, hf]
    · simp [updateFirst, List.find?, hx, ih]

/-- The three notification senders leave the cache and the flight-status
collection alone and record no dispatcher invocation. -/
theorem send_frame (env : Env) (s : State) (user : User) (flight : FlightStatus) :
    (∀ old new, (NotificationService.sendGateChangeNotification env s user flight old new).redis
        = s.redis ∧
      (NotificationService.sendGateChangeNotification env s user flight old new).flightStatus
        = s.flightStatus ∧
      dispatchCalls (NotificationService.sendGateChangeNotification env s user flight old new).trace
        = dispatchCalls s.trace) ∧
    (∀ old new, (NotificationService.sendStatusChangeNotification env s user flight old new).redis
        = s.redis ∧
      (NotificationService.sendStatusChangeNotification env s user flight old new).flightStatus
        = s.flightStatus ∧
      dispatchCalls (NotificationService.sendStatusChangeNotification env s user flight old new).trace
        = dispatchCalls s.trace) ∧
    (∀ old new, (NotificationService.sendDelayNotification env s user flight old new).redis
        = s.redis ∧
      (NotificationService.sendDelayNotification env s user flight old new).flightStatus
        = s.flightStatus ∧
      dispatchCalls (NotificationService.sendDelayNotification env s user flight old new).trace
        = dispatchCalls s.trace) := by
  refine ⟨fun old new => ?_, fun old new => ?_, fun old new => ?_⟩ <;>
  simp [NotificationService.sendGateChangeNotification,
    NotificationService.sendStatusChangeNotification, NotificationService.sendDelayNotification,
    newObjectID, insertOneNotification, fcmSendNotification, State.log, dispatchCalls,
    List.filterMap_append]

/-- `HandleFlightChanges` leaves the cache and the flight-status collection
alone and records exactly one dispatcher invocation, for the given user. -/
theorem HandleFlightChanges_frame (env : Env) (s : State) (userID : ObjectID)
    (flight : FlightStatus) (changes : Changes) :
    (NotificationService.HandleFlightChanges env s userID flight changes).redis = s.redis ∧
    (NotificationService.HandleFlightChanges env s userID flight changes).flightStatus
      = s.flightStatus ∧
    dispatchCalls (NotificationService.HandleFlightChanges env s userID flight changes).trace
      = dispatchCalls s.trace ++ [(userID, flight.FlightKey)] := by
  have base : dispatchCalls (s.log (Event.handleFlightChanges userID flight.FlightKey)
      |>.log (Event.findUser userID)).trace
      = dispatchCalls s.trace ++ [(userID, flight.FlightKey)] := by
    simp [State.log, dispatchCalls, List.filterMap_append]
  unfold NotificationService.HandleFlightChanges findOneUser
  dsimp only
  cases hu : List.find? (fun u => u.ID == userID)
      (s.log (Event.handleFlightChanges userID flight.FlightKey)).users with
  | none => exact ⟨rfl, rfl, base⟩
  | some user =>
    dsimp only
    by_cases htok : user.FCMToken = ""
    · rw [if_pos htok]
      exact ⟨rfl, rfl, base⟩
    · rw [if_neg htok]
      generalize hs0 : (s.log (Event.handleFlightChanges userID flight.FlightKey)).log
        (Event.findUser userID) = s0 at base
      have h0 : s0.redis = s.redis ∧ s0.flightStatus = s.flightStatus := by
        subst hs0; exact ⟨rfl, rfl⟩
      -- gate
      generalize hs1 : (match List.lookup "gate" changes with
        | some (ChangeValue.strings old new) =>
          if user.Preferences.NotifyGateChange = true then
            NotificationService.sendGateChangeNotification env s0 user flight old new
          else s0
        | _ => s0) = s1
      have h1 : s1.redis = s0.redis ∧ s1.flightStatus = s0.flightStatus ∧
          dispatchCalls s1.trace = dispatchCalls s0.trace := by
        subst hs1
        split
        · split
          · exact (send_frame env s0 user flight).1 _ _
          · exact ⟨rfl, rfl, rfl⟩
        · exact ⟨rfl, rfl, rfl⟩
      generalize hs2 : (match List.lookup "status" changes with
        | some (ChangeValue.strings old new) =>
          if user.Preferences.NotifyBoarding = true then
            NotificationService.sendStatusChangeNotification env s1 user flight old new
          else s1
        | _ => s1) = s2
      have h2 : s2.redis = s1.redis ∧ s2.flightStatus = s1.flightStatus ∧
          dispatchCalls s2.trace = dispatchCalls s1.trace := by
        subst hs2
        split
        · split
          · exact (send_frame env s1 user flight).2.1 _ _
          · exact ⟨rfl, rfl, rfl⟩
        · exact ⟨rfl, rfl, rfl⟩
      have h3 : ∀ s3, s3 = (match List.lookup "delay" changes with
        | some (ChangeValue.ints old new) =>
          if user.Preferences.NotifyDelay = true then
            NotificationService.sendDelayNotification env s2 user flight old new
          else s2
        | _ => s2) → s3.redis = s2.redis ∧ s3.flightStatus = s2.flightStatus ∧
          dispatchCalls s3.trace = dispatchCalls s2.trace := by
        intro s3 hs3
        subst hs3
        split
        · split
          · exact (send_frame env s2 user flight).2.2 _ _
          · exact ⟨rfl, rfl, rfl⟩
        · exact ⟨rfl, rfl, rfl⟩
      obtain ⟨a3, b3, c3⟩ := h3 _ rfl
      refine ⟨?_, ?_, ?_⟩
      · rw [a3, h2.1, h1.1, h0.1]
      · rw [b3, h2.2.1, h1.2.1, h0.2]
      · rw [c3, h2.2.2, h1.2.2, base]

/-- What `checkFlightUpdates` does once the provider has answered and the
change map is non-empty: `UpdateOne`, cache refresh, dispatch. -/
theorem checkFlightUpdates_changed (env : Env) (s : State) (flight : TrackedFlight)
    (new : FlightStatus)
    (hfetch : AviationService.fetch env flight.FlightNumber (env.formatDate flight.DepartureDate)
      = Except.ok new)
    (hchg : (detectChanges
      ((storeLookup s.flightStatus (FlightService.flightKeyOf env flight)).getD {}) new).length > 0) :
    FlightService.checkFlightUpdates env s flight
      = NotificationService.HandleFlightChanges env
          (FlightService.cacheFlightStatus env
            (updateOneFlightStatus
              ((s.log (Event.findFlightStatus (FlightService.flightKeyOf env flight))).log
                (Event.providerFetch flight.FlightNumber (env.formatDate flight.DepartureDate)))
              (FlightService.flightKeyOf env flight) new) new)
          flight.UserID new
          (detectChanges
            ((storeLookup s.flightStatus (FlightService.flightKeyOf env flight)).getD {}) new) := by
  unfold FlightService.flightKeyOf at hchg ⊢
  simp only [FlightService.checkFlightUpdates, findOneFlightStatus,
    AviationService.GetFlightStatus, hfetch]
  rw [if_pos hchg]

/-- What `checkFlightUpdates` writes when the provider snapshot differs from
the stored one (change map non-empty) and encodes to JSON.  If the store had a
document for the flight key, the document found under the key afterwards is
`bsonSet` of the old document and the new snapshot: it carries the new key,
number, airline, status, departure and arrival time, delay, last-updated stamp
and raw data, keeps the old gate, terminal or boarding time where the new one
is empty, and is the new snapshot itself when the new gate, terminal and
boarding time are non-empty and the old document had no gate-change record.
If the store had no document for the key, the collection is left as it was.
In both cases the cache holds the encoded new snapshot under
`"flight:" ++ key` with a five-minute TTL and the dispatcher has been invoked
exactly once, for the flight's owner. -/
theorem checkFlightUpdates_persists (env : Env) (s : State) (flight : TrackedFlight)
    (new : FlightStatus) (bytes : String)
    (hfetch : AviationService.fetch env flight.FlightNumber (env.formatDate flight.DepartureDate)
      = Except.ok new)
    (hchg : (detectChanges
      ((storeLookup s.flightStatus (FlightService.flightKeyOf env flight)).getD {}) new).length > 0)
    (henc : env.marshal new = some bytes) :
    (∀ old, storeLookup s.flightStatus (FlightService.flightKeyOf env flight) = some old →
      ∃ r, storeLookup (FlightService.checkFlightUpdates env s flight).flightStatus
          (FlightService.flightKeyOf env flight) = some r ∧
        r = bsonSet old new ∧
        r.FlightKey = new.FlightKey ∧ r.FlightNumber = new.FlightNumber ∧
        r.AirlineCode = new.AirlineCode ∧ r.Status = new.Status ∧
        r.DepartureTime = new.DepartureTime ∧ r.ArrivalTime = new.ArrivalTime ∧
        r.DelayMinutes = new.DelayMinutes ∧ r.LastUpdated = new.LastUpdated ∧
        r.RawData = new.RawData ∧
        (new.Gate ≠ "" → new.Terminal ≠ "" → new.BoardingTime ≠ 0 → old.GateChange = none →
          r = new)) ∧
    (storeLookup s.flightStatus (FlightService.flightKeyOf env flight) = none →
      (FlightService.checkFlightUpdates env s flight).flightStatus = s.flightStatus) ∧
    (FlightService.checkFlightUpdates env s flight).redis.head?
      = some { key := "flight:" ++ FlightService.flightKeyOf env flight, value := bytes,
               ttl := 5 * Minute, setAt := env.now } ∧
    cacheLookup env.now (FlightService.checkFlightUpdates env s flight).redis
      ("flight:" ++ FlightService.flightKeyOf env flight) = some bytes ∧
    dispatchCalls (FlightService.checkFlightUpdates env s flight).trace
      = dispatchCalls s.trace ++ [(flight.UserID, FlightService.flightKeyOf env flight)] := by
  have hkey : new.FlightKey = FlightService.flightKeyOf env flight :=
    (fetch_flightKey env _ _ new hfetch).1
  obtain ⟨hgc, raw, hraw⟩ := fetch_optional env _ _ new hfetch
  rw [checkFlightUpdates_changed env s flight new hfetch hchg]
  obtain ⟨hr, hfs, hd⟩ := HandleFlightChanges_frame env
    (FlightService.cacheFlightStatus env
      (updateOneFlightStatus
        ((s.log (Event.findFlightStatus (FlightService.flightKeyOf env flight))).log
          (Event.providerFetch flight.FlightNumber (env.formatDate flight.DepartureDate)))
        (FlightService.flightKeyOf env flight) new) new)
    flight.UserID new
    (detectChanges
      ((storeLookup s.flightStatus (FlightService.flightKeyOf env flight)).getD {}) new)
  rw [hr, hfs, hd]
  simp only [FlightService.cacheFlightStatus, henc, hkey]
  refine ⟨?_, ?_, ?_, ?_, ?_⟩
  · intro old hold
    have hfind := find_updateFirst
      (fun d : FlightStatus => d.FlightKey == FlightService.flightKeyOf env flight)
      (fun d => bsonSet d new) s.flightStatus (by intro x; simp [bsonSet, hkey])
    refine ⟨bsonSet old new, ?_, ?_⟩
    · show storeLookup (updateFirst _ _ s.flightStatus) _ = _
      unfold storeLookup at hold ⊢
      rw [hfind, hold]
      rfl
    · refine ⟨rfl, hkey, rfl, rfl, rfl, rfl, rfl, rfl, rfl, ?_, ?_⟩
      · simp [bsonSet, hraw]
      · intro h1 h2 h3 h4
        cases new
        simp_all [bsonSet]
  · intro hnone
    show updateFirst _ _ s.flightStatus = _
    exact updateFirst_none _ _ _ hnone
  · simp [redisSet, updateOneFlightStatus, State.log]
  · simp [redisSet, updateOneFlightStatus, State.log, cacheLookup, CacheEntry.alive, Minute]
  · simp [redisSet, updateOneFlightStatus, State.log, dispatchCalls, List.filterMap_append]

/-- The write of `checkFlightUpdates` for AA123 with the A1 snapshot stored and
the provider now answering with gate A2: the document found afterwards is the
A2 snapshot. -/
theorem checkFlightUpdates_persists_witness :
    storeLookup (FlightService.checkFlightUpdates (sampleEnv "gate A2") storeHitState
        sampleFlight).flightStatus
      (FlightService.flightKeyOf (sampleEnv "gate A2") sampleFlight)
      = some (sampleStatus "A2" "4" "scheduled") ∧
    (FlightService.checkFlightUpdates (sampleEnv "gate A2") storeHitState sampleFlight).redis.head?
      = some { key := "flight:" ++ FlightService.flightKeyOf (sampleEnv "gate A2") sampleFlight,
               value := "json/AA123_2025-06-01/A2/On Time",
               ttl := 5 * Minute, setAt := (sampleEnv "gate A2").now } ∧
    cacheLookup (sampleEnv "gate A2").now
      (FlightService.checkFlightUpdates (sampleEnv "gate A2") storeHitState sampleFlight).redis
      ("flight:" ++ FlightService.flightKeyOf (sampleEnv "gate A2") sampleFlight)
      = some "json/AA123_2025-06-01/A2/On Time" ∧
    dispatchCalls
      (FlightService.checkFlightUpdates (sampleEnv "gate A2") storeHitState sampleFlight).trace
      = dispatchCalls storeHitState.trace ++
          [(sampleFlight.UserID, FlightService.flightKeyOf (sampleEnv "gate A2") sampleFlight)] := by
  have h := checkFlightUpdates_persists (sampleEnv "gate A2") storeHitState sampleFlight
    (sampleStatus "A2" "4" "scheduled") "json/AA123_2025-06-01/A2/On Time"
    (by rfl) (by decide) (by rfl)
  obtain ⟨r, hr, -, -, -, -, -, -, -, -, -, -, hfull⟩ :=
    h.1 (sampleStatus "A1" "4" "scheduled") (by decide)
  rw [hfull (by decide) (by decide) (by decide) rfl] at hr
  exact ⟨hr, h.2.2.1, h.2.2.2.1, h.2.2.2.2⟩

/-- C9 fails on two inputs.  With no document stored for AA123 and the
provider answering, the change map is non-empty, yet afterwards the store still
has no document for the key: `UpdateOne` without upsert inserts nothing.  With
the A1 snapshot stored and the provider answering `active` without gate or
terminal, the change map is non-empty, yet the document found afterwards is
not the new snapshot: it keeps gate A1 and terminal 4. -/
theorem checkFlightUpdates_store_not_new_snapshot :
    (AviationService.fetch (sampleEnv "gate A1") sampleFlight.FlightNumber
        ((sampleEnv "gate A1").formatDate sampleFlight.DepartureDate)
        = Except.ok (sampleStatus "A1" "4" "scheduled") ∧
      storeLookup coldState.flightStatus "AA123_2025-06-01" = none ∧
      (detectChanges {} (sampleStatus "A1" "4" "scheduled")).length > 0 ∧
      storeLookup (FlightService.checkFlightUpdates (sampleEnv "gate A1") coldState
        sampleFlight).flightStatus "AA123_2025-06-01" = none) ∧
    (AviationService.fetch (sampleEnv "active, no gate") sampleFlight.FlightNumber
        ((sampleEnv "active, no gate").formatDate sampleFlight.DepartureDate)
        = Except.ok (sampleStatus "" "" "active") ∧
      storeLookup storeHitState.flightStatus "AA123_2025-06-01"
        = some (sampleStatus "A1" "4" "scheduled") ∧
      (detectChanges (sampleStatus "A1" "4" "scheduled") (sampleStatus "" "" "active")).length > 0 ∧
      storeLookup (FlightService.checkFlightUpdates (sampleEnv "active, no gate") storeHitState
        sampleFlight).flightStatus "AA123_2025-06-01" ≠ some (sampleStatus "" "" "active") ∧
      (storeLookup (FlightService.checkFlightUpdates (sampleEnv "active, no gate") storeHitState
        sampleFlight).flightStatus "AA123_2025-06-01").map (fun r => (r.Gate, r.Terminal, r.Status))
        = some ("A1", "4", "Boarding Soon")) := by
  refine ⟨⟨by rfl, by decide, by decide, by decide⟩, ⟨by rfl, by decide, by decide, by decide,
    by decide⟩⟩

/-- `cacheFlightStatus` touches only the cache and the trace. -/
theorem cacheFlightStatus_frame (env : Env) (s : State) (status : FlightStatus) :
    (FlightService.cacheFlightStatus env s status).flightStatus = s.flightStatus ∧
    (FlightService.cacheFlightStatus env s status).users = s.users ∧
    (FlightService.cacheFlightStatus env s status).notifications = s.notifications ∧
    (FlightService.cacheFlightStatus env s status).nextID = s.nextID := by
  unfold FlightService.cacheFlightStatus
  cases env.marshal status with
  | none => exact ⟨rfl, rfl, rfl, rfl⟩
  | some data => exact ⟨rfl, rfl, rfl, rfl⟩

/-- The notification log after `HandleFlightChanges` for a change map that
holds only a gate change, for a user with a push token who has gate-change
notifications switched on. -/
theorem HandleFlightChanges_gate_only (env : Env) (s : State) (userID : ObjectID) (user : User)
    (flight : FlightStatus) (g1 g2 : String)
    (huser : s.users.find? (fun u => u.ID == userID) = some user)
    (htok : user.FCMToken ≠ "") (hpref : user.Preferences.NotifyGateChange = true) :
    (NotificationService.HandleFlightChanges env s userID flight
        [("gate", ChangeValue.strings g1 g2)]).notifications
      = s.notifications ++
        [{ ID := s.nextID, UserID := user.ID, FlightKey := flight.FlightKey, Typ := "gate_change",
           Title := "⚡ Gate Changed",
           Body := flight.FlightNumber ++ " moved from Gate " ++ g1 ++ " to Gate " ++ g2,
           Priority := "high", SentAt := env.now, ReadAt := none }] := by
  simp [NotificationService.HandleFlightChanges, findOneUser, huser, htok, hpref, List.lookup,
    NotificationService.sendGateChangeNotification, newObjectID, insertOneNotification,
    fcmSendNotification, State.log]

/-- A gate change to a non-empty gate: a tracked flight whose stored snapshot
has a non-empty gate `g1`, whose owner has a push token and gate-change
notifications on; the provider snapshot has a different, non-empty gate `g2`
and the same status and delay.  Then `checkFlightUpdates` adds exactly one
notification record, of type `gate_change`, whose body names `g1` and `g2`,
and the document found under the flight key afterwards has gate `g2`. -/
theorem checkFlightUpdates_gate_change (env : Env) (s : State) (flight : TrackedFlight)
    (old new : FlightStatus) (user : User) (g1 g2 : String)
    (hold : storeLookup s.flightStatus (FlightService.flightKeyOf env flight) = some old)
    (hg1 : old.Gate = g1) (hne1 : g1 ≠ "")
    (huser : s.users.find? (fun u => u.ID == flight.UserID) = some user)
    (htok : user.FCMToken ≠ "") (hpref : user.Preferences.NotifyGateChange = true)
    (hfetch : AviationService.fetch env flight.FlightNumber (env.formatDate flight.DepartureDate)
      = Except.ok new)
    (hg2 : new.Gate = g2) (hdiff : g2 ≠ g1) (hne2 : g2 ≠ "")
    (hstatus : new.Status = old.Status) (hdelay : new.DelayMinutes = old.DelayMinutes) :
    (FlightService.checkFlightUpdates env s flight).notifications
      = s.notifications ++
        [{ ID := s.nextID, UserID := flight.UserID,
           FlightKey := FlightService.flightKeyOf env flight, Typ := "gate_change",
           Title := "⚡ Gate Changed",
           Body := flight.FlightNumber ++ " moved from Gate " ++ g1 ++ " to Gate " ++ g2,
           Priority := "high", SentAt := env.now, ReadAt := none }] ∧
    ∃ r, storeLookup (FlightService.checkFlightUpdates env s flight).flightStatus
        (FlightService.flightKeyOf env flight) = some r ∧ r.Gate = g2 := by
  obtain ⟨hkey, hnum⟩ := fetch_flightKey env _ _ new hfetch
  have hkey' : new.FlightKey = FlightService.flightKeyOf env flight := hkey
  have hchanges : detectChanges
      ((storeLookup s.flightStatus (FlightService.flightKeyOf env flight)).getD {}) new
      = [("gate", ChangeValue.strings g1 g2)] := by
    rw [hold, detectChanges_eq]
    have hne : ¬ g1 = g2 := fun h => hdiff h.symm
    simp [hg1, hg2, hne1, hne, hstatus, hdelay]
  have hchg : (detectChanges
      ((storeLookup s.flightStatus (FlightService.flightKeyOf env flight)).getD {}) new).length > 0 := by
    rw [hchanges]; simp
  have huid : user.ID = flight.UserID := by
    have := List.find?_some huser
    simpa using this
  rw [checkFlightUpdates_changed env s flight new hfetch hchg, hchanges]
  refine ⟨?_, ?_⟩
  · have hcf := cacheFlightStatus_frame env
      (updateOneFlightStatus
        ((s.log (Event.findFlightStatus (FlightService.flightKeyOf env flight))).log
          (Event.providerFetch flight.FlightNumber (env.formatDate flight.DepartureDate)))
        (FlightService.flightKeyOf env flight) new) new
    rw [HandleFlightChanges_gate_only env _ flight.UserID user new g1 g2
      (by rw [hcf.2.1]; exact huser) htok hpref, hcf.2.2.1, hcf.2.2.2, huid, hkey', hnum]
    rfl
  · rw [(HandleFlightChanges_frame env _ flight.UserID new _).2.1,
      (cacheFlightStatus_frame env _ new).1]
    have hfind := find_updateFirst
      (fun d : FlightStatus => d.FlightKey == FlightService.flightKeyOf env flight)
      (fun d => bsonSet d new) s.flightStatus (by intro x; simp [bsonSet, hkey'])
    refine ⟨bsonSet old new, ?_, ?_⟩
    · show storeLookup (updateFirst _ _ s.flightStatus) _ = _
      unfold storeLookup at hold ⊢
      rw [hfind, hold]
      rfl
    · simp [bsonSet, hg2, hne2]

/-- The gate change of AA123 on 2025-06-01 from the stored gate A1 to the
provider's gate A2. -/
theorem checkFlightUpdates_gate_change_witness :
    (FlightService.checkFlightUpdates (sampleEnv "gate A2") storeHitState sampleFlight).notifications
      = storeHitState.notifications ++
        [{ ID := storeHitState.nextID, UserID := sampleFlight.UserID,
           FlightKey := FlightService.flightKeyOf (sampleEnv "gate A2") sampleFlight,
           Typ := "gate_change", Title := "⚡ Gate Changed",
           Body := sampleFlight.FlightNumber ++ " moved from Gate " ++ "A1" ++ " to Gate " ++ "A2",
           Priority := "high", SentAt := (sampleEnv "gate A2").now, ReadAt := none }] ∧
    ∃ r, storeLookup (FlightService.checkFlightUpdates (sampleEnv "gate A2") storeHitState
          sampleFlight).flightStatus
        (FlightService.flightKeyOf (sampleEnv "gate A2") sampleFlight) = some r ∧ r.Gate = "A2" :=
  checkFlightUpdates_gate_change (sampleEnv "gate A2") storeHitState sampleFlight
    (sampleStatus "A1" "4" "scheduled") (sampleStatus "A2" "4" "scheduled") sampleUser "A1" "A2"
    (by decide) (by rfl) (by decide) (by decide) (by decide) (by rfl) (by rfl) (by rfl)
    (by decide) (by decide) (by rfl) (by rfl)

/-- C10 fails when the provider drops the gate: with gate A1 stored
for AA123 and the provider answering with the same status and delay and an
empty gate, one `gate_change` notification from A1 to the empty gate is
recorded, yet the document found under the flight key afterwards still has
gate A1. -/
theorem checkFlightUpdates_gate_dropped :
    AviationService.fetch (sampleEnv "gate dropped") sampleFlight.FlightNumber
        ((sampleEnv "gate dropped").formatDate sampleFlight.DepartureDate)
      = Except.ok (sampleStatus "" "4" "scheduled") ∧
    storeLookup storeHitState.flightStatus "AA123_2025-06-01"
      = some (sampleStatus "A1" "4" "scheduled") ∧
    (sampleStatus "" "4" "scheduled").Status = (sampleStatus "A1" "4" "scheduled").Status ∧
    (sampleStatus "" "4" "scheduled").DelayMinutes
      = (sampleStatus "A1" "4" "scheduled").DelayMinutes ∧
    (FlightService.checkFlightUpdates (sampleEnv "gate dropped") storeHitState
        sampleFlight).notifications.map (fun n => (n.Typ, n.Body))
      = [("gate_change", "AA123 moved from Gate A1 to Gate ")] ∧
    (storeLookup (FlightService.checkFlightUpdates (sampleEnv "gate dropped") storeHitState
        sampleFlight).flightStatus "AA123_2025-06-01").map (fun r => r.Gate) = some "A1" := by
  refine ⟨by rfl, by decide, by decide, by decide, by decide, by decide⟩

/-! ## Theorems: the notification dispatcher -/

/-- C12: for a user whose push token is empty, `HandleFlightChanges` only looks
the user up: the final state is the initial one with the invocation and the
user lookup added to the trace, so no notification record is inserted and
nothing is handed to the push transport. -/
theorem HandleFlightChanges_no_token (env : Env) (s : State) (userID : ObjectID) (user : User)
    (flight : FlightStatus) (changes : Changes)
    (huser : s.users.find? (fun u => u.ID == userID) = some user)
    (htok : user.FCMToken = "") :
    NotificationService.HandleFlightChanges env s userID flight changes
      = { s with trace := s.trace ++
            [Event.handleFlightChanges userID flight.FlightKey, Event.findUser userID] } ∧
    (NotificationService.HandleFlightChanges env s userID flight changes).notifications
      = s.notifications := by
  have h : NotificationService.HandleFlightChanges env s userID flight changes
      = { s with trace := s.trace ++
            [Event.handleFlightChanges userID flight.FlightKey, Event.findUser userID] } := by
    simp [NotificationService.HandleFlightChanges, findOneUser, State.log, huser, htok]
  rw [h]
  exact ⟨rfl, rfl⟩

/-- Witness for C12: user 8 has no push token; a gate change and a delay
change leave the notification log empty. -/
theorem HandleFlightChanges_no_token_witness :
    NotificationService.HandleFlightChanges (sampleEnv "gate A2") threeUserState 8
        (sampleStatus "A2" "4" "scheduled") gateAndDelay
      = { threeUserState with trace := threeUserState.trace ++
            [Event.handleFlightChanges 8 (sampleStatus "A2" "4" "scheduled").FlightKey,
             Event.findUser 8] } ∧
    (NotificationService.HandleFlightChanges (sampleEnv "gate A2") threeUserState 8
        (sampleStatus "A2" "4" "scheduled") gateAndDelay).notifications
      = threeUserState.notifications :=
  HandleFlightChanges_no_token (sampleEnv "gate A2") threeUserState 8 tokenlessUser
    (sampleStatus "A2" "4" "scheduled") gateAndDelay (by decide) (by decide)

/-- C14: the outcome of the push transport does not enter the result of
`HandleFlightChanges`: with any other acceptance behaviour of the transport
the final state is the same, notification records and attempted sends (in the
trace) included. -/
theorem HandleFlightChanges_send_outcome_irrelevant (env : Env) (accepts : PushMessage → Bool)
    (s : State) (userID : ObjectID) (flight : FlightStatus) (changes : Changes) :
    NotificationService.HandleFlightChanges { env with fcmAccepts := accepts } s userID flight
        changes
      = NotificationService.HandleFlightChanges env s userID flight changes ∧
    (NotificationService.HandleFlightChanges { env with fcmAccepts := accepts } s userID flight
        changes).notifications
      = (NotificationService.HandleFlightChanges env s userID flight changes).notifications := by
  have h : NotificationService.HandleFlightChanges { env with fcmAccepts := accepts } s userID
      flight changes = NotificationService.HandleFlightChanges env s userID flight changes := rfl
  exact ⟨h, by rw [h]⟩

/-- Every change map built by `detectChanges` is well shaped. -/
theorem detectChanges_wellShaped (old new : FlightStatus) :
    wellShaped (detectChanges old new) = true := by
  rw [detectChanges_eq]
  by_cases hg : old.Gate ≠ "" ∧ old.Gate ≠ new.Gate <;>
  by_cases hs : old.Status ≠ new.Status <;>
  by_cases hd : old.DelayMinutes ≠ new.DelayMinutes <;>
  simp [hg, hs, hd, wellShaped, List.lookup]

/-- C13: for a user with a push token and a well-shaped change map,
`HandleFlightChanges` appends to the notification log exactly one record per
category that is present in the map and switched on in the preferences, in
the order gate, status, delay: `gate_change` under `NotifyGateChange`,
`status_change` under `NotifyBoarding`, `delay` under `NotifyDelay`; every
record is for that user and flight key.  A category that is absent or switched
off adds nothing and does not affect the other categories. -/
theorem HandleFlightChanges_records (env : Env) (s : State) (userID : ObjectID) (user : User)
    (flight : FlightStatus) (changes : Changes)
    (huser : s.users.find? (fun u => u.ID == userID) = some user)
    (htok : user.FCMToken ≠ "")
    (hshape : wellShaped changes = true) :
    ∃ added : List Notification,
      (NotificationService.HandleFlightChanges env s userID flight changes).notifications
        = s.notifications ++ added ∧
      added.map (fun n => n.Typ)
        = (if (changes.lookup "gate").isSome ∧ user.Preferences.NotifyGateChange = true
            then ["gate_change"] else []) ++
          (if (changes.lookup "status").isSome ∧ user.Preferences.NotifyBoarding = true
            then ["status_change"] else []) ++
          (if (changes.lookup "delay").isSome ∧ user.Preferences.NotifyDelay = true
            then ["delay"] else []) ∧
      ∀ n ∈ added, n.UserID = user.ID ∧ n.FlightKey = flight.FlightKey := by
  unfold wellShaped at hshape
  rcases hg : changes.lookup "gate" with _ | ⟨og, ng⟩ | ⟨og, ng⟩ <;>
  rcases hs : changes.lookup "status" with _ | ⟨os, ns⟩ | ⟨os, ns⟩ <;>
  rcases hd : changes.lookup "delay" with _ | ⟨od, nd⟩ | ⟨od, nd⟩ <;>
  simp [hg, hs, hd] at hshape <;>
  cases hpg : user.Preferences.NotifyGateChange <;>
  cases hpb : user.Preferences.NotifyBoarding <;>
  cases hpd : user.Preferences.NotifyDelay <;>
  simp [NotificationService.HandleFlightChanges, findOneUser, State.log, huser, htok, hg, hs, hd,
    hpg, hpb, hpd, NotificationService.sendGateChangeNotification,
    NotificationService.sendStatusChangeNotification, NotificationService.sendDelayNotification,
    newObjectID, insertOneNotification, fcmSendNotification]

/-- Witness for C13: user 9 has delay notifications off and gate-change
notifications on; a gate change A1 to A2 together with a delay change 0 to 15
yields one `gate_change` record and no `delay` record. -/
theorem HandleFlightChanges_records_witness :
    (NotificationService.HandleFlightChanges (sampleEnv "gate A2") threeUserState 9
        (sampleStatus "A2" "4" "scheduled") gateAndDelay).notifications.map (fun n => n.Typ)
      = ["gate_change"] := by
  obtain ⟨added, h1, h2, -⟩ := HandleFlightChanges_records (sampleEnv "gate A2") threeUserState 9
    noDelayUser (sampleStatus "A2" "4" "scheduled") gateAndDelay (by decide) (by decide)
    (by decide)
  rw [h1, List.map_append, h2]
  decide

/-- Witness for C14: with a transport that rejects every message, user 7 still
gets the `gate_change` and the `delay` record, and the final state is the one
reached with an accepting transport. -/
theorem HandleFlightChanges_send_outcome_irrelevant_witness :
    NotificationService.HandleFlightChanges rejectingEnv threeUserState 7
        (sampleStatus "A2" "4" "scheduled") gateAndDelay
      = NotificationService.HandleFlightChanges (sampleEnv "gate A2") threeUserState 7
        (sampleStatus "A2" "4" "scheduled") gateAndDelay ∧
    (NotificationService.HandleFlightChanges rejectingEnv threeUserState 7
        (sampleStatus "A2" "4" "scheduled") gateAndDelay).notifications.map (fun n => n.Typ)
      = ["gate_change", "delay"] :=
  ⟨(HandleFlightChanges_send_outcome_irrelevant (sampleEnv "gate A2") (fun _ => false)
      threeUserState 7 (sampleStatus "A2" "4" "scheduled") gateAndDelay).1, by decide⟩

/-! ## Theorems: urgency tiers and the provider gateway -/

/-- C15: the tier of `buildFlightStatusResponse` is `critical` exactly for
`m ≤ 10` (every negative `m` included), `urgent` exactly for `10 < m ≤ 20`,
`moderate` exactly for `20 < m ≤ 40` and `calm` exactly for `m > 40`, where
`m` is the response's minutes until boarding; 10, 20, 40 and 41 give
`critical`, `urgent`, `moderate` and `calm`. -/
theorem urgencyLevel_tiers (m : Int) (env : Env) (status : FlightStatus) :
    (FlightService.urgencyLevel m = "critical" ↔ m ≤ 10) ∧
    (FlightService.urgencyLevel m = "urgent" ↔ 10 < m ∧ m ≤ 20) ∧
    (FlightService.urgencyLevel m = "moderate" ↔ 20 < m ∧ m ≤ 40) ∧
    (FlightService.urgencyLevel m = "calm" ↔ 40 < m) ∧
    FlightService.urgencyLevel 10 = "critical" ∧
    FlightService.urgencyLevel 20 = "urgent" ∧
    FlightService.urgencyLevel 40 = "moderate" ∧
    FlightService.urgencyLevel 41 = "calm" ∧
    FlightService.urgencyLevel (-1) = "critical" ∧
    (FlightService.buildFlightStatusResponse env status).UrgencyLevel
      = FlightService.urgencyLevel
          (FlightService.buildFlightStatusResponse env status).TimeUntil.BoardingMinutes ∧
    (FlightService.buildFlightStatusResponse env status).TimeUntil.BoardingMinutes
      = wholeMinutes (timeSub status.BoardingTime env.now) := by
  refine ⟨?_, ?_, ?_, ?_, by decide, by decide, by decide, by decide, by decide, rfl, rfl⟩ <;>
  · unfold FlightService.urgencyLevel
    by_cases h1 : m ≤ 10 <;> by_cases h2 : m ≤ 20 <;> by_cases h3 : m ≤ 40 <;>
    simp [h1, h2, h3] <;> omega

/-- C17: `mapStatus` always returns one of the seven statuses; it returns
`Unknown` exactly for the strings other than the six recognised provider
values, and maps those six to the other six statuses. -/
theorem mapStatus_enumerated (apiStatus : String) :
    AviationService.mapStatus apiStatus ∈
      ["On Time", "Boarding Soon", "Arrived", "Cancelled", "Delayed", "Diverted", "Unknown"] ∧
    (AviationService.mapStatus apiStatus = "Unknown" ↔
      apiStatus ∉ ["scheduled", "active", "landed", "cancelled", "incident", "diverted"]) ∧
    AviationService.mapStatus "scheduled" = "On Time" ∧
    AviationService.mapStatus "active" = "Boarding Soon" ∧
    AviationService.mapStatus "landed" = "Arrived" ∧
    AviationService.mapStatus "cancelled" = "Cancelled" ∧
    AviationService.mapStatus "incident" = "Delayed" ∧
    AviationService.mapStatus "diverted" = "Diverted" := by
  refine ⟨?_, ?_, by decide, by decide, by decide, by decide, by decide, by decide⟩
  · unfold AviationService.mapStatus
    repeat' split
    all_goals simp
  · unfold AviationService.mapStatus
    repeat' split
    all_goals simp_all

/-- C18: every snapshot `getFromAviationStack` returns has its boarding time
40 minutes before its departure time, the departure time being the parsed
scheduled departure of the first provider flight or the zero time when that
does not parse; and whenever the provider reply decodes to a list with at
least one flight, a snapshot is returned. -/
theorem getFromAviationStack_boardingTime (env : Env) (flightNumber date : String) :
    (∀ st, AviationService.getFromAviationStack env flightNumber date = Except.ok st →
      st.BoardingTime = st.DepartureTime - 40 * Minute ∧
      timeSub st.DepartureTime st.BoardingTime = 40 * Minute) ∧
    (∀ bytes resp flight rest,
      env.httpGet ("http://api.aviationstack.com/v1/flights?access_key=" ++ env.aviationStackKey
        ++ "&flight_iata=" ++ flightNumber ++ "&flight_date=" ++ date) = HttpResult.body bytes →
      env.decodeResponse bytes = some resp →
      resp.Data = flight :: rest →
      ∃ st, AviationService.getFromAviationStack env flightNumber date = Except.ok st ∧
        st.DepartureTime = (env.parseRFC3339 flight.Departure.Scheduled).getD 0 ∧
        st.BoardingTime = st.DepartureTime - 40 * Minute ∧
        (env.parseRFC3339 flight.Departure.Scheduled = none →
          st.DepartureTime = 0 ∧ st.BoardingTime = -(40 * Minute))) := by
  constructor
  · intro st h
    unfold AviationService.getFromAviationStack at h
    dsimp only at h
    split at h
    · cases h
    · cases h
    · split at h
      · cases h
      · split at h
        · cases h
        · cases h
          refine ⟨by simp only []; ring, ?_⟩
          simp [timeSub, Minute, maxDuration, minDuration]
  · intro bytes resp flight rest hget hdec hdata
    have hres : AviationService.getFromAviationStack env flightNumber date
        = Except.ok
          { FlightKey := flightNumber ++ "_" ++ date
            FlightNumber := flightNumber
            AirlineCode := flight.Airline.Iata
            Status := AviationService.mapStatus flight.FlightStatus
            Gate := flight.Departure.Gate
            Terminal := flight.Departure.Terminal
            BoardingTime := (env.parseRFC3339 flight.Departure.Scheduled).getD 0 + (-40) * Minute
            DepartureTime := (env.parseRFC3339 flight.Departure.Scheduled).getD 0
            ArrivalTime := (env.parseRFC3339 flight.Arrival.Scheduled).getD 0
            DelayMinutes := flight.Departure.Delay
            GateChange := none
            LastUpdated := env.now
            RawData := some flight } := by
      unfold AviationService.getFromAviationStack
      simp only [hget, hdec, hdata]
    refine ⟨_, hres, rfl, ?_, ?_⟩
    · simp only []; ring
    · intro hnone
      simp [hnone]

/-- Witness for C18: a provider reply for AA123 whose scheduled times do not
parse yields a snapshot departing at the zero time and boarding 40 minutes
before it. -/
theorem getFromAviationStack_boardingTime_witness :
    ∃ st, AviationService.getFromAviationStack unparsableEnv "AA123" "2025-06-01" = Except.ok st ∧
      st.DepartureTime = (unparsableEnv.parseRFC3339
        (sampleRaw "A1" "4" "scheduled").Departure.Scheduled).getD 0 ∧
      st.BoardingTime = st.DepartureTime - 40 * Minute ∧
      (unparsableEnv.parseRFC3339 (sampleRaw "A1" "4" "scheduled").Departure.Scheduled = none →
        st.DepartureTime = 0 ∧ st.BoardingTime = -(40 * Minute)) :=
  (getFromAviationStack_boardingTime unparsableEnv "AA123" "2025-06-01").2 "gate A1"
    { Data := [sampleRaw "A1" "4" "scheduled"] } (sampleRaw "A1" "4" "scheduled") []
    (by decide) (by decide) rfl

/-- Truncated division by a minute, through floor division. -/
theorem wholeMinutes_eq (d : Int) :
    wholeMinutes d = if 0 ≤ d then d / 60000000000 else -((-d) / 60000000000) := by
  unfold wholeMinutes Minute
  split
  · next h => exact Int.tdiv_eq_ediv h (by norm_num)
  · next h =>
    have h' : (0 : Int) ≤ -d := by omega
    have := Int.tdiv_eq_ediv h' (show (0 : Int) ≤ 60000000000 by norm_num)
    rw [Int.neg_tdiv] at this
    omega

/-- `Time.Sub` stays within the range of `time.Duration`. -/
theorem timeSub_range (t u : Int) :
    ∃ d : Int, timeSub t u = d ∧ -9223372036854775808 ≤ d ∧ d ≤ 9223372036854775807 := by
  by_cases h1 : (9223372036854775807 : Int) < t - u
  · refine ⟨9223372036854775807, ?_, by norm_num, by norm_num⟩
    unfold timeSub maxDuration minDuration
    rw [if_pos h1]
  · by_cases h2 : t - u < (-9223372036854775808 : Int)
    · refine ⟨-9223372036854775808, ?_, by norm_num, by norm_num⟩
      unfold timeSub maxDuration minDuration
      rw [if_neg h1, if_pos h2]
    · refine ⟨t - u, ?_, by omega, by omega⟩
      unfold timeSub maxDuration minDuration
      rw [if_neg h1, if_neg h2]

/-- The minutes until boarding computed from two instants stay far below the
largest Go `int`. -/
theorem wholeMinutes_timeSub_bounds (t u : Time) :
    (-153722867 : Int) ≤ wholeMinutes (timeSub t u) ∧
    wholeMinutes (timeSub t u) ≤ (153722867 : Int) := by
  obtain ⟨d, hd, h1, h2⟩ := timeSub_range t u
  rw [hd, wholeMinutes_eq]
  split <;> constructor <;> omega

/-! ## Theorems: gate-walk urgency -/

/-- C20: for a walk time `w ≥ 0` and minutes until boarding `r` (a Go `int`
at least 20 below the largest one, as every whole-minute count of a
`time.Duration` is), the tier of `GetWalkTime` is `critical` when `w > r`,
otherwise `urgent` when `w + 10 > r`, otherwise `moderate` when `w + 20 > r`,
otherwise `calm`; and the recommended action is determined by the tier: two
classifications with the same tier carry the same action, one fixed string
per tier. -/
theorem walkUrgency_tiers (w r : Int) (hw : 0 ≤ w) (hr : r ≤ 9223372036854775787) :
    (LocationService.walkUrgency w r).1
      = (if w > r then "critical"
         else if w + 10 > r then "urgent"
         else if w + 20 > r then "moderate"
         else "calm") ∧
    (∀ w' r' : Int, (LocationService.walkUrgency w' r').1 = (LocationService.walkUrgency w r).1 →
      (LocationService.walkUrgency w' r').2 = (LocationService.walkUrgency w r).2) ∧
    (LocationService.walkUrgency w r).2
      = (if (LocationService.walkUrgency w r).1 = "critical" then "Head to gate immediately!"
         else if (LocationService.walkUrgency w r).1 = "urgent" then "Start heading to gate now"
         else if (LocationService.walkUrgency w r).1 = "moderate" then
           "Consider heading to gate soon"
         else "You have plenty of time") := by
  have hfour : ∀ a b : Int,
      LocationService.walkUrgency a b = ("critical", "Head to gate immediately!") ∨
      LocationService.walkUrgency a b = ("urgent", "Start heading to gate now") ∨
      LocationService.walkUrgency a b = ("moderate", "Consider heading to gate soon") ∨
      LocationService.walkUrgency a b = ("calm", "You have plenty of time") := by
    intro a b
    unfold LocationService.walkUrgency
    split
    · exact Or.inl rfl
    · split
      · exact Or.inr (Or.inl rfl)
      · split
        · exact Or.inr (Or.inr (Or.inl rfl))
        · exact Or.inr (Or.inr (Or.inr rfl))
  refine ⟨?_, ?_, ?_⟩
  · unfold LocationService.walkUrgency
    by_cases h1 : w > r
    · simp [h1]
    · have e10 : LocationService.wrapInt64 (w + 10) = w + 10 := by
        unfold LocationService.wrapInt64; omega
      have e20 : LocationService.wrapInt64 (w + 20) = w + 20 := by
        unfold LocationService.wrapInt64; omega
      rw [e10, e20]
      by_cases h2 : w + 10 > r <;> by_cases h3 : w + 20 > r <;> simp [h1, h2, h3]
  · intro w' r' h
    rcases hfour w r with e | e | e | e <;> rcases hfour w' r' with e' | e' | e' | e' <;>
      rw [e, e'] at h <;> rw [e, e'] <;> simp at h ⊢
  · rcases hfour w r with e | e | e | e <;> rw [e] <;> simp

/-- Witness for C20: a 5-minute walk with 12 minutes until boarding is
`urgent`. -/
theorem walkUrgency_tiers_witness :
    LocationService.walkUrgency 5 12 = ("urgent", "Start heading to gate now") ∧
    (LocationService.walkUrgency 5 12).1
      = (if (5 : Int) > 12 then "critical"
         else if (5 : Int) + 10 > 12 then "urgent"
         else if (5 : Int) + 20 > 12 then "moderate"
         else "calm") :=
  ⟨by decide, (walkUrgency_tiers 5 12 (by decide) (by decide)).1⟩

/-! ## Theorems: the reminder scheduler -/

/-- One run of `checkBoardingReminderForFlight` for a flight with a stored
snapshot whose owner has a push token: the store and the users are untouched,
and the records appended to the notification log are those of the threshold
that the minutes until boarding hit, if its preference is on. -/
theorem checkBoardingReminder_step (env : Env) (s : State) (flight : TrackedFlight)
    (status : FlightStatus) (user : User)
    (hstatus : storeLookup s.flightStatus (FlightService.flightKeyOf env flight) = some status)
    (huser : s.users.find? (fun u => u.ID == flight.UserID) = some user)
    (htok : user.FCMToken ≠ "") :
    (NotificationService.checkBoardingReminderForFlight env s flight).flightStatus
      = s.flightStatus ∧
    (NotificationService.checkBoardingReminderForFlight env s flight).users = s.users ∧
    ∃ added : List Notification,
      (NotificationService.checkBoardingReminderForFlight env s flight).notifications
        = s.notifications ++ added ∧
      added.map (fun n => n.Typ)
        = (if wholeMinutes (timeSub status.BoardingTime env.now) = 40 ∧
              user.Preferences.BoardingReminder40 = true then ["boarding_40"]
           else if wholeMinutes (timeSub status.BoardingTime env.now) = 20 ∧
              user.Preferences.BoardingReminder20 = true then ["boarding_20"]
           else if wholeMinutes (timeSub status.BoardingTime env.now) = 10 ∧
              user.Preferences.BoardingReminder10 = true then ["boarding_10"]
           else []) ∧
      ∀ n ∈ added, n.UserID = user.ID ∧ n.FlightKey = status.FlightKey := by
  unfold FlightService.flightKeyOf at hstatus
  have h40 : "boarding_" ++ NotificationService.formatInt 40 = "boarding_40" := by decide
  have h20 : "boarding_" ++ NotificationService.formatInt 20 = "boarding_20" := by decide
  have h10 : "boarding_" ++ NotificationService.formatInt 10 = "boarding_10" := by decide
  simp only [NotificationService.checkBoardingReminderForFlight, findOneFlightStatus, hstatus,
    findOneUser, State.log, huser, htok, if_false]
  split
  · simp [NotificationService.sendBoardingReminder, newObjectID, insertOneNotification,
      fcmSendNotification, State.log, h40]
  · split
    · simp [NotificationService.sendBoardingReminder, newObjectID, insertOneNotification,
        fcmSendNotification, State.log, h20]
    · split
      · simp [NotificationService.sendBoardingReminder, newObjectID, insertOneNotification,
          fcmSendNotification, State.log, h10]
      · simp

/-- A list whose image is a singleton is a singleton. -/
theorem map_singleton_inv {α β : Type} (f : α → β) (l : List α) (b : β)
    (h : l.map f = [b]) : ∃ a, l = [a] ∧ f a = b := by
  cases l with
  | nil => simp at h
  | cons a t =>
    cases t with
    | nil => exact ⟨a, rfl, by simpa using h⟩
    | cons _ _ => simp at h

/-- Over a run of reminder ticks for one flight, the number of `boarding_40`
records added is the number of ticks at which the minutes until boarding are
exactly 40, when the 40-minute preference is on. -/
theorem reminder_run_count (flight : TrackedFlight) (status : FlightStatus) (user : User)
    (htok : user.FCMToken ≠ "") (hpref : user.Preferences.BoardingReminder40 = true)
    (envs : List Env) :
    ∀ s : State,
      (∀ e ∈ envs, storeLookup s.flightStatus (FlightService.flightKeyOf e flight) = some status) →
      s.users.find? (fun u => u.ID == flight.UserID) = some user →
      (((envs.foldl (fun st e => NotificationService.checkBoardingReminderForFlight e st flight)
          s).notifications.map (fun n => n.Typ)).count "boarding_40"
        = (s.notifications.map (fun n => n.Typ)).count "boarding_40" +
          (envs.map (fun e => wholeMinutes (timeSub status.BoardingTime e.now))).count 40) := by
  induction envs with
  | nil => intro s _ _; simp
  | cons e rest ih =>
    intro s hstatus huser
    obtain ⟨hfs, hus, added, hadd, htyp, -⟩ := checkBoardingReminder_step e s flight status user
      (hstatus e (List.mem_cons_self _ _)) huser htok
    have hrest := ih (NotificationService.checkBoardingReminderForFlight e s flight)
      (by intro e' he'; rw [hfs]; exact hstatus e' (List.mem_cons_of_mem _ he'))
      (by rw [hus]; exact huser)
    rw [List.foldl_cons, hrest, hadd, List.map_append, List.count_append, htyp, List.map_cons,
      List.count_cons]
    by_cases h40 : wholeMinutes (timeSub status.BoardingTime e.now) = 40
    · simp [h40, hpref]; omega
    · have h40' : ¬ (40 : Int) = wholeMinutes (timeSub status.BoardingTime e.now) :=
        fun h => h40 h.symm
      by_cases h20 : wholeMinutes (timeSub status.BoardingTime e.now) = 20 ∧
          user.Preferences.BoardingReminder20 = true
      · simp [h40, h40', h20]
      · by_cases h10 : wholeMinutes (timeSub status.BoardingTime e.now) = 10 ∧
            user.Preferences.BoardingReminder10 = true
        · simp [h40, h40', h20, h10]
        · simp [h40, h40', h20, h10]

/-- C16: for a tracked flight with a stored snapshot whose owner has a push
token, with `m` the whole minutes until boarding: when `m` is 40, 20 or 10 and
the preference for that threshold is on, `checkBoardingReminderForFlight`
appends exactly one notification record, of type `boarding_m`, for that user
and flight key; otherwise it appends none.  Hence, over any run of ticks with
the 40-minute preference on, the number of `boarding_40` records added is the
number of ticks whose minutes until boarding equal 40. -/
theorem checkBoardingReminder_emits (env : Env) (s : State) (flight : TrackedFlight)
    (status : FlightStatus) (user : User) (m : Int)
    (hstatus : storeLookup s.flightStatus (FlightService.flightKeyOf env flight) = some status)
    (huser : s.users.find? (fun u => u.ID == flight.UserID) = some user)
    (htok : user.FCMToken ≠ "")
    (hm : wholeMinutes (timeSub status.BoardingTime env.now) = m) :
    (((m = 40 ∧ user.Preferences.BoardingReminder40 = true) ∨
        (m = 20 ∧ user.Preferences.BoardingReminder20 = true) ∨
        (m = 10 ∧ user.Preferences.BoardingReminder10 = true)) →
      ∃ n, (NotificationService.checkBoardingReminderForFlight env s flight).notifications
          = s.notifications ++ [n] ∧
        n.Typ = "boarding_" ++ NotificationService.formatInt m ∧
        n.UserID = user.ID ∧ n.FlightKey = status.FlightKey) ∧
    (¬ ((m = 40 ∧ user.Preferences.BoardingReminder40 = true) ∨
        (m = 20 ∧ user.Preferences.BoardingReminder20 = true) ∨
        (m = 10 ∧ user.Preferences.BoardingReminder10 = true)) →
      (NotificationService.checkBoardingReminderForFlight env s flight).notifications
        = s.notifications) ∧
    (∀ envs : List Env,
      (∀ e ∈ envs, storeLookup s.flightStatus (FlightService.flightKeyOf e flight) = some status) →
      user.Preferences.BoardingReminder40 = true →
      (((envs.foldl (fun st e => NotificationService.checkBoardingReminderForFlight e st flight)
          s).notifications.map (fun n => n.Typ)).count "boarding_40"
        = (s.notifications.map (fun n => n.Typ)).count "boarding_40" +
          (envs.map (fun e => wholeMinutes (timeSub status.BoardingTime e.now))).count 40)) := by
  obtain ⟨-, -, added, hadd, htyp, hown⟩ :=
    checkBoardingReminder_step env s flight status user hstatus huser htok
  rw [hm] at htyp
  refine ⟨?_, ?_, ?_⟩
  · intro hfire
    have hone : ∃ n, added = [n] ∧ n.Typ = "boarding_" ++ NotificationService.formatInt m := by
      rcases hfire with ⟨h, hp⟩ | ⟨h, hp⟩ | ⟨h, hp⟩
      · subst h
        simp only [hp, and_self, if_true] at htyp
        obtain ⟨n, hn, hty⟩ := map_singleton_inv _ _ _ htyp
        exact ⟨n, hn, by rw [hty]; decide⟩
      · subst h
        simp only [hp, and_self, if_true, show ¬ ((20 : Int) = 40) by decide, false_and,
          if_false] at htyp
        obtain ⟨n, hn, hty⟩ := map_singleton_inv _ _ _ htyp
        exact ⟨n, hn, by rw [hty]; decide⟩
      · subst h
        simp only [hp, and_self, if_true, show ¬ ((10 : Int) = 40) by decide,
          show ¬ ((10 : Int) = 20) by decide, false_and, if_false] at htyp
        obtain ⟨n, hn, hty⟩ := map_singleton_inv _ _ _ htyp
        exact ⟨n, hn, by rw [hty]; decide⟩
    obtain ⟨n, hn, hty⟩ := hone
    subst hn
    exact ⟨n, hadd, hty, hown n (List.mem_singleton_self n)⟩
  · intro hno
    have h1 : ¬ (m = 40 ∧ user.Preferences.BoardingReminder40 = true) :=
      fun h => hno (Or.inl h)
    have h2 : ¬ (m = 20 ∧ user.Preferences.BoardingReminder20 = true) :=
      fun h => hno (Or.inr (Or.inl h))
    have h3 : ¬ (m = 10 ∧ user.Preferences.BoardingReminder10 = true) :=
      fun h => hno (Or.inr (Or.inr h))
    rw [if_neg h1, if_neg h2, if_neg h3] at htyp
    have : added = [] := by simpa using htyp
    rw [hadd, this, List.append_nil]
  · intro envs hall hpref
    exact reminder_run_count flight status user htok hpref envs s hall huser

/-- Witness for C16: AA123 with the A1 snapshot stored (boarding at 09:20) and
ticks at 42, 41, 40 and 39 minutes (and 30 seconds) before boarding; the tick
at 40 appends one `boarding_40` record, and the whole run appends exactly that
one record. -/
theorem checkBoardingReminder_emits_witness :
    (∃ n, (NotificationService.checkBoardingReminderForFlight (envBeforeBoarding 40) storeHitState
          sampleFlight).notifications = storeHitState.notifications ++ [n] ∧
        n.Typ = "boarding_" ++ NotificationService.formatInt 40 ∧
        n.UserID = sampleUser.ID ∧ n.FlightKey = (sampleStatus "A1" "4" "scheduled").FlightKey) ∧
    ((([42, 41, 40, 39].map envBeforeBoarding).foldl
        (fun st e => NotificationService.checkBoardingReminderForFlight e st sampleFlight)
        storeHitState).notifications.map (fun n => n.Typ)).count "boarding_40" = 1 ∧
    (([42, 41, 40, 39].map envBeforeBoarding).foldl
        (fun st e => NotificationService.checkBoardingReminderForFlight e st sampleFlight)
        storeHitState).notifications.map (fun n => n.Typ) = ["boarding_40"] := by
  have h := checkBoardingReminder_emits (envBeforeBoarding 40) storeHitState sampleFlight
    (sampleStatus "A1" "4" "scheduled") sampleUser 40 (by decide) (by decide) (by decide)
    (by decide)
  have hall : ∀ e ∈ [42, 41, 40, 39].map envBeforeBoarding,
      storeLookup storeHitState.flightStatus (FlightService.flightKeyOf e sampleFlight)
        = some (sampleStatus "A1" "4" "scheduled") := by
    intro e he
    simp only [List.map_cons, List.map_nil, List.mem_cons, List.mem_singleton,
      List.not_mem_nil, or_false] at he
    rcases he with rfl | rfl | rfl | rfl <;> decide
  exact ⟨h.1 (Or.inl ⟨rfl, rfl⟩), (h.2.2 _ hall rfl).trans (by decide), by decide⟩

/-! ## Theorems: the polling scheduler -/

/-- `HandleFlightChanges` reads nothing from the trace: on two states with the
same data it yields states with the same data. -/
theorem HandleFlightChanges_data (env : Env) (s : State) (userID : ObjectID)
    (flight : FlightStatus) (changes : Changes) :
    (NotificationService.HandleFlightChanges env s userID flight changes).data
      = (NotificationService.HandleFlightChanges env s.data userID flight changes).data := by
  unfold NotificationService.HandleFlightChanges findOneUser
  simp only [State.log, State.data]
  cases hu : List.find? (fun u => u.ID == userID) s.users with
  | none => rfl
  | some user =>
    simp only []
    by_cases htok : user.FCMToken = ""
    · simp [htok]
    · simp only [htok, if_false]
      rcases changes.lookup "gate" with _ | ⟨og, ng⟩ | ⟨og, ng⟩ <;>
      rcases changes.lookup "status" with _ | ⟨os, ns⟩ | ⟨os, ns⟩ <;>
      rcases changes.lookup "delay" with _ | ⟨od, nd⟩ | ⟨od, nd⟩ <;>
      cases user.Preferences.NotifyGateChange <;>
      cases user.Preferences.NotifyBoarding <;>
      cases user.Preferences.NotifyDelay <;>
      simp [NotificationService.sendGateChangeNotification,
        NotificationService.sendStatusChangeNotification,
        NotificationService.sendDelayNotification,
        newObjectID, insertOneNotification, fcmSendNotification, State.log]

/-- `checkFlightUpdates` reads nothing from the trace. -/
theorem checkFlightUpdates_data (env : Env) (s : State) (flight : TrackedFlight) :
    (FlightService.checkFlightUpdates env s flight).data
      = (FlightService.checkFlightUpdates env s.data flight).data := by
  simp only [FlightService.checkFlightUpdates, findOneFlightStatus,
    AviationService.GetFlightStatus]
  have hfs : s.data.flightStatus = s.flightStatus := rfl
  rw [hfs]
  cases AviationService.fetch env flight.FlightNumber (env.formatDate flight.DepartureDate) with
  | error e => rfl
  | ok new =>
    simp only []
    split
    · rw [HandleFlightChanges_data]
      conv_rhs => rw [HandleFlightChanges_data]
      congr 2
      simp only [FlightService.cacheFlightStatus]
      cases env.marshal new with
      | none => rfl
      | some bytes => rfl
    · rfl

/-- `HandleFlightChanges` makes no provider fetch. -/
theorem HandleFlightChanges_providerCalls (env : Env) (s : State) (userID : ObjectID)
    (flight : FlightStatus) (changes : Changes) :
    providerCalls (NotificationService.HandleFlightChanges env s userID flight changes).trace
      = providerCalls s.trace := by
  unfold NotificationService.HandleFlightChanges findOneUser
  simp only [State.log]
  cases hu : List.find? (fun u => u.ID == userID) s.users with
  | none => simp [providerCalls, List.filterMap_append]
  | some user =>
    simp only []
    by_cases htok : user.FCMToken = ""
    · simp [htok, providerCalls, List.filterMap_append]
    · simp only [htok, if_false]
      rcases changes.lookup "gate" with _ | ⟨og, ng⟩ | ⟨og, ng⟩ <;>
      rcases changes.lookup "status" with _ | ⟨os, ns⟩ | ⟨os, ns⟩ <;>
      rcases changes.lookup "delay" with _ | ⟨od, nd⟩ | ⟨od, nd⟩ <;>
      cases user.Preferences.NotifyGateChange <;>
      cases user.Preferences.NotifyBoarding <;>
      cases user.Preferences.NotifyDelay <;>
      simp [NotificationService.sendGateChangeNotification,
        NotificationService.sendStatusChangeNotification,
        NotificationService.sendDelayNotification,
        newObjectID, insertOneNotification, fcmSendNotification, State.log, providerCalls,
        List.filterMap_append]

/-- Each `checkFlightUpdates` makes exactly one provider fetch, for the
flight's number and formatted departure date. -/
theorem checkFlightUpdates_providerCalls (env : Env) (s : State) (flight : TrackedFlight) :
    providerCalls (FlightService.checkFlightUpdates env s flight).trace
      = providerCalls s.trace ++ [(flight.FlightNumber, env.formatDate flight.DepartureDate)] := by
  simp only [FlightService.checkFlightUpdates, findOneFlightStatus,
    AviationService.GetFlightStatus]
  cases AviationService.fetch env flight.FlightNumber (env.formatDate flight.DepartureDate) with
  | error e => simp [State.log, providerCalls, List.filterMap_append]
  | ok new =>
    simp only []
    split
    · rw [HandleFlightChanges_providerCalls]
      simp only [FlightService.cacheFlightStatus]
      cases env.marshal new with
      | none => simp [updateOneFlightStatus, State.log, providerCalls, List.filterMap_append]
      | some bytes =>
        simp [redisSet, updateOneFlightStatus, State.log, providerCalls, List.filterMap_append]
    · simp [State.log, providerCalls, List.filterMap_append]

/-- A `checkFlightUpdates` whose provider fetch fails only adds its store
lookup and its fetch to the trace. -/
theorem checkFlightUpdates_failure (env : Env) (s : State) (flight : TrackedFlight) (err : Error)
    (hfail : AviationService.fetch env flight.FlightNumber (env.formatDate flight.DepartureDate)
      = Except.error err) :
    FlightService.checkFlightUpdates env s flight
      = { s with trace := s.trace ++
            [Event.findFlightStatus (FlightService.flightKeyOf env flight),
             Event.providerFetch flight.FlightNumber (env.formatDate flight.DepartureDate)] } := by
  simp [FlightService.checkFlightUpdates, findOneFlightStatus, AviationService.GetFlightStatus,
    hfail, State.log, FlightService.flightKeyOf]

/-- The polling loop reads nothing from the trace. -/
theorem pollFlights_data (env : Env) (flights : List TrackedFlight) :
    ∀ s : State, (FlightService.pollFlights env s flights).data
      = (FlightService.pollFlights env s.data flights).data := by
  induction flights with
  | nil => intro s; rfl
  | cons f rest ih =>
    intro s
    unfold FlightService.pollFlights at ih ⊢
    rw [List.foldl_cons, List.foldl_cons, ih, checkFlightUpdates_data, ← ih]

/-- The polling loop fetches once per flight, in list order. -/
theorem pollFlights_providerCalls (env : Env) (flights : List TrackedFlight) :
    ∀ s : State, providerCalls (FlightService.pollFlights env s flights).trace
      = providerCalls s.trace ++
          flights.map (fun f => (f.FlightNumber, env.formatDate f.DepartureDate)) := by
  induction flights with
  | nil => intro s; simp [FlightService.pollFlights]
  | cons f rest ih =>
    intro s
    unfold FlightService.pollFlights at ih ⊢
    rw [List.foldl_cons, ih, checkFlightUpdates_providerCalls]
    simp

/-- Dropping from the polled list a flight whose fetch fails does not change
the data the loop ends with. -/
theorem pollFlights_skip (env : Env) (s : State) (pre post : List TrackedFlight)
    (flight : TrackedFlight) (err : Error)
    (hfail : AviationService.fetch env flight.FlightNumber (env.formatDate flight.DepartureDate)
      = Except.error err) :
    (FlightService.pollFlights env s (pre ++ flight :: post)).data
      = (FlightService.pollFlights env s (pre ++ post)).data := by
  unfold FlightService.pollFlights
  rw [List.foldl_append, List.foldl_append, List.foldl_cons,
    checkFlightUpdates_failure env _ flight err hfail]
  have h := pollFlights_data env post
  unfold FlightService.pollFlights at h
  rw [h]
  conv_rhs => rw [h]
  rfl

/-- C11: one tick of the polling scheduler fetches once for every active
tracked flight, in collection order, whatever the outcome of the earlier
fetches.  A flight whose fetch fails leaves the cache, the store and the
notification log as they are (its `checkFlightUpdates` only adds a store lookup
and the fetch to the trace), and the tick ends with the same cache, store and
notification log as a tick over the collection without that flight. -/
theorem pollAllActiveFlights_skips_failure (env : Env) (s : State)
    (pre post : List TrackedFlight) (flight : TrackedFlight) (err : Error)
    (htracked : s.trackedFlights = pre ++ flight :: post)
    (hactive : flight.IsActive = true)
    (hfail : AviationService.fetch env flight.FlightNumber (env.formatDate flight.DepartureDate)
      = Except.error err) :
    providerCalls (FlightService.pollAllActiveFlights env s).trace
      = providerCalls s.trace ++
          (s.trackedFlights.filter (fun f => f.IsActive)).map
            (fun f => (f.FlightNumber, env.formatDate f.DepartureDate)) ∧
    (∀ s0 : State,
      FlightService.checkFlightUpdates env s0 flight
        = { s0 with trace := s0.trace ++
              [Event.findFlightStatus (FlightService.flightKeyOf env flight),
               Event.providerFetch flight.FlightNumber (env.formatDate flight.DepartureDate)] } ∧
      (FlightService.checkFlightUpdates env s0 flight).redis = s0.redis ∧
      (FlightService.checkFlightUpdates env s0 flight).flightStatus = s0.flightStatus ∧
      (FlightService.checkFlightUpdates env s0 flight).notifications = s0.notifications) ∧
    (FlightService.pollAllActiveFlights env s).redis
      = (FlightService.pollAllActiveFlights env { s with trackedFlights := pre ++ post }).redis ∧
    (FlightService.pollAllActiveFlights env s).flightStatus
      = (FlightService.pollAllActiveFlights env
          { s with trackedFlights := pre ++ post }).flightStatus ∧
    (FlightService.pollAllActiveFlights env s).notifications
      = (FlightService.pollAllActiveFlights env
          { s with trackedFlights := pre ++ post }).notifications := by
  have hsame : (FlightService.pollAllActiveFlights env s).data
      = (FlightService.pollAllActiveFlights env { s with trackedFlights := pre ++ post }).data := by
    simp only [FlightService.pollAllActiveFlights, findActiveFlights, htracked, List.filter_append,
      List.filter_cons, hactive, if_true]
    rw [pollFlights_skip env _ _ _ flight err hfail, pollFlights_data]
    conv_rhs => rw [pollFlights_data]
    rfl
  refine ⟨?_, ?_, ?_, ?_, ?_⟩
  · simp only [FlightService.pollAllActiveFlights, findActiveFlights]
    rw [pollFlights_providerCalls]
    simp [State.log, providerCalls, List.filterMap_append]
  · intro s0
    rw [checkFlightUpdates_failure env s0 flight err hfail]
    exact ⟨rfl, rfl, rfl, rfl⟩
  · have h := congrArg State.redis hsame
    exact h
  · have h := congrArg State.flightStatus hsame
    exact h
  · have h := congrArg State.notifications hsame
    exact h

/-- Witness for C11: user 7 tracks BA456, for which the provider has no
answer, ahead of AA123, whose stored gate A1 the provider now reports as A2.
Both flights are fetched, and the tick ends as a tick over AA123 alone: one
`gate_change` record and gate A2 stored. -/
theorem pollAllActiveFlights_skips_failure_witness :
    providerCalls (FlightService.pollAllActiveFlights (sampleEnv "gate A2")
        { storeHitState with trackedFlights := [failingFlight, sampleFlight] }).trace
      = [("BA456", "2025-06-01"), ("AA123", "2025-06-01")] ∧
    (FlightService.pollAllActiveFlights (sampleEnv "gate A2")
        { storeHitState with trackedFlights := [failingFlight, sampleFlight] }).notifications
      = (FlightService.pollAllActiveFlights (sampleEnv "gate A2")
          { storeHitState with trackedFlights := [sampleFlight] }).notifications ∧
    (FlightService.pollAllActiveFlights (sampleEnv "gate A2")
        { storeHitState with trackedFlights := [failingFlight, sampleFlight] }).flightStatus
      = (FlightService.pollAllActiveFlights (sampleEnv "gate A2")
          { storeHitState with trackedFlights := [sampleFlight] }).flightStatus ∧
    (FlightService.pollAllActiveFlights (sampleEnv "gate A2")
        { storeHitState with trackedFlights := [failingFlight, sampleFlight] }).notifications.map
        (fun n => n.Typ) = ["gate_change"] := by
  have h := pollAllActiveFlights_skips_failure (sampleEnv "gate A2")
    { storeHitState with trackedFlights := [failingFlight, sampleFlight] }
    [] [sampleFlight] failingFlight Error.apiCallFailed rfl rfl (by rfl)
  exact ⟨h.1.trans (by decide), h.2.2.2.2, h.2.2.2.1, by decide⟩

/-! ## Theorems: one record per flight key -/

/-- A key that the store lookup does not find is not among the stored keys. -/
theorem storeLookup_none_not_mem (docs : List FlightStatus) (flightKey : String)
    (h : storeLookup docs flightKey = none) :
    flightKey ∉ docs.map (fun d => d.FlightKey) := by
  unfold storeLookup at h
  rw [List.find?_eq_none] at h
  intro hmem
  obtain ⟨d, hd, hk⟩ := List.mem_map.mp hmem
  exact h d hd (by simp [hk])

/-- `updateFirst` with a key-preserving update leaves the list of keys as it
is. -/
theorem updateFirst_keys (flightKey : String) (upd : FlightStatus)
    (hupd : upd.FlightKey = flightKey) (docs : List FlightStatus) :
    (updateFirst (fun d => d.FlightKey == flightKey) (fun d => bsonSet d upd) docs).map
        (fun d => d.FlightKey)
      = docs.map (fun d => d.FlightKey) := by
  induction docs with
  | nil => rfl
  | cons d rest ih =>
    by_cases hd : d.FlightKey = flightKey
    · simp [updateFirst, hd, bsonSet, hupd]
    · simp [updateFirst, hd, ih]

/-- `GetFlightStatus` keeps the stored flight keys pairwise distinct: it
inserts only after the store lookup for the key has failed. -/
theorem GetFlightStatus_keys_nodup (env : Env) (s : State) (flightNumber date : String)
    (h : (s.flightStatus.map (fun d => d.FlightKey)).Nodup) :
    ((FlightService.GetFlightStatus env s flightNumber date).2.flightStatus.map
      (fun d => d.FlightKey)).Nodup := by
  have hs := getFlightStatusFromCache_state env s (flightNumber ++ "_" ++ date)
  cases hc : (FlightService.getFlightStatusFromCache env s (flightNumber ++ "_" ++ date)).1 with
  | some cached =>
    have hpair : FlightService.getFlightStatusFromCache env s (flightNumber ++ "_" ++ date)
        = (some cached, s.log (Event.redisGet ("flight:" ++ (flightNumber ++ "_" ++ date)))) :=
      Prod.ext hc hs
    simp only [FlightService.GetFlightStatus, hpair]
    exact h
  | none =>
    have hpair : FlightService.getFlightStatusFromCache env s (flightNumber ++ "_" ++ date)
        = (none, s.log (Event.redisGet ("flight:" ++ (flightNumber ++ "_" ++ date)))) :=
      Prod.ext hc hs
    simp only [FlightService.GetFlightStatus, hpair, findOneFlightStatus]
    cases hst : storeLookup
        (s.log (Event.redisGet ("flight:" ++ (flightNumber ++ "_" ++ date)))).flightStatus
        (flightNumber ++ "_" ++ date) with
    | some stored =>
      simp only []
      rw [(cacheFlightStatus_frame env _ stored).1]
      exact h
    | none =>
      simp only [AviationService.GetFlightStatus]
      cases hf : AviationService.fetch env flightNumber date with
      | error e => exact h
      | ok snapshot =>
        simp only [insertOneFlightStatus, State.log]
        rw [(cacheFlightStatus_frame env _ snapshot).1]
        have hkey := (fetch_flightKey env flightNumber date snapshot hf).1
        have hnot := storeLookup_none_not_mem _ _ hst
        show ((s.flightStatus ++ [snapshot]).map (fun d => d.FlightKey)).Nodup
        rw [List.map_append, List.nodup_append]
        refine ⟨h, by simp, ?_⟩
        intro k hk hk'
        simp only [List.map_cons, List.map_nil, List.mem_singleton] at hk'
        rw [hk', hkey] at hk
        exact hnot hk

/-- `checkFlightUpdates` leaves the list of stored flight keys as it is. -/
theorem checkFlightUpdates_keys (env : Env) (s : State) (flight : TrackedFlight) :
    (FlightService.checkFlightUpdates env s flight).flightStatus.map (fun d => d.FlightKey)
      = s.flightStatus.map (fun d => d.FlightKey) := by
  cases hf : AviationService.fetch env flight.FlightNumber
      (env.formatDate flight.DepartureDate) with
  | error e => rw [checkFlightUpdates_failure env s flight e hf]
  | ok new =>
    by_cases hchg : (detectChanges
        ((storeLookup s.flightStatus (FlightService.flightKeyOf env flight)).getD {})
        new).length > 0
    · rw [checkFlightUpdates_changed env s flight new hf hchg,
        (HandleFlightChanges_frame env _ flight.UserID new _).2.1,
        (cacheFlightStatus_frame env _ new).1]
      exact updateFirst_keys _ new (fetch_flightKey env _ _ new hf).1 s.flightStatus
    · unfold FlightService.flightKeyOf at hchg
      simp only [FlightService.checkFlightUpdates, findOneFlightStatus,
        AviationService.GetFlightStatus, hf]
      rw [if_neg hchg]
      rfl

/-- C19 fails on `TrackFlight`: starting from an empty store, two users
tracking AA123 on 2025-06-01 leave two flight-status records with the same
flight key, because `TrackFlight` inserts without looking the key up. -/
theorem TrackFlight_twice_duplicates_key :
    coldState.flightStatus = [] ∧
    (∃ tracked, (FlightService.TrackFlight (sampleEnv "gate A1") coldState 7 sampleRequest).1
      = Except.ok tracked) ∧
    (∃ tracked, (FlightService.TrackFlight (sampleEnv "gate A1")
        (FlightService.TrackFlight (sampleEnv "gate A1") coldState 7 sampleRequest).2
        8 sampleRequest).1 = Except.ok tracked) ∧
    (FlightService.TrackFlight (sampleEnv "gate A1")
        (FlightService.TrackFlight (sampleEnv "gate A1") coldState 7 sampleRequest).2
        8 sampleRequest).2.flightStatus.map (fun d => d.FlightKey)
      = ["AA123_2025-06-01", "AA123_2025-06-01"] ∧
    ¬ ((FlightService.TrackFlight (sampleEnv "gate A1")
        (FlightService.TrackFlight (sampleEnv "gate A1") coldState 7 sampleRequest).2
        8 sampleRequest).2.flightStatus.map (fun d => d.FlightKey)).Nodup := by
  refine ⟨rfl, ⟨_, rfl⟩, ⟨_, rfl⟩, by decide, by decide⟩

/-! ## Theorems: the two urgency classifications -/

/-- The walk-time additions of `walkUrgency` do not wrap when the walk time is
non-negative and no larger than a minutes count at least 20 below the largest
Go `int`. -/
theorem wrapInt64_walk (w r : Int) (hw : 0 ≤ w) (hr : r ≤ 9223372036854775787) (hle : w ≤ r) :
    LocationService.wrapInt64 (w + 10) = w + 10 ∧ LocationService.wrapInt64 (w + 20) = w + 20 := by
  unfold LocationService.wrapInt64
  constructor <;> omega

/-- C21 (amended): the gate-walk tier is a classification of the slack
`r - w` with thresholds 0, 10 and 20 (critical below 0, urgent below 10,
moderate below 20, calm from 20 on), not the flight-boarding classification,
whose thresholds are 10, 20 and 40; the two tiers coincide exactly when the
slack is negative or above 40. -/
theorem walkUrgency_vs_urgencyLevel (w r : Int) (hw : 0 ≤ w) (hr : r ≤ 9223372036854775787) :
    ((LocationService.walkUrgency w r).1 = "critical" ↔ r - w < 0) ∧
    ((LocationService.walkUrgency w r).1 = "urgent" ↔ 0 ≤ r - w ∧ r - w < 10) ∧
    ((LocationService.walkUrgency w r).1 = "moderate" ↔ 10 ≤ r - w ∧ r - w < 20) ∧
    ((LocationService.walkUrgency w r).1 = "calm" ↔ 20 ≤ r - w) ∧
    ((LocationService.walkUrgency w r).1 = FlightService.urgencyLevel (r - w) ↔
      (r - w < 0 ∨ 40 < r - w)) := by
  unfold LocationService.walkUrgency FlightService.urgencyLevel
  by_cases h1 : w > r
  · simp only [h1, if_true]
    have a1 : r - w < 0 := by omega
    have a2 : r - w ≤ 10 := by omega
    simp [a1, a2]
    omega
  · have hle : w ≤ r := by omega
    obtain ⟨e10, e20⟩ := wrapInt64_walk w r hw hr hle
    rw [e10, e20]
    simp only [h1, if_false]
    by_cases h2 : w + 10 > r
    · simp only [h2, if_true]
      have a2 : r - w ≤ 10 := by omega
      simp [a2]
      omega
    · simp only [h2, if_false]
      by_cases h3 : w + 20 > r
      · simp only [h3, if_true]
        by_cases a2 : r - w ≤ 10
        · simp [a2]; omega
        · have a3 : r - w ≤ 20 := by omega
          simp [a2, a3]; omega
      · simp only [h3, if_false]
        have a2 : ¬ r - w ≤ 10 := by omega
        by_cases a3 : r - w ≤ 20
        · simp [a2, a3]; omega
        · by_cases a4 : r - w ≤ 40
          · simp [a2, a3, a4]; omega
          · simp [a2, a3, a4]; omega

/-- Witness for C21 (amended): a 5-minute walk with 50 minutes until boarding
has slack 45, where both classifications say `calm`. -/
theorem walkUrgency_vs_urgencyLevel_witness :
    (LocationService.walkUrgency 5 50).1 = FlightService.urgencyLevel (50 - 5) :=
  (walkUrgency_vs_urgencyLevel 5 50 (by decide) (by decide)).2.2.2.2.2 (Or.inr (by decide))

/-- C21 as stated fails: with no walk at all and 5 minutes until boarding the
gate-walk tier is `urgent`, while the flight-boarding classifier gives
`critical` for the slack of 5 minutes. -/
theorem walkUrgency_differs_from_urgencyLevel :
    (LocationService.walkUrgency 0 5).1 = "urgent" ∧
    FlightService.urgencyLevel (5 - 0) = "critical" ∧
    (LocationService.walkUrgency 0 5).1 ≠ FlightService.urgencyLevel (5 - 0) := by
  decide

/-! ## Theorems: tracking and untracking -/

/-- C24: when the provider fetch fails, `TrackFlight` returns an error wrapping
the provider's, and the only thing it has done is the fetch: the final state
is the initial one with that fetch added to the trace, so no tracked flight,
no flight status and no cache entry is added. -/
theorem TrackFlight_provider_failure (env : Env) (s : State) (userID : ObjectID)
    (req : TrackFlightRequest) (err : Error)
    (hfail : AviationService.fetch env req.FlightNumber req.DepartureDate = Except.error err) :
    (FlightService.TrackFlight env s userID req).1
      = Except.error (Error.flightNotFoundOrInvalid err) ∧
    (FlightService.TrackFlight env s userID req).2
      = { s with trace := s.trace ++
            [Event.providerFetch req.FlightNumber req.DepartureDate] } ∧
    (FlightService.TrackFlight env s userID req).2.trackedFlights = s.trackedFlights ∧
    (FlightService.TrackFlight env s userID req).2.flightStatus = s.flightStatus ∧
    (FlightService.TrackFlight env s userID req).2.redis = s.redis := by
  simp only [FlightService.TrackFlight, AviationService.GetFlightStatus, hfail]
  exact ⟨trivial, rfl, rfl, rfl, rfl⟩

/-- Witness for C24: tracking AA123 while the provider answers with an empty
flight list. -/
theorem TrackFlight_provider_failure_witness :
    (FlightService.TrackFlight (sampleEnv "no data") coldState 7 sampleRequest).1
      = Except.error (Error.flightNotFoundOrInvalid Error.flightNotFound) ∧
    (FlightService.TrackFlight (sampleEnv "no data") coldState 7 sampleRequest).2
      = { coldState with trace := coldState.trace ++
            [Event.providerFetch sampleRequest.FlightNumber sampleRequest.DepartureDate] } ∧
    (FlightService.TrackFlight (sampleEnv "no data") coldState 7 sampleRequest).2.trackedFlights
      = coldState.trackedFlights ∧
    (FlightService.TrackFlight (sampleEnv "no data") coldState 7 sampleRequest).2.flightStatus
      = coldState.flightStatus ∧
    (FlightService.TrackFlight (sampleEnv "no data") coldState 7 sampleRequest).2.redis
      = coldState.redis :=
  TrackFlight_provider_failure (sampleEnv "no data") coldState 7 sampleRequest
    Error.flightNotFound (by rfl)

/-- After `updateFirst` with an update that does not change who matches, the
first match is the image of the old first match. -/
theorem find_updateFirst_same {α : Type} (p : α → Bool) (f : α → α) (xs : List α)
    (hf : ∀ x, p (f x) = p x) :
    (updateFirst p f xs).find? p = (xs.find? p).map f := by
  induction xs with
  | nil => rfl
  | cons x xs ih =>
    by_cases hx : p x
    · simp [updateFirst, List.find?, hx, hf]
    · simp [updateFirst, List.find?, hx, ih]

/-- `updateFirst` keeps the length. -/
theorem updateFirst_length {α : Type} (p : α → Bool) (f : α → α) (xs : List α) :
    (updateFirst p f xs).length = xs.length := by
  induction xs with
  | nil => rfl
  | cons x xs ih =>
    by_cases hx : p x
    · simp [updateFirst, hx]
    · simp [updateFirst, hx, ih]

/-- `updateFirst` commutes with a projection that the update does not
affect. -/
theorem updateFirst_map {α β : Type} (p : α → Bool) (f : α → α) (g : α → β) (xs : List α)
    (hg : ∀ x, g (f x) = g x) :
    (updateFirst p f xs).map g = xs.map g := by
  induction xs with
  | nil => rfl
  | cons x xs ih =>
    by_cases hx : p x
    · simp [updateFirst, hx, hg]
    · simp [updateFirst, hx, ih]

/-- C25: `DeleteTrackedFlight` never removes a record.  The collection keeps
its length and every record keeps every field other than the active flag and
the update stamp.  When a record matches the id and the owner, the call
succeeds and the record found afterwards under that id and owner is the old
one with the active flag false and the update stamp set to now.  When none
matches both, the call returns an error and the tracked flights are as before.
The other collections and the cache are never touched. -/
theorem DeleteTrackedFlight_soft (env : Env) (s : State) (flightID userID : ObjectID) :
    (FlightService.DeleteTrackedFlight env s flightID userID).2.trackedFlights.length
      = s.trackedFlights.length ∧
    (FlightService.DeleteTrackedFlight env s flightID userID).2.trackedFlights.map
        (fun f => { f with IsActive := false, UpdatedAt := 0 })
      = s.trackedFlights.map (fun f => { f with IsActive := false, UpdatedAt := 0 }) ∧
    (∀ flight,
      s.trackedFlights.find? (fun f => f.ID == flightID && f.UserID == userID) = some flight →
      (FlightService.DeleteTrackedFlight env s flightID userID).1 = Except.ok () ∧
      (FlightService.DeleteTrackedFlight env s flightID userID).2.trackedFlights.find?
          (fun f => f.ID == flightID && f.UserID == userID)
        = some { flight with IsActive := false, UpdatedAt := env.now }) ∧
    (s.trackedFlights.find? (fun f => f.ID == flightID && f.UserID == userID) = none →
      (FlightService.DeleteTrackedFlight env s flightID userID).1
        = Except.error Error.flightNotFoundOrUnauthorized ∧
      (FlightService.DeleteTrackedFlight env s flightID userID).2.trackedFlights
        = s.trackedFlights) ∧
    (FlightService.DeleteTrackedFlight env s flightID userID).2.flightStatus = s.flightStatus ∧
    (FlightService.DeleteTrackedFlight env s flightID userID).2.redis = s.redis ∧
    (FlightService.DeleteTrackedFlight env s flightID userID).2.notifications
      = s.notifications := by
  have hstate : (FlightService.DeleteTrackedFlight env s flightID userID).2
      = { s with
          trace := s.trace ++ [Event.updateTrackedFlight flightID userID],
          trackedFlights := updateFirst (fun f => f.ID == flightID && f.UserID == userID)
            (fun f => { f with IsActive := false, UpdatedAt := env.now }) s.trackedFlights } := by
    simp only [FlightService.DeleteTrackedFlight, FlightService.deactivateTrackedFlight,
      State.log]
    split <;> rfl
  have hres : (FlightService.DeleteTrackedFlight env s flightID userID).1
      = if s.trackedFlights.any (fun f => f.ID == flightID && f.UserID == userID) then
          Except.ok () else Except.error Error.flightNotFoundOrUnauthorized := by
    simp only [FlightService.DeleteTrackedFlight, FlightService.deactivateTrackedFlight,
      State.log]
    by_cases hany : s.trackedFlights.any (fun f => f.ID == flightID && f.UserID == userID)
    · simp [hany]
    · simp [hany]
  rw [hstate, hres]
  refine ⟨updateFirst_length _ _ _, updateFirst_map _ _ _ _ (fun x => rfl), ?_, ?_, rfl, rfl, rfl⟩
  · intro flight hfind
    have hany : s.trackedFlights.any (fun f => f.ID == flightID && f.UserID == userID) = true := by
      rw [List.any_eq_true]
      have hp := List.find?_some hfind
      exact ⟨flight, List.mem_of_find?_eq_some hfind, hp⟩
    refine ⟨by rw [if_pos hany], ?_⟩
    have hstep := find_updateFirst_same
      (fun (f : TrackedFlight) => f.ID == flightID && f.UserID == userID)
      (fun (f : TrackedFlight) => { f with IsActive := false, UpdatedAt := env.now })
      s.trackedFlights (fun x => rfl)
    rw [hfind] at hstep
    exact hstep
  · intro hnone
    have hany : ¬ s.trackedFlights.any (fun f => f.ID == flightID && f.UserID == userID) = true := by
      rw [List.any_eq_true]
      rintro ⟨x, hx, hp⟩
      rw [List.find?_eq_none] at hnone
      exact hnone x hx hp
    refine ⟨by rw [if_neg hany], ?_⟩
    exact updateFirst_none _ _ _ hnone

/-- Witness for C25: the owner, user 7, untracks flight 1 and the record stays
with the active flag false; user 8 asks the same and gets an error, the
tracked flights being left as they were. -/
theorem DeleteTrackedFlight_soft_witness :
    ((FlightService.DeleteTrackedFlight (sampleEnv "gate A1") storeHitState 1 7).1
        = Except.ok () ∧
      (FlightService.DeleteTrackedFlight (sampleEnv "gate A1") storeHitState 1 7).2.trackedFlights.find?
          (fun f => f.ID == 1 && f.UserID == 7)
        = some { sampleFlight with IsActive := false, UpdatedAt := (sampleEnv "gate A1").now }) ∧
    ((FlightService.DeleteTrackedFlight (sampleEnv "gate A1") storeHitState 1 8).1
        = Except.error Error.flightNotFoundOrUnauthorized ∧
      (FlightService.DeleteTrackedFlight (sampleEnv "gate A1") storeHitState 1 8).2.trackedFlights
        = storeHitState.trackedFlights) :=
  ⟨(DeleteTrackedFlight_soft (sampleEnv "gate A1") storeHitState 1 7).2.2.1 sampleFlight
      (by decide),
   (DeleteTrackedFlight_soft (sampleEnv "gate A1") storeHitState 1 8).2.2.2.1 (by decide)⟩

/-- `FlightService.TrackFlight` on its own checks the date only after the
provider has answered: with a fetch that succeeds and a date that does not
parse, the provider call has been made when the error is returned. -/
theorem TrackFlight_service_date_after_fetch (env : Env) (s : State) (userID : ObjectID)
    (req : TrackFlightRequest) (st : FlightStatus)
    (hfetch : AviationService.fetch env req.FlightNumber req.DepartureDate = Except.ok st)
    (hdate : env.parseDate req.DepartureDate = none) :
    (FlightService.TrackFlight env s userID req).1 = Except.error Error.invalidDateFormat ∧
    (FlightService.TrackFlight env s userID req).2.trace
      = s.trace ++ [Event.providerFetch req.FlightNumber req.DepartureDate] := by
  simp only [FlightService.TrackFlight, AviationService.GetFlightStatus, hfetch, hdate]
  exact ⟨trivial, rfl⟩

/-- C26: a tracking request that fails one of the three validators (flight
number, either airport code, departure date) is answered by the handler with
401 or with 400 and a fixed message, and the state after the call is the state
before it, trace included: no provider call, no cache access and no store
access has been made. -/
theorem TrackFlight_handler_rejects_malformed (env : Env) (s : State) (userID : String)
    (req : TrackFlightRequest)
    (hbad : utils.IsValidFlightNumber req.FlightNumber = false ∨
      utils.IsValidAirportCode req.DepartureAirport = false ∨
      utils.IsValidAirportCode req.ArrivalAirport = false ∨
      utils.IsValidDate env req.DepartureDate = false) :
    (FlightHandler.TrackFlight env s userID (some req)).2 = s ∧
    ((FlightHandler.TrackFlight env s userID (some req)).1 = TrackReply.unauthorized ∨
      (FlightHandler.TrackFlight env s userID (some req)).1
        = TrackReply.badRequest "Invalid flight number format" ∨
      (FlightHandler.TrackFlight env s userID (some req)).1
        = TrackReply.badRequest "Invalid airport code" ∨
      (FlightHandler.TrackFlight env s userID (some req)).1
        = TrackReply.badRequest "Invalid date format. Use YYYY-MM-DD") := by
  unfold FlightHandler.TrackFlight
  by_cases hu : userID = ""
  · simp [hu]
  · by_cases h1 : utils.IsValidFlightNumber req.FlightNumber = true
    · by_cases h2 : utils.IsValidAirportCode req.DepartureAirport = true
      · by_cases h3 : utils.IsValidAirportCode req.ArrivalAirport = true
        · by_cases h4 : utils.IsValidDate env req.DepartureDate = true
          · simp [h1, h2, h3, h4] at hbad
          · simp [hu, h1, h2, h3, h4]
        · simp [hu, h1, h2, h3]
      · simp [hu, h1, h2]
    · simp [hu, h1]

/-- Witness for C26: the flight number `aa123` is in lower case. -/
theorem TrackFlight_handler_rejects_malformed_witness :
    (FlightHandler.TrackFlight (sampleEnv "gate A1") coldState "000000000000000000000007"
        (some malformedRequest)).2 = coldState ∧
    ((FlightHandler.TrackFlight (sampleEnv "gate A1") coldState "000000000000000000000007"
        (some malformedRequest)).1 = TrackReply.unauthorized ∨
      (FlightHandler.TrackFlight (sampleEnv "gate A1") coldState "000000000000000000000007"
        (some malformedRequest)).1 = TrackReply.badRequest "Invalid flight number format" ∨
      (FlightHandler.TrackFlight (sampleEnv "gate A1") coldState "000000000000000000000007"
        (some malformedRequest)).1 = TrackReply.badRequest "Invalid airport code" ∨
      (FlightHandler.TrackFlight (sampleEnv "gate A1") coldState "000000000000000000000007"
        (some malformedRequest)).1
          = TrackReply.badRequest "Invalid date format. Use YYYY-MM-DD") :=
  TrackFlight_handler_rejects_malformed (sampleEnv "gate A1") coldState
    "000000000000000000000007" malformedRequest (Or.inl (by decide))

/-! ## Theorems: polling with several trackers, and repeated polling -/

/-- C27 fails on this input.  Users 7 and 10 both have a push token and
gate-change notifications on, both actively track AA123 on 2025-06-01 (the
same flight key), gate A1 is stored and the provider reports gate A2.  One
polling cycle fetches twice and records a single `gate_change` notification,
for user 7: the check for user 7 writes gate A2 to the shared document, so the
check for user 10 compares A2 with A2 and dispatches nothing. -/
theorem pollAllActiveFlights_second_tracker_silent :
    (sampleUser.FCMToken ≠ "" ∧ secondUser.FCMToken ≠ "" ∧
      sampleUser.Preferences.NotifyGateChange = true ∧
      secondUser.Preferences.NotifyGateChange = true) ∧
    (findActiveFlights twoTrackerState).1 = [sampleFlight, secondFlight] ∧
    FlightService.flightKeyOf (sampleEnv "gate A2") sampleFlight
      = FlightService.flightKeyOf (sampleEnv "gate A2") secondFlight ∧
    (storeLookup twoTrackerState.flightStatus
        (FlightService.flightKeyOf (sampleEnv "gate A2") sampleFlight)).map (fun r => r.Gate)
      = some "A1" ∧
    AviationService.fetch (sampleEnv "gate A2") "AA123" "2025-06-01"
      = Except.ok (sampleStatus "A2" "4" "scheduled") ∧
    providerCalls (FlightService.pollAllActiveFlights (sampleEnv "gate A2") twoTrackerState).trace
      = [("AA123", "2025-06-01"), ("AA123", "2025-06-01")] ∧
    (FlightService.pollAllActiveFlights (sampleEnv "gate A2")
        twoTrackerState).notifications.map (fun n => (n.UserID, n.Typ))
      = [(7, "gate_change")] ∧
    dispatchCalls (FlightService.pollAllActiveFlights (sampleEnv "gate A2") twoTrackerState).trace
      = [(7, "AA123_2025-06-01")] := by
  refine ⟨by decide, by decide, by decide, by decide, by rfl, by decide, by decide, by decide⟩

/-- C28 fails on this input.  Gate A1 is stored for AA123 and the provider
answers, twice, with the same status and delay and an empty gate.  The first
`checkFlightUpdates` detects the gate change and records a notification, but
the update leaves the empty gate out, so the stored gate is still A1 and
differs from the provider's; the second `checkFlightUpdates` with the same
provider snapshot detects the same change and records a second
notification. -/
theorem checkFlightUpdates_no_fixed_point :
    AviationService.fetch (sampleEnv "gate dropped") sampleFlight.FlightNumber
        ((sampleEnv "gate dropped").formatDate sampleFlight.DepartureDate)
      = Except.ok (sampleStatus "" "4" "scheduled") ∧
    storeLookup storeHitState.flightStatus "AA123_2025-06-01"
      = some (sampleStatus "A1" "4" "scheduled") ∧
    (detectChanges (sampleStatus "A1" "4" "scheduled") (sampleStatus "" "4" "scheduled")).length
      > 0 ∧
    (storeLookup (FlightService.checkFlightUpdates (sampleEnv "gate dropped") storeHitState
        sampleFlight).flightStatus "AA123_2025-06-01").map (fun r => r.Gate) = some "A1" ∧
    (sampleStatus "" "4" "scheduled").Gate = "" ∧
    (FlightService.checkFlightUpdates (sampleEnv "gate dropped") storeHitState
        sampleFlight).notifications.map (fun n => (n.Typ, n.Body))
      = [("gate_change", "AA123 moved from Gate A1 to Gate ")] ∧
    (FlightService.checkFlightUpdates (sampleEnv "gate dropped")
        (FlightService.checkFlightUpdates (sampleEnv "gate dropped") storeHitState sampleFlight)
        sampleFlight).notifications.map (fun n => (n.Typ, n.Body))
      = [("gate_change", "AA123 moved from Gate A1 to Gate "),
         ("gate_change", "AA123 moved from Gate A1 to Gate ")] := by
  refine ⟨by rfl, by decide, by decide, by decide, by decide, by decide, by decide⟩

/-- What `checkFlightUpdates` does once the provider has answered and the
change map is empty: the two reads, and nothing else. -/
theorem checkFlightUpdates_unchanged (env : Env) (s : State) (flight : TrackedFlight)
    (new : FlightStatus)
    (hfetch : AviationService.fetch env flight.FlightNumber (env.formatDate flight.DepartureDate)
      = Except.ok new)
    (hsame : detectChanges
      ((storeLookup s.flightStatus (FlightService.flightKeyOf env flight)).getD {}) new = []) :
    FlightService.checkFlightUpdates env s flight
      = (s.log (Event.findFlightStatus (FlightService.flightKeyOf env flight))).log
          (Event.providerFetch flight.FlightNumber (env.formatDate flight.DepartureDate)) := by
  unfold FlightService.flightKeyOf at hsame ⊢
  simp only [FlightService.checkFlightUpdates, findOneFlightStatus,
    AviationService.GetFlightStatus, hfetch, hsame]
  rfl

/-- Where polling does reach a fixed point: when a document is stored for the
key and the update writes the gate (the provider's gate is non-empty, or the
stored gate is empty as well), then after a `checkFlightUpdates` that detected
a change the stored document agrees with the provider snapshot on gate, status
and delay, and a second `checkFlightUpdates` with the same provider snapshot
records no notification. -/
theorem checkFlightUpdates_fixed_point_gate_written (env : Env) (s : State)
    (flight : TrackedFlight) (old new : FlightStatus)
    (hold : storeLookup s.flightStatus (FlightService.flightKeyOf env flight) = some old)
    (hfetch : AviationService.fetch env flight.FlightNumber (env.formatDate flight.DepartureDate)
      = Except.ok new)
    (hchg : (detectChanges old new).length > 0)
    (hgate : new.Gate ≠ "" ∨ old.Gate = "") :
    (∃ r, storeLookup (FlightService.checkFlightUpdates env s flight).flightStatus
        (FlightService.flightKeyOf env flight) = some r ∧
      r.Gate = new.Gate ∧ r.Status = new.Status ∧ r.DelayMinutes = new.DelayMinutes ∧
      detectChanges r new = []) ∧
    (FlightService.checkFlightUpdates env
        (FlightService.checkFlightUpdates env s flight) flight).notifications
      = (FlightService.checkFlightUpdates env s flight).notifications := by
  have hkey : new.FlightKey = FlightService.flightKeyOf env flight :=
    (fetch_flightKey env _ _ new hfetch).1
  have hchg' : (detectChanges
      ((storeLookup s.flightStatus (FlightService.flightKeyOf env flight)).getD {}) new).length
      > 0 := by
    rw [hold]
    exact hchg
  have hstore : storeLookup (FlightService.checkFlightUpdates env s flight).flightStatus
      (FlightService.flightKeyOf env flight) = some (bsonSet old new) := by
    rw [checkFlightUpdates_changed env s flight new hfetch hchg']
    rw [(HandleFlightChanges_frame env _ flight.UserID new _).2.1]
    rw [(cacheFlightStatus_frame env _ new).1]
    have hfind := find_updateFirst
      (fun d : FlightStatus => d.FlightKey == FlightService.flightKeyOf env flight)
      (fun d => bsonSet d new) s.flightStatus (by intro x; simp [bsonSet, hkey])
    show storeLookup (updateFirst _ _ s.flightStatus) _ = _
    unfold storeLookup at hold ⊢
    rw [hfind, hold]
    rfl
  have hg : (bsonSet old new).Gate = new.Gate := by
    rcases hgate with h | h
    · simp [bsonSet, h]
    · by_cases hn : new.Gate = ""
      · simp [bsonSet, hn, h]
      · simp [bsonSet, hn]
  have hsame : detectChanges (bsonSet old new) new = [] := by
    rw [detectChanges_eq, hg]
    simp [bsonSet]
  refine ⟨⟨bsonSet old new, hstore, hg, rfl, rfl, hsame⟩, ?_⟩
  rw [checkFlightUpdates_unchanged env (FlightService.checkFlightUpdates env s flight) flight new
    hfetch (by rw [hstore]; exact hsame)]
  rfl

/-! ## Theorems: walk time without a stored flight status -/

/-- From one minute after the zero time on, the whole minutes from `now` to the
zero time are negative. -/
theorem wholeMinutes_zero_time_neg (now : Int) (hnow : 60000000000 ≤ now) :
    wholeMinutes (timeSub 0 now) < 0 := by
  have h1 : ¬ ((9223372036854775807 : Int) < 0 - now) := by omega
  have hd : ∃ d : Int, timeSub 0 now = d ∧ d ≤ -60000000000 := by
    by_cases h2 : 0 - now < (-9223372036854775808 : Int)
    · refine ⟨-9223372036854775808, ?_, by norm_num⟩
      unfold timeSub maxDuration minDuration
      rw [if_neg h1, if_pos h2]
    · refine ⟨0 - now, ?_, by omega⟩
      unfold timeSub maxDuration minDuration
      rw [if_neg h1, if_neg h2]
  obtain ⟨d, hd, hle⟩ := hd
  rw [hd, wholeMinutes_eq]
  split
  · omega
  · have : 1 ≤ (-d) / 60000000000 := by omega
    omega

/-- The walk tier is `critical`, and the action the one to head to the gate at
once, exactly when the walk time exceeds the minutes until boarding. -/
theorem walkUrgency_critical_iff (w r : Int) :
    ((LocationService.walkUrgency w r).1 = "critical" ↔ r < w) ∧
    ((LocationService.walkUrgency w r).2 = "Head to gate immediately!" ↔ r < w) := by
  unfold LocationService.walkUrgency
  by_cases h1 : w > r
  · simp [h1]
  · rw [if_neg h1]
    have hn : ¬ r < w := h1
    split
    · exact ⟨⟨fun h => absurd h (by decide), fun h => absurd h hn⟩,
        ⟨fun h => absurd h (by decide), fun h => absurd h hn⟩⟩
    · split
      · exact ⟨⟨fun h => absurd h (by decide), fun h => absurd h hn⟩,
          ⟨fun h => absurd h (by decide), fun h => absurd h hn⟩⟩
      · exact ⟨⟨fun h => absurd h (by decide), fun h => absurd h hn⟩,
          ⟨fun h => absurd h (by decide), fun h => absurd h hn⟩⟩

/-- C30 (amended): when the user's location is cached and decodes, the tracked
flight and its departure airport are found, and no flight status is stored
under the flight key, `GetWalkTime` returns a response and no error.  The
minutes until boarding are computed from the zero boarding time and are
negative (the clock being at least a minute past the zero time).  The tier is
`critical`, with the action `Head to gate immediately!`, exactly when the walk
time exceeds that negative count: so for every walk time that is not negative,
and not for every walk time. -/
theorem GetWalkTime_no_status_critical (env : Env) (s : State) (flightID : String)
    (userID : ObjectID) (data : String) (userLoc : UserLocation) (flight : TrackedFlight)
    (airport : Airport)
    (hloc : cacheLookup env.now s.redis ("user:location:" ++ env.hexOf userID) = some data)
    (hdec : env.unmarshalLocation data = some userLoc)
    (hflight : s.trackedFlights.find? (fun f => f.ID == (env.objectIDFromHex flightID).getD 0)
      = some flight)
    (hairport : s.airports.find? (fun a => a.Code == flight.DepartureAirport) = some airport)
    (hnone : storeLookup s.flightStatus
      (flight.FlightNumber ++ "_" ++ env.formatDate flight.DepartureDate) = none)
    (hnow : 60000000000 ≤ env.now) :
    wholeMinutes (timeSub ({} : FlightStatus).BoardingTime env.now) < 0 ∧
    ∃ resp, (LocationService.GetWalkTime env s flightID userID).1 = Except.ok resp ∧
      resp.WalkTimeMinutes = LocationService.walkMinutes env.float
        (LocationService.calculateDistance env.float userLoc.Latitude userLoc.Longitude
          airport.Latitude airport.Longitude) ∧
      (resp.UrgencyLevel = "critical" ↔
        wholeMinutes (timeSub ({} : FlightStatus).BoardingTime env.now) < resp.WalkTimeMinutes) ∧
      (resp.RecommendedAction = "Head to gate immediately!" ↔
        wholeMinutes (timeSub ({} : FlightStatus).BoardingTime env.now) < resp.WalkTimeMinutes) ∧
      (0 ≤ resp.WalkTimeMinutes →
        resp.UrgencyLevel = "critical" ∧
        resp.RecommendedAction = "Head to gate immediately!") := by
  have hneg := wholeMinutes_zero_time_neg env.now hnow
  refine ⟨hneg, ?_⟩
  obtain ⟨hlevel, haction⟩ := walkUrgency_critical_iff
    (LocationService.walkMinutes env.float
      (LocationService.calculateDistance env.float userLoc.Latitude userLoc.Longitude
        airport.Latitude airport.Longitude))
    (wholeMinutes (timeSub 0 env.now))
  simp only [LocationService.GetWalkTime, redisGet, hloc, hdec, findOneTrackedFlight, State.log,
    hflight, findOneAirport, hairport, findOneFlightStatus, hnone]
  refine ⟨_, rfl, rfl, hlevel, haction, ?_⟩
  intro hwalk
  have hlt : wholeMinutes (timeSub 0 env.now) < LocationService.walkMinutes env.float
      (LocationService.calculateDistance env.float userLoc.Latitude userLoc.Longitude
        airport.Latitude airport.Longitude) := lt_of_lt_of_le hneg hwalk
  exact ⟨hlevel.2 hlt, haction.2 hlt⟩

/-- Witness for C30 (amended): user 7 at 09:00, tracking AA123 out of JFK, with
no flight status stored. -/
theorem GetWalkTime_no_status_critical_witness :
    wholeMinutes (timeSub ({} : FlightStatus).BoardingTime (sampleEnv "gate A1").now) < 0 ∧
    ∃ resp, (LocationService.GetWalkTime (sampleEnv "gate A1") walkState
        "000000000000000000000001" 7).1 = Except.ok resp ∧
      resp.WalkTimeMinutes = LocationService.walkMinutes (sampleEnv "gate A1").float
        (LocationService.calculateDistance (sampleEnv "gate A1").float 40 73
          sampleAirport.Latitude sampleAirport.Longitude) ∧
      (resp.UrgencyLevel = "critical" ↔
        wholeMinutes (timeSub ({} : FlightStatus).BoardingTime (sampleEnv "gate A1").now)
          < resp.WalkTimeMinutes) ∧
      (resp.RecommendedAction = "Head to gate immediately!" ↔
        wholeMinutes (timeSub ({} : FlightStatus).BoardingTime (sampleEnv "gate A1").now)
          < resp.WalkTimeMinutes) ∧
      (0 ≤ resp.WalkTimeMinutes →
        resp.UrgencyLevel = "critical" ∧
        resp.RecommendedAction = "Head to gate immediately!") :=
  GetWalkTime_no_status_critical (sampleEnv "gate A1") walkState "000000000000000000000001" 7
    "location of 7"
    { UserID := "000000000000000000000007", Latitude := 40, Longitude := 73,
      Timestamp := 63884365140000000000 }
    sampleFlight sampleAirport (by decide) (by rfl) (by decide) (by decide) (by decide)
    (by decide)

/-- C30 as stated fails for a walk time below the minutes count.  User 7 has a
cached location, tracks AA123 out of JFK, no flight status is stored, and the
airport document has a NaN latitude.  The distance is then a NaN, its
conversion to `int` is the most negative `int` (amd64), which does not exceed
the minutes until boarding, -153722867, nor does it with 10 or 20 added: the
response is not an error and has tier `calm` with the action
`You have plenty of time`. -/
theorem GetWalkTime_nan_distance_calm :
    cacheLookup nanEnv.now nanWalkState.redis ("user:location:" ++ nanEnv.hexOf 7)
      = some "location of 7" ∧
    nanWalkState.trackedFlights.find?
        (fun f => f.ID == (nanEnv.objectIDFromHex "000000000000000000000001").getD 0)
      = some sampleFlight ∧
    (nanWalkState.airports.find? (fun a => a.Code == sampleFlight.DepartureAirport)).map
        (fun a => a.Latitude) = some quietNaN ∧
    storeLookup nanWalkState.flightStatus "AA123_2025-06-01" = none ∧
    wholeMinutes (timeSub ({} : FlightStatus).BoardingTime nanEnv.now) = -153722867 ∧
    ∃ resp, (LocationService.GetWalkTime nanEnv nanWalkState
        "000000000000000000000001" 7).1 = Except.ok resp ∧
      resp.DistanceMeters = quietNaN ∧
      resp.WalkTimeMinutes = -9223372036854775808 ∧
      resp.UrgencyLevel = "calm" ∧
      resp.RecommendedAction = "You have plenty of time" :=
  ⟨by decide, by decide, by decide, by decide, by decide,
    _, rfl, by decide, by decide, by decide, by decide⟩

/-! ## Theorems: write-back and the next read -/

/-- `GetFlightStatus` on a cache hit, as one equation. -/
theorem GetFlightStatus_of_cached (env : Env) (s : State) (flightNumber date data : String)
    (snapshot : FlightStatus)
    (hget : cacheLookup env.now s.redis ("flight:" ++ (flightNumber ++ "_" ++ date)) = some data)
    (hdec : env.unmarshal data = some snapshot) :
    FlightService.GetFlightStatus env s flightNumber date
      = (Except.ok (FlightService.buildFlightStatusResponse env snapshot),
         s.log (Event.redisGet ("flight:" ++ (flightNumber ++ "_" ++ date)))) := by
  have hv := getFlightStatusFromCache_value env s (flightNumber ++ "_" ++ date)
  have hs := getFlightStatusFromCache_state env s (flightNumber ++ "_" ++ date)
  rw [hget] at hv
  simp only [Option.bind, hdec] at hv
  have hc : FlightService.getFlightStatusFromCache env s (flightNumber ++ "_" ++ date)
      = (some snapshot, s.log (Event.redisGet ("flight:" ++ (flightNumber ++ "_" ++ date)))) :=
    Prod.ext hv hs
  simp only [FlightService.GetFlightStatus, hc]

/-- `GetFlightStatus` on a cache miss served from the store or, the store
missing too, from the provider: the snapshot served is the answer, it carries
the flight key asked for, and the cache afterwards starts with the encoded
snapshot under `"flight:" ++ key`, set at the time of the call with a TTL of
five minutes. -/
theorem GetFlightStatus_write_back_step (env : Env) (s : State) (flightNumber date bytes : String)
    (served : FlightStatus)
    (hmiss : (FlightService.getFlightStatusFromCache env s (flightNumber ++ "_" ++ date)).1 = none)
    (hserved : storeLookup s.flightStatus (flightNumber ++ "_" ++ date) = some served ∨
      (storeLookup s.flightStatus (flightNumber ++ "_" ++ date) = none ∧
        AviationService.fetch env flightNumber date = Except.ok served))
    (henc : env.marshal served = some bytes) :
    (FlightService.GetFlightStatus env s flightNumber date).1
      = Except.ok (FlightService.buildFlightStatusResponse env served) ∧
    served.FlightKey = flightNumber ++ "_" ++ date ∧
    ∃ rest, (FlightService.GetFlightStatus env s flightNumber date).2.redis
      = { key := "flight:" ++ (flightNumber ++ "_" ++ date), value := bytes, ttl := 5 * Minute,
          setAt := env.now } :: rest := by
  have hs := getFlightStatusFromCache_state env s (flightNumber ++ "_" ++ date)
  have hc : FlightService.getFlightStatusFromCache env s (flightNumber ++ "_" ++ date)
      = (none, s.log (Event.redisGet ("flight:" ++ (flightNumber ++ "_" ++ date)))) :=
    Prod.ext hmiss hs
  rcases hserved with hstore | ⟨hstore, hfetch⟩
  · have hkey := storeLookup_key _ _ _ hstore
    have hf : findOneFlightStatus
        (s.log (Event.redisGet ("flight:" ++ (flightNumber ++ "_" ++ date))))
        (flightNumber ++ "_" ++ date)
        = (some served, (s.log (Event.redisGet ("flight:" ++ (flightNumber ++ "_" ++ date)))).log
            (Event.findFlightStatus (flightNumber ++ "_" ++ date))) := by
      show (storeLookup s.flightStatus (flightNumber ++ "_" ++ date), _) = _
      rw [hstore]
    simp only [FlightService.GetFlightStatus, hc, hf, FlightService.cacheFlightStatus, henc, hkey]
    exact ⟨trivial, trivial, _, rfl⟩
  · have hkey := (fetch_flightKey env flightNumber date served hfetch).1
    have hf : findOneFlightStatus
        (s.log (Event.redisGet ("flight:" ++ (flightNumber ++ "_" ++ date))))
        (flightNumber ++ "_" ++ date)
        = (none, (s.log (Event.redisGet ("flight:" ++ (flightNumber ++ "_" ++ date)))).log
            (Event.findFlightStatus (flightNumber ++ "_" ++ date))) := by
      show (storeLookup s.flightStatus (flightNumber ++ "_" ++ date), _) = _
      rw [hstore]
    simp only [FlightService.GetFlightStatus, hc, hf, AviationService.GetFlightStatus, hfetch,
      FlightService.cacheFlightStatus, henc, hkey]
    exact ⟨trivial, trivial, _, rfl⟩

/-- C29: let a first `GetFlightStatus` miss the cache and be served from the
store or, the store missing too, from the provider, with a snapshot that
encodes to JSON.  The cache key written, `"flight:"` followed by the
snapshot's flight key, is the key looked up.  Let a second call with the same
arguments be made at a time `later` before the write time plus five minutes,
and let the cached bytes decode to a snapshot with the same gate, status and
delay.  Then the second call answers with a flight of the same gate, status
and delay minutes as the first, and the only thing it does is one cache `Get`:
its final state is the state after the first call with one `redisGet` event
added, so it makes no store read and no provider call. -/
theorem GetFlightStatus_write_back_then_hit (env : Env) (s : State)
    (flightNumber date bytes : String) (served decoded : FlightStatus) (later : Time)
    (hmiss : (FlightService.getFlightStatusFromCache env s (flightNumber ++ "_" ++ date)).1 = none)
    (hserved : storeLookup s.flightStatus (flightNumber ++ "_" ++ date) = some served ∨
      (storeLookup s.flightStatus (flightNumber ++ "_" ++ date) = none ∧
        AviationService.fetch env flightNumber date = Except.ok served))
    (henc : env.marshal served = some bytes)
    (hdec : env.unmarshal bytes = some decoded)
    (hround : decoded.Gate = served.Gate ∧ decoded.Status = served.Status ∧
      decoded.DelayMinutes = served.DelayMinutes)
    (hlater : later < env.now + 5 * Minute) :
    "flight:" ++ served.FlightKey = "flight:" ++ (flightNumber ++ "_" ++ date) ∧
    cacheLookup later (FlightService.GetFlightStatus env s flightNumber date).2.redis
      ("flight:" ++ (flightNumber ++ "_" ++ date)) = some bytes ∧
    (∃ first second,
      (FlightService.GetFlightStatus env s flightNumber date).1 = Except.ok first ∧
      (FlightService.GetFlightStatus { env with now := later }
        (FlightService.GetFlightStatus env s flightNumber date).2 flightNumber date).1
        = Except.ok second ∧
      second.Flight.Gate = first.Flight.Gate ∧ second.Flight.Status = first.Flight.Status ∧
      second.Flight.DelayMinutes = first.Flight.DelayMinutes) ∧
    (FlightService.GetFlightStatus { env with now := later }
        (FlightService.GetFlightStatus env s flightNumber date).2 flightNumber date).2
      = { (FlightService.GetFlightStatus env s flightNumber date).2 with
          trace := (FlightService.GetFlightStatus env s flightNumber date).2.trace ++
            [Event.redisGet ("flight:" ++ (flightNumber ++ "_" ++ date))] } := by
  obtain ⟨hres, hkey, rest, hredis⟩ :=
    GetFlightStatus_write_back_step env s flightNumber date bytes served hmiss hserved henc
  have hget : cacheLookup later (FlightService.GetFlightStatus env s flightNumber date).2.redis
      ("flight:" ++ (flightNumber ++ "_" ++ date)) = some bytes := by
    rw [hredis]
    simp [cacheLookup, CacheEntry.alive, hlater]
  have hsecond := GetFlightStatus_of_cached { env with now := later }
    (FlightService.GetFlightStatus env s flightNumber date).2 flightNumber date bytes decoded
    hget hdec
  refine ⟨by rw [hkey], hget, ⟨_, _, hres, congrArg Prod.fst hsecond, ?_, ?_, ?_⟩, ?_⟩
  · exact hround.1
  · exact hround.2.1
  · exact hround.2.2
  · rw [hsecond]
    rfl

/-- Witness for C29: AA123 served from the store at 09:00 and asked for again
one minute later. -/
theorem GetFlightStatus_write_back_then_hit_witness :
    "flight:" ++ (sampleStatus "A1" "4" "scheduled").FlightKey
      = "flight:" ++ ("AA123" ++ "_" ++ "2025-06-01") ∧
    cacheLookup 63884365260000000000
      (FlightService.GetFlightStatus (sampleEnv "gate A2") storeHitState "AA123" "2025-06-01").2.redis
      ("flight:" ++ ("AA123" ++ "_" ++ "2025-06-01")) = some "json/AA123_2025-06-01/A1/On Time" ∧
    (∃ first second,
      (FlightService.GetFlightStatus (sampleEnv "gate A2") storeHitState "AA123" "2025-06-01").1
        = Except.ok first ∧
      (FlightService.GetFlightStatus { sampleEnv "gate A2" with now := 63884365260000000000 }
        (FlightService.GetFlightStatus (sampleEnv "gate A2") storeHitState "AA123" "2025-06-01").2
        "AA123" "2025-06-01").1 = Except.ok second ∧
      second.Flight.Gate = first.Flight.Gate ∧ second.Flight.Status = first.Flight.Status ∧
      second.Flight.DelayMinutes = first.Flight.DelayMinutes) ∧
    (FlightService.GetFlightStatus { sampleEnv "gate A2" with now := 63884365260000000000 }
        (FlightService.GetFlightStatus (sampleEnv "gate A2") storeHitState "AA123" "2025-06-01").2
        "AA123" "2025-06-01").2
      = { (FlightService.GetFlightStatus (sampleEnv "gate A2") storeHitState
            "AA123" "2025-06-01").2 with
          trace := (FlightService.GetFlightStatus (sampleEnv "gate A2") storeHitState
            "AA123" "2025-06-01").2.trace ++
            [Event.redisGet ("flight:" ++ ("AA123" ++ "_" ++ "2025-06-01"))] } :=
  GetFlightStatus_write_back_then_hit (sampleEnv "gate A2") storeHitState "AA123" "2025-06-01"
    "json/AA123_2025-06-01/A1/On Time" (sampleStatus "A1" "4" "scheduled")
    (sampleStatus "A1" "4" "scheduled") 63884365260000000000
    (by rfl) (Or.inl (by decide)) (by rfl) (by rfl) (by decide) (by decide)

/-! ## Theorems: the haversine distance at identical coordinates -/

/-- C22: for a latitude and a longitude that are numbers, over `float64`
operations with the exact IEEE-754 and `math` values at `+0` and `1`,
`calculateDistance` between the point and itself is `0` metres, and the walk
time derived from it, `int(distance / 1.4 / 60)`, is `0`. -/
theorem calculateDistance_same_point (fl : FloatOps) (lat lon : Float64)
    (hfl : LocationService.exactAtZeroAndOne fl)
    (hpoint : LocationService.numberCoordinates fl lat lon) :
    LocationService.calculateDistance fl lat lon lat lon = fl.ofInt 0 ∧
    LocationService.walkMinutes fl (LocationService.calculateDistance fl lat lon lat lon) = 0 := by
  obtain ⟨mulPi, div180, div2, sin0, mul00, add00, sqrt0, sub10, sqrt1, atan01, mul20, mulR0,
    div14, div60, int0⟩ := hfl
  obtain ⟨hlat, hlon, hcos⟩ := hpoint
  have hdist : LocationService.calculateDistance fl lat lon lat lon = fl.ofInt 0 := by
    simp only [LocationService.calculateDistance, hlat, hlon, mulPi, div180, div2, sin0, mul00,
      hcos, add00, sqrt0, sub10, sqrt1, atan01, mul20, mulR0]
  refine ⟨hdist, ?_⟩
  rw [hdist]
  simp only [LocationService.walkMinutes, div14, div60, int0]

/-- Witness for C22: latitude 40 and longitude 73 in the sample arithmetic. -/
theorem calculateDistance_same_point_witness :
    LocationService.calculateDistance sampleFloat 40 73 40 73 = sampleFloat.ofInt 0 ∧
    LocationService.walkMinutes sampleFloat
      (LocationService.calculateDistance sampleFloat 40 73 40 73) = 0 :=
  calculateDistance_same_point sampleFloat 40 73 (by decide) (by decide)

/-! ## Theorems: polling a flight that has no stored status -/

/-- With no document stored for AA123, every `checkFlightUpdates` compares the
provider snapshot with the zero snapshot, records the same `status_change`
notification and stores nothing, so the next one does the same; the resolver
`GetFlightStatus`, on the same store miss, inserts the snapshot. -/
theorem checkFlightUpdates_missing_record_repeats :
    (FlightService.checkFlightUpdates (sampleEnv "gate A1") coldState
        sampleFlight).notifications.map (fun n => (n.Typ, n.Body))
      = [("status_change", "AA123 status changed to On Time")] ∧
    storeLookup (FlightService.checkFlightUpdates (sampleEnv "gate A1")
        (FlightService.checkFlightUpdates (sampleEnv "gate A1") coldState sampleFlight)
        sampleFlight).flightStatus "AA123_2025-06-01" = none ∧
    (FlightService.checkFlightUpdates (sampleEnv "gate A1")
        (FlightService.checkFlightUpdates (sampleEnv "gate A1") coldState sampleFlight)
        sampleFlight).notifications.map (fun n => (n.Typ, n.Body))
      = [("status_change", "AA123 status changed to On Time"), ("status_change", "AA123 status changed to On Time")] ∧
    storeLookup (FlightService.GetFlightStatus (sampleEnv "gate A1") coldState
        "AA123" "2025-06-01").2.flightStatus "AA123_2025-06-01"
      = some (sampleStatus "A1" "4" "scheduled") := by
  refine ⟨by decide, by decide, by decide, by decide⟩

end TravelSystem
